import Mathlib

/-!
# Untired-chatbot: the `/api/chat` turn pipeline

A shallow embedding of the prompt-assembly and response-annotation code of
`server-mongo.js` / `server.js` (the two variants share the directive parsing
code verbatim), together with the storage functions of `database-mongo.js`
they call.

JavaScript strings are modelled as `List Char`, one list element per UTF-16
code unit (the texts handled here are in the Basic Multilingual Plane, where
the two notions coincide).
-/

namespace UntireChatbot

/-! ## JavaScript string primitives -/

/-- A JavaScript string value. -/
abbrev JsString := List Char

/-- The characters `String.prototype.trim` and `parseInt` strip: ECMAScript
`WhiteSpace` and `LineTerminator`. -/
def isJsWhiteSpace (c : Char) : Bool :=
  c.toNat = 0x09 || c.toNat = 0x0A || c.toNat = 0x0B || c.toNat = 0x0C || c.toNat = 0x0D ||
  c.toNat = 0x20 || c.toNat = 0xA0 || c.toNat = 0x1680 ||
  (0x2000 ≤ c.toNat && c.toNat ≤ 0x200A) ||
  c.toNat = 0x2028 || c.toNat = 0x2029 || c.toNat = 0x202F || c.toNat = 0x205F ||
  c.toNat = 0x3000 || c.toNat = 0xFEFF

/-- `String.prototype.trimStart`. -/
def trimStart (s : JsString) : JsString := s.dropWhile isJsWhiteSpace

/-- `String.prototype.trim`: white space removed at both ends. -/
def trim (s : JsString) : JsString :=
  ((trimStart s).reverse.dropWhile isJsWhiteSpace).reverse

/-- Value of a digit in the given radix, as `parseInt` reads it. -/
def digitValue (radix : Nat) (c : Char) : Option Nat :=
  let v : Option Nat :=
    if '0'.toNat ≤ c.toNat ∧ c.toNat ≤ '9'.toNat then some (c.toNat - '0'.toNat)
    else if 'a'.toNat ≤ c.toNat ∧ c.toNat ≤ 'z'.toNat then some (c.toNat - 'a'.toNat + 10)
    else if 'A'.toNat ≤ c.toNat ∧ c.toNat ≤ 'Z'.toNat then some (c.toNat - 'A'.toNat + 10)
    else none
  match v with
  | some d => if d < radix then some d else none
  | none => none

/-- Reads the longest prefix of digits of the radix; `none` when there is no digit. -/
def parseDigits (radix : Nat) : Option Nat → JsString → Option Nat
  | acc, [] => acc
  | acc, c :: s =>
    match digitValue radix c with
    | some d => parseDigits radix (some (acc.getD 0 * radix + d)) s
    | none => acc

/-- The global `parseInt(string)` with no radix argument: leading white space
is skipped, a sign is read, a `0x`/`0X` prefix selects radix 16, and the
longest digit prefix is converted. `none` stands for `NaN`. -/
def parseInt (s : JsString) : Option Int :=
  let s1 := trimStart s
  let (neg, s2) :=
    match s1 with
    | '-' :: t => (true, t)
    | '+' :: t => (false, t)
    | t => (false, t)
  let (radix, s3) :=
    match s2 with
    | '0' :: 'x' :: t => (16, t)
    | '0' :: 'X' :: t => (16, t)
    | t => (10, t)
  match parseDigits radix none s3 with
  | some n => some (if neg then - (n : Int) else (n : Int))
  | none => none

/-- `String.prototype.replace(pattern, '')` with a string pattern: the first
occurrence of `pat` is deleted, the text is unchanged when there is none. -/
def replaceFirst (pat : JsString) : JsString → JsString
  | [] => []
  | x :: s =>
    if pat.isPrefixOf (x :: s) then (x :: s).drop pat.length
    else x :: replaceFirst pat s

/-! ## Regular expressions

Only the constructs of the three patterns of the handler: literal characters
and the greedy negated class `[^c]+`, inside a capturing group or not. -/

/-- One item of a pattern. -/
inductive RegexItem where
  /-- A literal character, e.g. `\[` or `V`. -/
  | lit (c : Char)
  /-- The quantified class `[^c]+`; `capture` tells whether it is written
  inside a capturing group `(...)`. -/
  | plusNot (c : Char) (capture : Bool)
  deriving DecidableEq, Repr

/-- A successful match attempt at one position. -/
structure MatchResult where
  /-- The matched substring, `match[0]`. -/
  matched : JsString
  /-- The capture groups, `match[1]`, `match[2]`, ... -/
  groups : List JsString
  /-- The input that follows the match. -/
  rest : JsString
  deriving DecidableEq, Repr

/-- Backtracking loop for `[^c]+`: `run` is what the class has consumed so
far; one more character is consumed, then the longer alternatives are tried
first (greedy) and the continuation `k` is tried on the current split only
when they all fail. -/
def plusNotLoop (c : Char) (k : JsString → JsString → Option MatchResult) :
    JsString → JsString → Option MatchResult
  | _, [] => none
  | run, x :: s =>
    if x = c then none
    else
      match plusNotLoop c k (run ++ [x]) s with
      | some r => some r
      | none => k (run ++ [x]) s

/-- Match attempt of a pattern at the start of the input (backtracking
semantics of ECMAScript). -/
def matchItems : List RegexItem → JsString → Option MatchResult
  | [], s => some ⟨[], [], s⟩
  | .lit _ :: _, [] => none
  | .lit c :: r, x :: s =>
    if x = c then (matchItems r s).map (fun m => { m with matched := x :: m.matched })
    else none
  | .plusNot c cap :: r, s =>
    plusNotLoop c
      (fun run t => (matchItems r t).map (fun m =>
        ⟨run ++ m.matched, if cap then run :: m.groups else m.groups, m.rest⟩))
      [] s

/-- Leftmost match at or after the current position `i`, where `s` is the
input from position `i` on. Returns the index of the match and the match. -/
def searchFrom (re : List RegexItem) : Nat → JsString → Option (Nat × MatchResult)
  | i, [] => (matchItems re []).map (fun m => (i, m))
  | i, x :: s =>
    match matchItems re (x :: s) with
    | some m => some (i, m)
    | none => searchFrom re (i + 1) s

/-- `RegExp.prototype.exec` of a pattern with the `g` flag: the search starts
at `lastIndex`; the result is the match (or `null`) and the new `lastIndex`
(the end of the match, or 0 after a failure). -/
def exec (re : List RegexItem) (str : JsString) (lastIndex : Nat) :
    Option (Nat × MatchResult) × Nat :=
  if lastIndex > str.length then (none, 0)
  else
    match searchFrom re lastIndex (str.drop lastIndex) with
    | some (i, m) => (some (i, m), i + m.matched.length)
    | none => (none, 0)

/-- `String.prototype.replace(/re/g, '')`: every match, found left to right
without overlap, is deleted. `skip` counts the characters of the current
match still to be dropped. The patterns used here never match the empty
string. -/
def replaceAllAux (re : List RegexItem) : Nat → JsString → JsString
  | _, [] => []
  | skip + 1, _ :: s => replaceAllAux re skip s
  | 0, x :: s =>
    match matchItems re (x :: s) with
    | some m => replaceAllAux re (m.matched.length - 1) s
    | none => x :: replaceAllAux re 0 s

/-- `str.replace(/re/g, '')`. -/
def replaceAll (re : List RegexItem) (str : JsString) : JsString :=
  replaceAllAux re 0 str

/-- The literal characters of a pattern. -/
def lits (s : String) : List RegexItem := s.toList.map RegexItem.lit

/-! ## Directive parsing (`app.post('/api/chat')`) -/

/-- The pattern `/\[VIDEO:([^:]+):([^\]]+)\]/g`. -/
def videoRegex : List RegexItem :=
  lits "[VIDEO:" ++ [.plusNot ':' true] ++ lits ":" ++ [.plusNot ']' true] ++ lits "]"

/-- The pattern `/\[VIDEO:[^\]]+\]/g` used to strip the video tags. -/
def videoStripRegex : List RegexItem :=
  lits "[VIDEO:" ++ [.plusNot ']' false] ++ lits "]"

/-- The pattern `/\[BREATHING:([^:]+):([^:]+):([^:]+):([^\]]+)\]/g`. -/
def breathingRegex : List RegexItem :=
  lits "[BREATHING:" ++ [.plusNot ':' true] ++ lits ":" ++ [.plusNot ':' true] ++ lits ":" ++
    [.plusNot ':' true] ++ lits ":" ++ [.plusNot ']' true] ++ lits "]"

/-- An entry of `videos`. -/
structure VideoDirective where
  title : JsString
  embedUrl : JsString
  deriving DecidableEq, Repr

/-- An entry of `breathingExercises`; `duration` is `none` for `NaN`. -/
structure BreathingDirective where
  title : JsString
  duration : Option Int
  pattern : JsString
  embedCode : JsString
  deriving DecidableEq, Repr

/-- The loop `while ((match = videoRegex.exec(response)) !== null) videos.push(...)`.
`none` when the fuel runs out before the loop ends. -/
def videoLoop (response : JsString) : Nat → Nat → List VideoDirective →
    Option (List VideoDirective)
  | 0, _, _ => none
  | fuel + 1, lastIndex, videos =>
    match exec videoRegex response lastIndex with
    | (some (_, m), lastIndex') =>
      videoLoop response fuel lastIndex'
        (videos ++ [⟨trim (m.groups.getD 0 []), trim (m.groups.getD 1 [])⟩])
    | (none, _) => some videos

/-- The loop over `breathingRegex.exec(response)`, whose body pushes the
entry and then reassigns `response = response.replace(match[0], '')` while
the pattern keeps its `lastIndex`. Returns the final `response` and the list.
`none` when the fuel runs out before the loop ends. -/
def breathingLoop : Nat → JsString → Nat → List BreathingDirective →
    Option (JsString × List BreathingDirective)
  | 0, _, _, _ => none
  | fuel + 1, response, lastIndex, acc =>
    match exec breathingRegex response lastIndex with
    | (some (_, m), lastIndex') =>
      breathingLoop fuel (replaceFirst m.matched response) lastIndex'
        (acc ++ [⟨m.groups.getD 0 [], parseInt (m.groups.getD 1 []),
                  m.groups.getD 2 [], m.groups.getD 3 []⟩])
    | (none, _) => some (response, acc)

/-- What the parsing step of the handler produces. -/
structure ParseResult where
  /-- The final `response`, persisted as the content of the assistant message. -/
  displayText : JsString
  videos : List VideoDirective
  breathing : List BreathingDirective
  deriving DecidableEq, Repr

/-- The parsing step of the handler (server-mongo.js lines 908-929, server.js
lines 747-774). -/
def parseDirectives (response : JsString) : Option ParseResult :=
  match videoLoop response (response.length + 1) 0 [] with
  | none => none
  | some videos =>
    let response1 := replaceAll videoStripRegex response
    match breathingLoop (response1.length + 1) response1 0 [] with
    | none => none
    | some (response2, breathing) => some ⟨response2, videos, breathing⟩

/-! ## JavaScript values -/

/-- The JavaScript values stored in the documents and read by the handler.
Numbers are the decimal numbers of a JSON body (no `NaN`, no infinity). -/
inductive JsValue where
  | undefined
  | null
  | bool (b : Bool)
  | num (q : ℚ)
  | str (s : JsString)
  deriving DecidableEq

/-- Truthiness, as tested by `x ? a : b`, `!x`, `x || y` and `x && y`. -/
def JsValue.truthy : JsValue → Bool
  | .undefined => false
  | .null => false
  | .bool b => b
  | .num q => decide (q ≠ 0)
  | .str s => !s.isEmpty

/-- The digits of the fractional part `r / d` (`r < d`), at most `fuel` of them. -/
def fracDigits : Nat → Nat → Nat → List Char
  | 0, _, _ => []
  | fuel + 1, r, d =>
    if r = 0 then [] else Nat.digitChar (r * 10 / d) :: fracDigits fuel (r * 10 % d) d

/-- `Number::toString` on the decimal numbers with at most 17 fractional
digits and magnitude below 1e21, where JavaScript prints plain decimal notation. -/
def numberToString (q : ℚ) : JsString :=
  (if q < 0 then ['-'] else []) ++
    (Nat.repr (q.num.natAbs / q.den)).toList ++
    (if q.num.natAbs % q.den = 0 then []
     else '.' :: fracDigits 17 (q.num.natAbs % q.den) q.den)

/-- String conversion, as done by a template literal `${x}`. -/
def JsValue.toStr : JsValue → JsString
  | .undefined => "undefined".toList
  | .null => "null".toList
  | .bool true => "true".toList
  | .bool false => "false".toList
  | .num q => numberToString q
  | .str s => s

/-- The operator `a ?? b`. -/
def JsValue.nullish (a b : JsValue) : JsValue :=
  match a with
  | .undefined => b
  | .null => b
  | v => v

/-- `String.prototype.toLowerCase` on one character: the Latin capitals, and
the Kelvin sign, the only other character whose lower case is an ASCII letter;
the other characters are kept (their lower case is never an ASCII string). -/
def toLowerChar (c : Char) : Char :=
  if 'A'.toNat ≤ c.toNat ∧ c.toNat ≤ 'Z'.toNat then Char.ofNat (c.toNat + 32)
  else if c.toNat = 0x212A then 'k'
  else c

/-- `String.prototype.toLowerCase`, exact for comparisons with ASCII strings. -/
def toLowerCase (s : JsString) : JsString := s.map toLowerChar

/-- `String.prototype.substring(0, n)`. -/
def substring0 (s : JsString) (n : Nat) : JsString := s.take n

/-- Lines joined by line feeds: the layout of a multi-line template literal. -/
def jsLines (ls : List JsString) : JsString := List.intercalate ['\n'] ls

/-! ## Documents of the store (`database-mongo.js`) -/

/-- A document of `profiles`. A field that the document does not have is
`undefined`. -/
structure Profile where
  user_id : JsString
  name : JsValue := .undefined
  age : JsValue := .undefined
  gender : JsValue := .undefined
  ethnicity : JsValue := .undefined
  cancer_type : JsValue := .undefined
  treatment_stage : JsValue := .undefined
  diagnosis_date : JsValue := .undefined
  current_fatigue_level : JsValue := .undefined
  location : JsValue := .undefined
  support_system : JsValue := .undefined
  last_fatigue_asked_date : JsValue := .undefined
  dynamic_profile : JsValue := .undefined
  deriving DecidableEq

/-- A document of `user_settings`. -/
structure UserSettings where
  user_id : JsString
  behavior_type : JsValue
  agentic_features : JsValue
  chat_only : JsValue
  deriving DecidableEq

/-- The document of `ai_settings` with key `global`. `enabled_tools` is
`none` when the field is missing or null. -/
structure AISettings where
  system_prompt : JsValue
  temperature : JsValue
  max_tokens : JsValue
  model : JsValue
  enabled_tools : Option (List JsString)
  verbosity : JsValue
  memory_enabled : JsValue
  accessible_user_fields : List JsString
  deriving DecidableEq

/-- A document of `chats`. -/
structure Chat where
  _id : JsString
  user_id : JsString
  title : JsString
  initial_fatigue_level : JsValue
  deriving DecidableEq

/-- The `media` field of a message. -/
structure Media where
  videos : Option (List VideoDirective)
  breathing : Option (List BreathingDirective)
  deriving DecidableEq

/-- A document of `messages`. -/
structure Message where
  chat_id : JsString
  role : JsString
  content : JsString
  media : Option Media
  deriving DecidableEq

/-- A document of `videos`. -/
structure VideoEntry where
  title : JsString
  url : JsValue
  embed_url : JsValue
  deriving DecidableEq

/-- A document of `breathing_exercises`. -/
structure BreathingEntry where
  title : JsString
  description : JsValue
  duration : JsValue
  pattern : JsValue
  embed_code : JsValue
  deriving DecidableEq

/-- The collections of the database. `messages` is kept in insertion order,
which is the order of the `timestamp` field. -/
structure Db where
  users : List JsString
  profiles : List Profile
  chats : List Chat
  messages : List Message
  user_settings : List UserSettings
  ai_settings : Option AISettings
  videos : List VideoEntry
  breathing_exercises : List BreathingEntry
  deriving DecidableEq

/-- `getOrCreateUser`: the user document is inserted when it is missing. -/
def getOrCreateUser (db : Db) (userId : JsString) : Db :=
  if userId ∈ db.users then db else { db with users := db.users ++ [userId] }

/-- `getProfile`: `findOne({ user_id })`. -/
def getProfile (db : Db) (userId : JsString) : Option Profile :=
  db.profiles.find? (fun p => p.user_id = userId)

/-- `getDynamicProfile`: `profile?.dynamic_profile || ''`. -/
def getDynamicProfile (db : Db) (userId : JsString) : JsValue :=
  match getProfile db userId with
  | none => .str []
  | some p => if p.dynamic_profile.truthy then p.dynamic_profile else .str []

/-- `getUserSettings`: the settings of the user, created with the defaults on
first access. -/
def getUserSettings (db : Db) (userId : JsString) : UserSettings × Db :=
  match db.user_settings.find? (fun s => s.user_id = userId) with
  | some s => (s, db)
  | none =>
    let s : UserSettings :=
      ⟨userId, .str "empathetic".toList, .bool true, .bool false⟩
    (s, { db with user_settings := db.user_settings ++ [s] })

/-- The text of `getDefaultSystemPrompt()`. -/
def getDefaultSystemPrompt : JsString :=
  jsLines [
    "You are \"Untire Coach,\" a warm, empathetic AI companion for adults experiencing cancer-related fatigue. Your role is to have flowing, supportive conversations that help patients feel heard and understood.".toList,
    "".toList,
    "CONVERSATION APPROACH:".toList,
    "- Be PROACTIVE: If the user doesn't provide much information, take the initiative to start meaningful topics".toList,
    "- Use the dynamic profile to reference things you know about them".toList,
    "- Ask thoughtful follow-up questions to better understand their situation".toList,
    "- Be genuinely curious about their daily experience, energy patterns, and challenges".toList,
    "- Guide conversations naturally through topics like sleep, activity levels, emotional state, support systems".toList,
    "- Offer gentle, practical strategies when appropriate".toList,
    "- Always validate their feelings and experiences".toList,
    "".toList,
    "RESPONSE STYLE:".toList,
    "- Keep responses conversational (100-180 words)".toList,
    "- Always end with a thoughtful question to continue the dialogue".toList,
    "- Use empathetic language that shows you're listening".toList,
    "- Be specific in your questions (not generic)".toList,
    "- Reference specific details from their profile when relevant".toList,
    "".toList,
    "IMPORTANT: This is educational support, not medical advice. Encourage them to discuss significant concerns with their healthcare team.".toList]

/-- The defaults of `getAISettings`. -/
def defaultAISettings : AISettings where
  system_prompt := .str getDefaultSystemPrompt
  temperature := .num (8 / 10)
  max_tokens := .num 500
  model := .str "gpt-5.1".toList
  enabled_tools := some ["videos".toList, "breathing".toList, "quiz".toList,
    "journaling".toList, "activity_tracking".toList]
  verbosity := .str "medium".toList
  memory_enabled := .bool true
  accessible_user_fields := ["name".toList, "age".toList, "cancer_type".toList,
    "treatment_stage".toList, "fatigue_level".toList, "gender".toList,
    "ethnicity".toList, "location".toList]

/-- `getAISettings`: the global settings, created with the defaults on first
access. -/
def getAISettings (db : Db) : AISettings × Db :=
  match db.ai_settings with
  | some s => (s, db)
  | none => (defaultAISettings, { db with ai_settings := some defaultAISettings })

/-- `getChat`: `findOne({ _id: chatId })`. -/
def getChat (db : Db) (chatId : JsString) : Option Chat :=
  db.chats.find? (fun c => c._id = chatId)

/-- `createChat`: the default `null` of the last parameter applies when the
argument is `undefined`; the inserted chat is read back. -/
def createChat (db : Db) (chatId userId title : JsString) (initialFatigueLevel : JsValue) :
    Option Chat × Db :=
  let level := if initialFatigueLevel = .undefined then JsValue.null else initialFatigueLevel
  let db1 := { db with chats := db.chats ++ [⟨chatId, userId, title, level⟩] }
  (getChat db1 chatId, db1)

/-- `updateChatTitle`: `updateOne({ _id }, { $set: { title } })`, which updates
the first matching document. -/
def updateChatTitle (db : Db) (chatId title : JsString) : Db :=
  { db with chats := db.chats.map (fun c => if c._id = chatId then { c with title := title } else c) }

/-- `addMessage`. -/
def addMessage (db : Db) (chatId role content : JsString) (media : Option Media) : Db :=
  { db with messages := db.messages ++ [⟨chatId, role, content, media⟩] }

/-- `getChatMessages`: the messages of the chat in time order. -/
def getChatMessages (db : Db) (chatId : JsString) : List Message :=
  db.messages.filter (fun m => m.chat_id = chatId)

/-- `getAllVideos`: the whole collection sorted by title. -/
def getAllVideos (db : Db) : List VideoEntry :=
  db.videos.insertionSort (fun a b => a.title ≤ b.title)

/-- `getAllBreathingExercises`: the whole collection sorted by title. -/
def getAllBreathingExercises (db : Db) : List BreathingEntry :=
  db.breathing_exercises.insertionSort (fun a b => a.title ≤ b.title)

/-! ## Prompt Composer (`generateSystemPrompt`, server-mongo.js) -/

/-- The value of a decimal literal `digits[.digits]`, `none` when the text is
not of this form. -/
def decimalValue (s : JsString) : Option ℚ :=
  let ip := s.takeWhile Char.isDigit
  let rest := s.dropWhile Char.isDigit
  let iv : ℚ := ((parseDigits 10 none ip).getD 0 : Nat)
  match rest with
  | [] => if ip.isEmpty then none else some iv
  | '.' :: fp =>
    if fp.all Char.isDigit ∧ ¬ (ip.isEmpty ∧ fp.isEmpty) then
      some (iv + ((parseDigits 10 none fp).getD 0 : Nat) / (10 ^ fp.length : Nat))
    else none
  | _ => none

/-- `ToNumber` as applied by the relational operators; `none` stands for `NaN`.
Strings are read as signed decimal literals (the empty string is 0); the
exponent, hexadecimal and `Infinity` forms of a numeric string are not
modelled and read as `NaN`. -/
def JsValue.toNumber : JsValue → Option ℚ
  | .undefined => none
  | .null => some 0
  | .bool true => some 1
  | .bool false => some 0
  | .num q => some q
  | .str s =>
    match trim s with
    | [] => some 0
    | '-' :: t => (decimalValue t).map (fun q => -q)
    | '+' :: t => decimalValue t
    | t => decimalValue t

/-- The comparison `v >= k` with a number `k`; false when `v` converts to `NaN`. -/
def JsValue.ge (v : JsValue) (k : ℚ) : Bool :=
  match v.toNumber with
  | some q => decide (k ≤ q)
  | none => false

/-- The text `fatigueGuidance`. -/
def fatigueGuidance (fatigueLevel : JsValue) : JsString :=
  if fatigueLevel ≠ .null ∧ fatigueLevel ≠ .undefined then
    if fatigueLevel.ge 8 then
      jsLines [
        "CRITICAL: The user's current fatigue level is ".toList ++ fatigueLevel.toStr ++ "/10, which indicates severe fatigue. ".toList,
        "- Be extra gentle and validating - they are likely struggling significantly".toList,
        "- Focus on rest, self-compassion, and managing basic daily needs".toList,
        "- Avoid suggesting activities that require energy".toList,
        "- Emphasize that this level of fatigue is valid and they're not alone".toList,
        "- Be patient if responses are brief or they seem withdrawn".toList]
    else if fatigueLevel.ge 6 then
      jsLines [
        "IMPORTANT: The user's current fatigue level is ".toList ++ fatigueLevel.toStr ++ "/10, indicating moderate-to-severe fatigue.".toList,
        "- Acknowledge the significant impact this has on their daily life".toList,
        "- Focus on gentle strategies and realistic expectations".toList,
        "- Be understanding if they mention struggling with daily tasks".toList,
        "- Encourage pacing and rest breaks".toList,
        "- Validate the difficulty of managing moderate fatigue".toList]
    else if fatigueLevel.ge 4 then
      jsLines [
        "The user's current fatigue level is ".toList ++ fatigueLevel.toStr ++ "/10, indicating moderate fatigue.".toList,
        "- They may have some energy but still experience significant limitations".toList,
        "- Balance encouragement with realistic expectations".toList,
        "- Suggest gentle activities and pacing strategies".toList,
        "- Acknowledge that even moderate fatigue can be challenging".toList]
    else
      jsLines [
        "The user's current fatigue level is ".toList ++ fatigueLevel.toStr ++ "/10, indicating mild fatigue.".toList,
        "- They may have more capacity for activities and strategies".toList,
        "- Still be gentle and validate their experience".toList,
        "- Can suggest more active coping strategies while respecting their limits".toList]
  else []

/-- One line of the profile block: `${v ? label + v : ''}`. -/
def profileLine (label : String) (v : JsValue) : JsString :=
  if v.truthy then label.toList ++ v.toStr else []

/-- The line of the typical fatigue level, guarded by `!== null` only. -/
def fatigueProfileLine (v : JsValue) : JsString :=
  if v ≠ .null then "- Typical fatigue level: ".toList ++ v.toStr ++ "/10".toList else []

/-- The lines of the template literal `profileInfo` of server-mongo.js. -/
def profileInfoLines (p : Profile) : List JsString :=
  [ [],
    "USER PROFILE:".toList,
    profileLine "- Name: " p.name,
    profileLine "- Age: " p.age,
    profileLine "- Gender: " p.gender,
    profileLine "- Ethnicity: " p.ethnicity,
    profileLine "- Cancer Type: " p.cancer_type,
    profileLine "- Treatment Stage: " p.treatment_stage,
    profileLine "- Diagnosis Date: " p.diagnosis_date,
    fatigueProfileLine p.current_fatigue_level,
    profileLine "- Location: " p.location,
    profileLine "- Support System: " p.support_system,
    [] ]

/-- The text `profileInfo` of server-mongo.js: empty without a profile. -/
def profileInfo (profile : Option Profile) : JsString :=
  match profile with
  | some p => jsLines (profileInfoLines p)
  | none => []

/-- The lines of the template literal `profileInfo` of server.js. -/
def profileInfoLinesSimple (p : Profile) : List JsString :=
  [ [],
    "USER PROFILE:".toList,
    profileLine "- Name: " p.name,
    profileLine "- Age: " p.age,
    fatigueProfileLine p.current_fatigue_level,
    [] ]

/-- The text `profileInfo` of server.js. -/
def profileInfoSimple (profile : Option Profile) : JsString :=
  match profile with
  | some p => jsLines (profileInfoLinesSimple p)
  | none => []

/-- The text `dynamicProfileSection`. -/
def dynamicProfileSection (dynamicProfile : JsValue) : JsString :=
  if dynamicProfile.truthy then
    jsLines [
      [],
      "DYNAMIC PROFILE (learned from conversations):".toList,
      dynamicProfile.toStr,
      [],
      "Use this information to personalize your responses and remember important details about the user.".toList,
      []]
  else []

/-- The text `behaviorGuidance`. -/
def behaviorGuidance (userSettings : UserSettings) : JsString :=
  if userSettings.behavior_type = .str "empathetic".toList then
    "- Use warm, empathetic language\n- Show deep understanding and validation\n- Be gentle and supportive".toList
  else if userSettings.behavior_type = .str "practical".toList then
    "- Focus on actionable strategies\n- Be direct but kind\n- Offer concrete suggestions".toList
  else if userSettings.behavior_type = .str "encouraging".toList then
    "- Use positive, uplifting language\n- Highlight progress and strengths\n- Be motivational".toList
  else
    "- Use warm, empathetic language\n- Show deep understanding and validation\n- Be gentle and supportive".toList

/-- The array `aiSettings.enabled_tools || []`. -/
def enabledToolsOf (aiSettings : AISettings) : List JsString :=
  aiSettings.enabled_tools.getD []

/-- The test `settings?.agentic_features && !settings?.chat_only`. -/
def toolsAllowed (userSettings : UserSettings) : Bool :=
  userSettings.agentic_features.truthy && !userSettings.chat_only.truthy

/-- One line of the agentic block: `${enabledTools.includes(tool) ? text : ''}`. -/
def toolLine (enabledTools : List JsString) (tool text : String) : JsString :=
  if tool.toList ∈ enabledTools then text.toList else []

/-- The text `agenticGuidance`. -/
def agenticGuidance (aiSettings : AISettings) (userSettings : UserSettings) : JsString :=
  let enabledTools := enabledToolsOf aiSettings
  if toolsAllowed userSettings then
    jsLines [
      [],
      "AGENTIC FEATURES ENABLED:".toList,
      toolLine enabledTools "videos" "- You can suggest meditation videos when the user expresses stress, anxiety, or overwhelm\n- Use the format: [VIDEO:title:embed_url] to embed videos in your response",
      toolLine enabledTools "breathing" "- You can suggest breathing exercises when the user needs quick stress relief or relaxation\n- Use the format: [BREATHING:title:duration:pattern:embed_code] to embed breathing exercises",
      toolLine enabledTools "journaling" "- You can suggest journaling prompts for self-reflection\n- Use the format: [JOURNAL:prompt_text]",
      toolLine enabledTools "activity_tracking" "- You can help track daily activities and energy levels\n- Use the format: [ACTIVITY:type:duration:energy_level]",
      toolLine enabledTools "mood_tracking" "- You can help track mood and emotional states\n- Use the format: [MOOD:emotion:intensity:notes]",
      "- Only suggest tools when genuinely helpful, not in every response".toList,
      "- Detect emotional states like stress, anxiety, worry, overwhelm, panic".toList,
      "- When suggesting a tool, briefly explain why it might help".toList,
      []]
  else []

/-- The text `basePrompt`: the configured system prompt, or the built-in one. -/
def basePrompt (aiSettings : AISettings) : JsString :=
  if aiSettings.system_prompt.truthy then aiSettings.system_prompt.toStr
  else "You are \"Untire Coach,\" a warm, empathetic AI companion for adults experiencing cancer-related fatigue. Your role is to have flowing, supportive conversations that help patients feel heard and understood.".toList

/-- The text `verbosityGuidance`. -/
def verbosityGuidance (aiSettings : AISettings) : JsString :=
  if aiSettings.verbosity = .str "low".toList then
    "\nRESPONSE LENGTH: Keep responses brief (50-100 words)".toList
  else if aiSettings.verbosity = .str "high".toList then
    "\nRESPONSE LENGTH: Provide detailed, comprehensive responses (150-250 words)".toList
  else
    "\nRESPONSE LENGTH: Keep responses conversational (100-180 words)".toList

/-- The body of `generateSystemPrompt` once the global settings are read. -/
def composePrompt (aiSettings : AISettings) (profile : Option Profile) (fatigueLevel : JsValue)
    (userSettings : UserSettings) (dynamicProfile : JsValue) : JsString :=
  jsLines [
    basePrompt aiSettings,
    [],
    profileInfo profile,
    [],
    dynamicProfileSection dynamicProfile,
    [],
    fatigueGuidance fatigueLevel,
    [],
    "BEHAVIOR TYPE: ".toList ++
      (if userSettings.behavior_type.truthy then userSettings.behavior_type.toStr
       else "empathetic".toList),
    behaviorGuidance userSettings,
    [],
    agenticGuidance aiSettings userSettings,
    [],
    "CONVERSATION APPROACH:".toList,
    "- Be PROACTIVE: If the user doesn't provide much information or says something vague like \"hello\" or \"hi\", take the initiative to start meaningful topics".toList,
    "- Use the dynamic profile to reference things you know about them (e.g., \"How is your cat doing?\" or \"I remember you mentioned...\")".toList,
    "- Ask thoughtful follow-up questions to better understand their situation".toList,
    "- Be genuinely curious about their daily experience, energy patterns, and challenges".toList,
    "- Guide conversations naturally through topics like sleep, activity levels, emotional state, support systems".toList,
    "- Offer gentle, practical strategies when appropriate".toList,
    "- Always validate their feelings and experiences".toList,
    "- ".toList ++
      (if fatigueLevel ≠ .null then
        "Remember their current fatigue level (".toList ++ fatigueLevel.toStr ++ "/10) and adapt your suggestions accordingly".toList
       else []),
    "- Update your understanding of the user based on what they share".toList,
    "- When starting conversations or when user input is minimal, suggest specific topics or ask about things relevant to their profile".toList,
    [],
    verbosityGuidance aiSettings,
    "- Always end with a thoughtful question to continue the dialogue".toList,
    "- Use empathetic language that shows you're listening".toList,
    "- Be specific in your questions (not generic)".toList,
    "- Adapt your energy and suggestions to match their fatigue level".toList,
    "- Reference specific details from their profile when relevant to show you remember them".toList,
    "- If the user gives a brief response or doesn't provide much detail, be proactive and suggest topics or ask about specific aspects of their life based on what you know".toList,
    [],
    "IMPORTANT: This is educational support, not medical advice. Encourage them to discuss significant concerns with their healthcare team.".toList,
    [],
    "Focus on creating a supportive dialogue rather than just giving advice.".toList]

/-- `generateSystemPrompt(profile, fatigueLevel, userSettings, dynamicProfile)`
of server-mongo.js: reads the global settings, then composes the text. -/
def generateSystemPrompt (db : Db) (profile : Option Profile) (fatigueLevel : JsValue)
    (userSettings : UserSettings) (dynamicProfile : JsValue) : JsString × Db :=
  let (aiSettings, db1) := getAISettings db
  (composePrompt aiSettings profile fatigueLevel userSettings dynamicProfile, db1)

/-! ## The chat turn (`app.post('/api/chat')`, server-mongo.js) -/

/-- The rule of 40 characters that frames the titles of the catalog blocks. -/
def catalogRule : JsString :=
  "\u00E2\u201D\u00E2\u201D\u00E2\u201D\u00E2\u201D\u00E2\u201D\u00E2\u201D\u00E2\u201D\u00E2\u201D\u00E2\u201D\u00E2\u201D\u00E2\u201D\u00E2\u201D\u00E2\u201D\u00E2\u201D\u00E2\u201D\u00E2\u201D\u00E2\u201D\u00E2\u201D\u00E2\u201D\u00E2\u201D\u00E2\u201D\u00E2\u201D\u00E2\u201D\u00E2\u201D\u00E2\u201D\u00E2\u201D\u00E2\u201D\u00E2\u201D\u00E2\u201D\u00E2\u201D\u00E2\u201D\u00E2\u201D\u00E2\u201D\u00E2\u201D\u00E2\u201D\u00E2\u201D\u00E2\u201D\u00E2\u201D\u00E2\u201D\u00E2\u201D".toList

/-- The catalog item of one video. -/
def videoItem (v : VideoEntry) : JsString :=
  "\u011F\u0178\u201C\u00B9 ".toList ++ v.title ++ "\n   Format: [VIDEO:".toList ++ v.title ++
    ":".toList ++ v.embed_url.toStr ++ "]".toList

/-- The block appended to `videoContext` when the video catalog is not empty. -/
def videoCatalogBlock (availableVideos : List VideoEntry) : JsString :=
  "\n\n".toList ++ jsLines [
    catalogRule,
    "\u011F\u0178\u00A5 AVAILABLE MEDITATION VIDEOS - USE THESE PROACTIVELY!".toList,
    catalogRule,
    List.intercalate "\n\n".toList (availableVideos.map videoItem),
    [],
    "WHEN TO USE VIDEOS:".toList,
    "\u00E2\u0153\u201C User mentions stress, anxiety, overwhelm, racing thoughts".toList,
    "\u00E2\u0153\u201C User needs help winding down or relaxing".toList,
    "\u00E2\u0153\u201C User asks for guided exercises or meditation".toList,
    "\u00E2\u0153\u201C After a difficult conversation - offer as a calming resource".toList,
    "\u00E2\u0153\u201C When user seems emotionally distressed".toList,
    "\u00E2\u0153\u201C User mentions insomnia or sleep difficulties".toList,
    [],
    "HOW TO USE: Simply include [VIDEO:title:embed_url] naturally in your response.".toList,
    "Example: \"I have a gentle meditation that might help. [VIDEO:10 Minute Guided Meditation:https://youtube.com/embed/xyz]\"".toList]

/-- The catalog item of one breathing exercise; the tag it advertises ends
with `${b.embed_code || ''}`. -/
def breathingItem (b : BreathingEntry) : JsString :=
  jsLines [
    "\u011F\u0178\u2019\u00A8 ".toList ++ b.title ++ " (".toList ++ b.duration.toStr ++ "s)".toList,
    "   Pattern: ".toList ++ b.pattern.toStr,
    "   Format: [BREATHING:".toList ++ b.title ++ ":".toList ++ b.duration.toStr ++ ":".toList ++
      b.pattern.toStr ++ ":".toList ++
      (if b.embed_code.truthy then b.embed_code.toStr else []) ++ "]".toList]

/-- The block appended to `videoContext` when the breathing catalog is not empty. -/
def breathingCatalogBlock (availableBreathing : List BreathingEntry) : JsString :=
  "\n\n".toList ++ jsLines [
    catalogRule,
    "\u011F\u0178\u00AB BREATHING EXERCISES - OFFER THESE FREQUENTLY!".toList,
    catalogRule,
    List.intercalate "\n\n".toList (availableBreathing.map breathingItem),
    [],
    "WHEN TO USE BREATHING EXERCISES:".toList,
    "\u00E2\u0153\u201C User mentions anxiety, panic, or feeling overwhelmed".toList,
    "\u00E2\u0153\u201C Quick relief for immediate stress".toList,
    "\u00E2\u0153\u201C User feels tense or restless".toList,
    "\u00E2\u0153\u201C Before bed for better sleep".toList,
    "\u00E2\u0153\u201C During fatigue spikes for energy reset".toList,
    "\u00E2\u0153\u201C When user needs grounding".toList,
    "\u00E2\u0153\u201C At least once per conversation if user seems stressed".toList,
    [],
    "HOW TO USE: Include [BREATHING:title:duration:pattern:embedcode] in your response.".toList,
    "Example: \"Let's take a moment to breathe together. [BREATHING:Box Breathing:60:Inhale 4s, Hold 4s, Exhale 4s, Hold 4s:]\"".toList,
    [],
    "\u00E2\u0161\u00A0\u00EF\u00B8 IMPORTANT: Be PROACTIVE with these tools! Don't wait for users to ask - suggest them when appropriate.".toList]

/-- The text `videoContext`: the tool catalog blocks. -/
def videoContext (availableVideos : List VideoEntry) (availableBreathing : List BreathingEntry) :
    JsString :=
  (if availableVideos.length > 0 then videoCatalogBlock availableVideos else []) ++
  (if availableBreathing.length > 0 then breathingCatalogBlock availableBreathing else [])

/-- The catalogs offered on this turn (`availableVideos`, `availableBreathing`). -/
def availableCatalogs (db : Db) (aiSettings : AISettings) (settings : UserSettings) :
    List VideoEntry × List BreathingEntry :=
  let enabledTools := enabledToolsOf aiSettings
  if toolsAllowed settings then
    (if "videos".toList ∈ enabledTools then getAllVideos db else [],
     if "breathing".toList ∈ enabledTools then getAllBreathingExercises db else [])
  else ([], [])

/-- The array `briefMessages`. -/
def briefMessages : List JsString :=
  ["hi".toList, "hello".toList, "hey".toList, "ok".toList, "okay".toList, "yes".toList,
   "no".toList, "thanks".toList, "thank you".toList]

/-- The flag `isBriefMessage`. -/
def isBriefMessage (message : JsString) : Bool :=
  decide (trim (toLowerCase message) ∈ briefMessages) || decide ((trim message).length < 10)

/-- The text `proactiveNote`. -/
def proactiveNote (message : JsString) : JsString :=
  "\n\nNOTE: The user's last message was brief or vague (\"".toList ++ message ++
    "\"). Be PROACTIVE - start a meaningful topic, reference something from their profile, or ask about specific aspects of their day/energy/situation. Don't just acknowledge - engage!".toList

/-- The text `finalSystemPrompt`: the note is appended to `systemPrompt`
first, then `videoContext`. -/
def finalSystemPrompt (systemPrompt message : JsString) (historyLength : Nat)
    (videoContext : JsString) : JsString :=
  (if isBriefMessage message ∧ historyLength > 0 then systemPrompt ++ proactiveNote message
   else systemPrompt) ++ videoContext

/-- The text `fallbackResponse`. -/
def fallbackResponse : JsString :=
  "Thank you for reaching out and sharing with me. I can sense that you're looking for support with cancer-related fatigue, and I want you to know that what you're experiencing is completely valid.\n\nI'm currently running in demo mode, but I'm still here to listen and have a real conversation with you. Cancer-related fatigue isn't just being tired - it can feel like it touches every part of your day, can't it?\n\nI'd love to understand more about what you're going through. What does a typical day look like for you right now? Are there particular times when the fatigue feels heavier?\n\n*This is educational support to complement your healthcare team's care.*".toList

/-- The title given to a chat on its first user message. -/
def titleOf (message : JsString) : JsString :=
  substring0 message 50 ++ (if message.length > 50 then "...".toList else [])

/-- The condition under which the handler of server-mongo.js calls
`extractProfileInfo`, on the number of messages of the chat after the
assistant message is stored. -/
def shouldExtract (aiSettings : AISettings) (count : Nat) : Bool :=
  (decide (count ≥ 2) && aiSettings.memory_enabled.truthy) && decide (count % 2 = 0)

/-- The same condition in server.js, which has no memory setting. -/
def shouldExtractSimple (count : Nat) : Bool :=
  decide (count ≥ 2) && decide (count % 2 = 0)

/-- The media argument of the last `addMessage`: `null` when no key of
`mediaContent` holds a list. -/
def mediaContent (videos : List VideoDirective) (breathing : List BreathingDirective) :
    Option Media :=
  let m : Media :=
    ⟨if videos.length > 0 then some videos else none,
     if breathing.length > 0 then some breathing else none⟩
  if m.videos.isSome ∨ m.breathing.isSome then some m else none

/-- The body of a chat request, with the user set by `authenticateUser`.
`none` is a missing field. -/
structure ChatRequest where
  userId : JsString
  chatId : Option JsString
  message : Option JsString
  initialFatigueLevel : JsValue
  deriving DecidableEq

/-- An entry of `formattedMessages`. -/
structure ChatTurn where
  role : JsString
  content : JsString
  deriving DecidableEq

/-- The argument of `openai.chat.completions.create`. -/
structure ModelRequest where
  model : JsValue
  system : JsString
  messages : List ChatTurn
  max_tokens : JsValue
  temperature : JsValue
  deriving DecidableEq

/-- The arguments of a call of `extractProfileInfo`. -/
structure ExtractionCall where
  userId : JsString
  conversationHistory : List ChatTurn
  currentProfile : JsValue
  deriving DecidableEq

/-- The JSON body of the response. -/
inductive ResponseBody where
  /-- `{ error }` of a rejected request. -/
  | error (error : JsString)
  /-- `{ error: 'Failed to process request', details }` of the catch block. -/
  | failure
  /-- `{ response, videos?, breathing? }`. -/
  | reply (response : JsString) (videos : Option (List VideoDirective))
      (breathing : Option (List BreathingDirective))
  deriving DecidableEq

/-- What a turn leaves behind: the store, the HTTP response, the request sent
to the model provider (if any) and the detached extraction call (if any). -/
structure TurnOutcome where
  db : Db
  status : Nat
  body : ResponseBody
  modelRequest : Option ModelRequest
  extraction : Option ExtractionCall
  deriving DecidableEq

/-- `conversationHistory.map(m => ({ role: ..., content: m.content }))`. -/
def formatMessages (history : List Message) : List ChatTurn :=
  history.map (fun m =>
    ⟨if m.role = "user".toList then "user".toList else "assistant".toList, m.content⟩)

/-- `xs.slice(-10)`: the last ten elements. -/
def lastTen {α : Type} (xs : List α) : List α := xs.drop (xs.length - 10)

/-- The lookup or creation of the chat at the start of the handler. -/
def resolveChat (db : Db) (req : ChatRequest) : Option Chat × Db :=
  match req.chatId with
  | none => (none, db)
  | some chatId =>
    if chatId.isEmpty then (none, db)
    else
      match getChat db chatId with
      | some chat => (some chat, db)
      | none => createChat db chatId req.userId "New Chat".toList req.initialFatigueLevel

/-- The fatigue level of the turn:
`chat.initial_fatigue_level ?? profile?.current_fatigue_level ?? null`. -/
def effectiveFatigueLevel (chat : Chat) (profile : Option Profile) : JsValue :=
  chat.initial_fatigue_level.nullish
    (((profile.map (fun (p : Profile) => p.current_fatigue_level)).getD .undefined).nullish .null)

/-- The part of the handler that follows a reply of the model: the directives
are parsed, the assistant message is stored, the profile extraction is
triggered and the response is sent. `none` only if the parser runs out of fuel. -/
def completeTurn (db : Db) (userId : JsString) (chat : Chat) (aiSettings : AISettings)
    (dynamicProfile : JsValue) (request : ModelRequest) (response : JsString) :
    Option TurnOutcome :=
  match parseDirectives response with
  | none => none
  | some parsed =>
    let db1 := addMessage db chat._id "assistant".toList parsed.displayText
      (mediaContent parsed.videos parsed.breathing)
    let updatedFormattedMessages := formatMessages (getChatMessages db1 chat._id)
    let extraction :=
      if shouldExtract aiSettings updatedFormattedMessages.length then
        some ⟨userId, updatedFormattedMessages, dynamicProfile⟩
      else none
    some ⟨db1, 200,
      .reply (trim parsed.displayText)
        (if parsed.videos.length > 0 then some parsed.videos else none)
        (if parsed.breathing.length > 0 then some parsed.breathing else none),
      some request, extraction⟩

/-- The handler of `POST /api/chat` (server-mongo.js lines 768-985).
`OPENAI_API_KEY` is the environment variable; `callModel` is the provider
call, `none` when it throws. Storage calls are taken to succeed. -/
def chatHandler (OPENAI_API_KEY : JsValue) (callModel : ModelRequest → Option JsString)
    (db : Db) (req : ChatRequest) : Option TurnOutcome :=
  let message := req.message.getD []
  if message.isEmpty then
    some ⟨db, 400, .error "Missing required field: message".toList, none, none⟩
  else
    let db1 := getOrCreateUser db req.userId
    let profile := getProfile db1 req.userId
    let (settings, db2) := getUserSettings db1 req.userId
    let dynamicProfile := getDynamicProfile db2 req.userId
    let (aiSettings, db3) := getAISettings db2
    match resolveChat db3 req with
    | (none, db4) =>
      some ⟨db4, 400, .error "Chat must be created before sending messages".toList, none, none⟩
    | (some chat, db4) =>
      let fatigueLevel := effectiveFatigueLevel chat profile
      if message = "__INIT__".toList then
        some ⟨db4, 200, .reply "__INIT__".toList none none, none, none⟩
      else
        let db5 := addMessage db4 chat._id "user".toList message none
        let db6 :=
          if chat.title.isEmpty ∨ chat.title = "New Chat".toList then
            updateChatTitle db5 chat._id (titleOf message)
          else db5
        if !OPENAI_API_KEY.truthy then
          let db7 := addMessage db6 chat._id "assistant".toList fallbackResponse none
          some ⟨db7, 200, .reply fallbackResponse none none, none, none⟩
        else
          let formattedMessages := formatMessages (getChatMessages db6 chat._id)
          let (systemPrompt, db7) :=
            generateSystemPrompt db6 profile fatigueLevel settings dynamicProfile
          let (availableVideos, availableBreathing) := availableCatalogs db7 aiSettings settings
          let request : ModelRequest :=
            { model := if aiSettings.model.truthy then aiSettings.model else .str "gpt-5.2".toList
              system := finalSystemPrompt systemPrompt message formattedMessages.length
                (videoContext availableVideos availableBreathing)
              messages := lastTen formattedMessages
              max_tokens := if aiSettings.max_tokens.truthy then aiSettings.max_tokens else .num 500
              temperature :=
                if aiSettings.temperature.truthy then aiSettings.temperature else .num (8 / 10) }
          match callModel request with
          | none => some ⟨db7, 500, .failure, some request, none⟩
          | some response =>
            completeTurn db7 req.userId chat aiSettings dynamicProfile request response

/-! ## The four fatigue guidance templates

The template literals of the four branches of `fatigueGuidance`, as functions
of the interpolated text `${fatigueLevel}`. -/

/-- The template of the branch `fatigueLevel >= 8.0`. -/
def criticalGuidance (level : JsString) : JsString :=
  jsLines [
    "CRITICAL: The user's current fatigue level is ".toList ++ level ++ "/10, which indicates severe fatigue. ".toList,
    "- Be extra gentle and validating - they are likely struggling significantly".toList,
    "- Focus on rest, self-compassion, and managing basic daily needs".toList,
    "- Avoid suggesting activities that require energy".toList,
    "- Emphasize that this level of fatigue is valid and they're not alone".toList,
    "- Be patient if responses are brief or they seem withdrawn".toList]

/-- The template of the branch `fatigueLevel >= 6.0`. -/
def moderateSevereGuidance (level : JsString) : JsString :=
  jsLines [
    "IMPORTANT: The user's current fatigue level is ".toList ++ level ++ "/10, indicating moderate-to-severe fatigue.".toList,
    "- Acknowledge the significant impact this has on their daily life".toList,
    "- Focus on gentle strategies and realistic expectations".toList,
    "- Be understanding if they mention struggling with daily tasks".toList,
    "- Encourage pacing and rest breaks".toList,
    "- Validate the difficulty of managing moderate fatigue".toList]

/-- The template of the branch `fatigueLevel >= 4.0`. -/
def moderateGuidance (level : JsString) : JsString :=
  jsLines [
    "The user's current fatigue level is ".toList ++ level ++ "/10, indicating moderate fatigue.".toList,
    "- They may have some energy but still experience significant limitations".toList,
    "- Balance encouragement with realistic expectations".toList,
    "- Suggest gentle activities and pacing strategies".toList,
    "- Acknowledge that even moderate fatigue can be challenging".toList]

/-- The template of the last branch. -/
def mildGuidance (level : JsString) : JsString :=
  jsLines [
    "The user's current fatigue level is ".toList ++ level ++ "/10, indicating mild fatigue.".toList,
    "- They may have more capacity for activities and strategies".toList,
    "- Still be gentle and validate their experience".toList,
    "- Can suggest more active coping strategies while respecting their limits".toList]

/-! ## Prompt Composer of server.js -/

/-- The line `- ${fatigueLevel !== null ? ... : ''}` of the conversation
approach, guarded against `null` only. -/
def rememberLine (fatigueLevel : JsValue) : JsString :=
  "- ".toList ++
    (if fatigueLevel ≠ .null then
      "Remember their current fatigue level (".toList ++ fatigueLevel.toStr ++ "/10) and adapt your suggestions accordingly".toList
     else [])

/-- The text `agenticGuidance` of server.js. -/
def agenticGuidanceSimple (settings : UserSettings) : JsString :=
  if toolsAllowed settings then
    jsLines [
      [],
      "AGENTIC FEATURES ENABLED:".toList,
      "- You can suggest meditation videos when the user expresses stress, anxiety, or overwhelm".toList,
      "- Use the format: [VIDEO:title:embed_url] to embed videos in your response".toList,
      "- You can suggest breathing exercises when the user needs quick stress relief or relaxation".toList,
      "- Use the format: [BREATHING:title:duration:pattern:embed_code] to embed breathing exercises".toList,
      "- Only suggest videos/exercises when genuinely helpful, not in every response".toList,
      "- Detect emotional states like stress, anxiety, worry, overwhelm, panic".toList,
      "- When suggesting a video or exercise, briefly explain why it might help".toList,
      []]
  else []

/-- `generateSystemPrompt(profile, fatigueLevel, settings, dynamicProfile)` of
server.js. -/
def generateSystemPromptSimple (profile : Option Profile) (fatigueLevel : JsValue)
    (settings : UserSettings) (dynamicProfile : JsValue) : JsString :=
  jsLines [
    "You are \"Untire Coach,\" a warm, empathetic AI companion for adults experiencing cancer-related fatigue. Your role is to have flowing, supportive conversations that help patients feel heard and understood.".toList,
    [],
    profileInfoSimple profile,
    [],
    dynamicProfileSection dynamicProfile,
    [],
    fatigueGuidance fatigueLevel,
    [],
    "BEHAVIOR TYPE: ".toList ++
      (if settings.behavior_type.truthy then settings.behavior_type.toStr
       else "empathetic".toList),
    behaviorGuidance settings,
    [],
    agenticGuidanceSimple settings,
    [],
    "CONVERSATION APPROACH:".toList,
    "- Be PROACTIVE: If the user doesn't provide much information or says something vague like \"hello\" or \"hi\", take the initiative to start meaningful topics".toList,
    "- Use the dynamic profile to reference things you know about them (e.g., \"How is your cat doing?\" or \"I remember you mentioned...\")".toList,
    "- Ask thoughtful follow-up questions to better understand their situation".toList,
    "- Be genuinely curious about their daily experience, energy patterns, and challenges".toList,
    "- Guide conversations naturally through topics like sleep, activity levels, emotional state, support systems".toList,
    "- Offer gentle, practical strategies when appropriate".toList,
    "- Always validate their feelings and experiences".toList,
    rememberLine fatigueLevel,
    "- Update your understanding of the user based on what they share".toList,
    "- When starting conversations or when user input is minimal, suggest specific topics or ask about things relevant to their profile".toList,
    [],
    "RESPONSE STYLE:".toList,
    "- Keep responses conversational (100-180 words)".toList,
    "- Always end with a thoughtful question to continue the dialogue".toList,
    "- Use empathetic language that shows you're listening".toList,
    "- Be specific in your questions (not generic)".toList,
    "- Adapt your energy and suggestions to match their fatigue level".toList,
    "- Reference specific details from their profile when relevant to show you remember them".toList,
    "- If the user gives a brief response or doesn't provide much detail, be proactive and suggest topics or ask about specific aspects of their life based on what you know".toList,
    [],
    "IMPORTANT: This is educational support, not medical advice. Encourage them to discuss significant concerns with their healthcare team.".toList,
    [],
    "Focus on creating a supportive dialogue rather than just giving advice.".toList]

/-! ## Profile writes (`database-mongo.js`, `server-mongo.js`) -/

/-- The object given to `createOrUpdateProfile`: in the profile endpoint of
server-mongo.js, the request body as it is. A key that the object does not
have is `undefined`. -/
structure ProfileData where
  name : JsValue := .undefined
  age : JsValue := .undefined
  gender : JsValue := .undefined
  ethnicity : JsValue := .undefined
  cancer_type : JsValue := .undefined
  treatment_stage : JsValue := .undefined
  diagnosis_date : JsValue := .undefined
  current_fatigue_level : JsValue := .undefined
  location : JsValue := .undefined
  support_system : JsValue := .undefined
  last_fatigue_asked_date : JsValue := .undefined
  dynamic_profile : JsValue := .undefined
  deriving DecidableEq

/-- One field under `$set: { ...profileData }`: set when the key is there. -/
def setField (old new : JsValue) : JsValue :=
  if new = .undefined then old else new

/-- The document after `$set: { ...profileData, user_id: userId }`. -/
def applyProfileData (p : Profile) (d : ProfileData) : Profile where
  user_id := p.user_id
  name := setField p.name d.name
  age := setField p.age d.age
  gender := setField p.gender d.gender
  ethnicity := setField p.ethnicity d.ethnicity
  cancer_type := setField p.cancer_type d.cancer_type
  treatment_stage := setField p.treatment_stage d.treatment_stage
  diagnosis_date := setField p.diagnosis_date d.diagnosis_date
  current_fatigue_level := setField p.current_fatigue_level d.current_fatigue_level
  location := setField p.location d.location
  support_system := setField p.support_system d.support_system
  last_fatigue_asked_date := setField p.last_fatigue_asked_date d.last_fatigue_asked_date
  dynamic_profile := setField p.dynamic_profile d.dynamic_profile

/-- `updateOne(filter, update)` without upsert: the first document that
matches is updated, nothing happens when none matches. -/
def updateFirst {α : Type} (p : α → Bool) (f : α → α) : List α → List α
  | [] => []
  | x :: xs => if p x then f x :: xs else x :: updateFirst p f xs

/-- `createOrUpdateProfile`: `updateOne({ user_id }, { $set: ... }, { upsert: true })`,
then the profile is read back. -/
def createOrUpdateProfile (db : Db) (userId : JsString) (profileData : ProfileData) :
    Option Profile × Db :=
  let profiles : List Profile :=
    match getProfile db userId with
    | some _ =>
      updateFirst (fun p => decide (p.user_id = userId))
        (fun p => applyProfileData p profileData) db.profiles
    | none => db.profiles ++ [applyProfileData ({ user_id := userId } : Profile) profileData]
  let db1 : Db := { db with profiles := profiles }
  (getProfile db1 userId, db1)

/-- `updateDynamicProfile`: `updateOne({ user_id }, { $set: { dynamic_profile } })`,
without upsert. -/
def updateDynamicProfile (db : Db) (userId profileText : JsString) : Db :=
  let profiles : List Profile :=
    updateFirst (fun p => decide (p.user_id = userId))
      (fun p => { p with dynamic_profile := .str profileText }) db.profiles
  { db with profiles := profiles }

/-- The JSON body of a profile response. -/
inductive ProfileResponse where
  /-- `{ error: 'Forbidden' }` with status 403. -/
  | forbidden
  /-- `{ profile }`. -/
  | profile (profile : Option Profile)
  deriving DecidableEq

/-- The handler of `POST /api/profile/:userId` of server-mongo.js: `userId` is
the route parameter, `sessionUserId` the user set by `authenticateUser`. -/
def postProfile (db : Db) (userId sessionUserId : JsString) (body : ProfileData) :
    ProfileResponse × Db :=
  if userId ≠ sessionUserId then (.forbidden, db)
  else
    let db1 := getOrCreateUser db userId
    let (profile, db2) := createOrUpdateProfile db1 userId body
    (.profile profile, db2)

/-- The object that `POST /api/profile/:userId` of server.js gives to
`createOrUpdateProfile`: the four fields `name`, `age`,
`current_fatigue_level` and `last_fatigue_asked_date` of the body only. -/
def postProfileData (body : ProfileData) : ProfileData where
  name := body.name
  age := body.age
  current_fatigue_level := body.current_fatigue_level
  last_fatigue_asked_date := body.last_fatigue_asked_date

/-- The handler of `POST /api/profile/:userId/update-fatigue`: the object
`{ current_fatigue_level: fatigueLevel }` always has the key, and the driver
stores an `undefined` value as null. -/
def postUpdateFatigue (db : Db) (userId sessionUserId : JsString) (fatigueLevel : JsValue) :
    ProfileResponse × Db :=
  if userId ≠ sessionUserId then (.forbidden, db)
  else
    let db1 := getOrCreateUser db userId
    let (profile, db2) := createOrUpdateProfile db1 userId
      ({ current_fatigue_level :=
          if fatigueLevel = .undefined then .null else fatigueLevel } : ProfileData)
    (.profile profile, db2)

/-! ## Sequences of operations -/

/-- An operation on the store: a chat turn, a title update, a message append,
a profile write or a fatigue update of the profile. -/
inductive StoreOp where
  | turn (OPENAI_API_KEY : JsValue) (callModel : ModelRequest → Option JsString)
      (req : ChatRequest)
  | updateTitle (chatId title : JsString)
  | appendMessage (chatId role content : JsString) (media : Option Media)
  | writeProfile (userId sessionUserId : JsString) (body : ProfileData)
  | updateFatigue (userId sessionUserId : JsString) (fatigueLevel : JsValue)

/-- The store after one operation. -/
def applyOp (db : Db) : StoreOp → Db
  | .turn key callModel req =>
    match chatHandler key callModel db req with
    | some o => o.db
    | none => db
  | .updateTitle chatId title => updateChatTitle db chatId title
  | .appendMessage chatId role content media => addMessage db chatId role content media
  | .writeProfile userId sessionUserId body => (postProfile db userId sessionUserId body).2
  | .updateFatigue userId sessionUserId level => (postUpdateFatigue db userId sessionUserId level).2

/-- The store after a sequence of operations. -/
def applyOps (db : Db) (ops : List StoreOp) : Db := ops.foldl applyOp db

/-- The `initial_fatigue_level` of the stored chat, if the chat exists. -/
def chatAnchor (db : Db) (chatId : JsString) : Option JsValue :=
  (getChat db chatId).map (fun c => c.initial_fatigue_level)

/-- The title of the stored chat, if the chat exists. -/
def chatTitle (db : Db) (chatId : JsString) : Option JsString :=
  (getChat db chatId).map (fun c => c.title)

/-- The user messages of a chat, in order. -/
def userMessages (db : Db) (chatId : JsString) : List JsString :=
  ((getChatMessages db chatId).filter (fun m => m.role = "user".toList)).map
    (fun m => m.content)

/-- A value that is set: neither null nor undefined. -/
def JsValue.isSet (v : JsValue) : Bool :=
  decide (v ≠ .null ∧ v ≠ .undefined)

/-! ## Profile extraction (`profileExtractor.js`) and its `.then` handler -/

/-- `xs.slice(-20)`: the last twenty elements. -/
def lastTwenty {α : Type} (xs : List α) : List α := xs.drop (xs.length - 20)

/-- The text `extractionPrompt`. -/
def extractionPrompt (recentMessages : List ChatTurn) (currentProfile : JsValue) : JsString :=
  jsLines [
    "Analyze the following conversation and extract key information about the user. Update or create a profile that includes:".toList,
    "- Personal details mentioned (family, work, hobbies, interests)".toList,
    "- Health-related information (treatment stage, symptoms, medications mentioned)".toList,
    "- Emotional patterns and coping strategies".toList,
    "- Preferences and dislikes".toList,
    "- Support systems mentioned".toList,
    "- Daily routines or challenges".toList,
    "- Goals or concerns expressed".toList,
    [],
    "Current profile: ".toList ++
      (if currentProfile.truthy then currentProfile.toStr else "None".toList),
    [],
    "Conversation:".toList,
    jsLines (recentMessages.map (fun m =>
      (if m.role = "user".toList then "User".toList else "Coach".toList) ++ ": ".toList ++
        m.content)),
    [],
    "Return ONLY a concise profile summary (max 300 words) that captures the most important information about this user. Focus on facts and patterns, not interpretations.".toList]

/-- The argument of `openaiClient.chat.completions.create` in
`extractProfileInfo`. -/
def extractionRequest (conversationHistory : List ChatTurn) (currentProfile : JsValue) :
    ModelRequest where
  model := .str "gpt-4o".toList
  system := "You are a profile extraction assistant. Extract factual information from conversations.".toList
  messages := [⟨"user".toList, extractionPrompt (lastTwenty conversationHistory) currentProfile⟩]
  max_tokens := .num 400
  temperature := .num (3 / 10)

/-- The value `currentProfile || ''`. -/
def orEmpty (currentProfile : JsValue) : JsValue :=
  if currentProfile.truthy then currentProfile else .str []

/-- `extractProfileInfo(userId, conversationHistory, currentProfile)`.
`OPENAI_API_KEY` is the environment variable (a client exists exactly when it
is set); `callExtraction` is the provider call, `none` when anything inside the
`try` block throws. The result is the resolved value of the promise: the
function has no statement that throws outside the `try` block. -/
def extractProfileInfo (OPENAI_API_KEY : JsValue)
    (callExtraction : ModelRequest → Option JsString) (_userId : JsString)
    (conversationHistory : List ChatTurn) (currentProfile : JsValue) : JsValue :=
  if !OPENAI_API_KEY.truthy then orEmpty currentProfile
  else
    match callExtraction (extractionRequest conversationHistory currentProfile) with
    | some content => .str (trim content)
    | none => orEmpty currentProfile

/-- The `.then` handler of the extraction in `app.post('/api/chat')`: the
argument of the call of `updateDynamicProfile`, `none` when the call is not
made. `newProfile && newProfile.trim() && newProfile !== dynamicProfile`; a
value that is not a string is either falsy or has no `trim`, and then the
error goes to `.catch`. -/
def profileWrite (newProfile dynamicProfile : JsValue) : Option JsString :=
  match newProfile with
  | .str r =>
    if !r.isEmpty && !(trim r).isEmpty && decide (JsValue.str r ≠ dynamicProfile) then some r
    else none
  | _ => none

/-- The store after the `.then` handler has run. -/
def afterExtraction (db : Db) (userId : JsString) (newProfile dynamicProfile : JsValue) : Db :=
  match profileWrite newProfile dynamicProfile with
  | some r => updateDynamicProfile db userId r
  | none => db

/-! ## Admin settings (`updateAISettings`) -/

/-- The body of `POST /api/admin/ai-settings`; `none` is a field the body
does not name. -/
structure AISettingsUpdate where
  system_prompt : Option JsValue := none
  temperature : Option JsValue := none
  max_tokens : Option JsValue := none
  model : Option JsValue := none
  enabled_tools : Option (Option (List JsString)) := none
  verbosity : Option JsValue := none
  memory_enabled : Option JsValue := none
  accessible_user_fields : Option (List JsString) := none

/-- `updateAISettings(settings)`: `$set` of the named fields on the global
document, which the upsert creates with those fields only when it is
missing; the document is then read with `getAISettings`. -/
def updateAISettings (db : Db) (settings : AISettingsUpdate) : AISettings × Db :=
  let old : AISettings := db.ai_settings.getD
    ⟨.undefined, .undefined, .undefined, .undefined, none, .undefined, .undefined, []⟩
  let updated : AISettings :=
    { system_prompt := settings.system_prompt.getD old.system_prompt
      temperature := settings.temperature.getD old.temperature
      max_tokens := settings.max_tokens.getD old.max_tokens
      model := settings.model.getD old.model
      enabled_tools := settings.enabled_tools.getD old.enabled_tools
      verbosity := settings.verbosity.getD old.verbosity
      memory_enabled := settings.memory_enabled.getD old.memory_enabled
      accessible_user_fields := settings.accessible_user_fields.getD old.accessible_user_fields }
  getAISettings { db with ai_settings := some updated }

/-! ## Deleting data (`database-mongo.js`) -/

/-- The field `user_id` of a document of `messages`: `addMessage` stores
`chat_id`, `role`, `content`, `media` and `timestamp`, so the field is missing. -/
def Message.user_id (_m : Message) : JsValue := .undefined

/-- `deleteUser(userId)`: one `deleteOne` on `users` and a
`deleteMany({ user_id: userId })` on each of `profiles`, `chats`, `messages`
and `user_settings`. The collections `sessions` and `saved_memories`, which
get the same `deleteMany`, are outside this store. -/
def deleteUser (db : Db) (userId : JsString) : Db :=
  let users : List JsString := db.users.erase userId
  let profiles : List Profile := db.profiles.filter (fun p => !decide (p.user_id = userId))
  let chats : List Chat := db.chats.filter (fun c => !decide (c.user_id = userId))
  let messages : List Message :=
    db.messages.filter (fun m => !decide (m.user_id = JsValue.str userId))
  let user_settings : List UserSettings :=
    db.user_settings.filter (fun s => !decide (s.user_id = userId))
  { db with users := users, profiles := profiles, chats := chats, messages := messages,
            user_settings := user_settings }

/-- `deleteAllUserData(userId)`. -/
def deleteAllUserData (db : Db) (userId : JsString) : Db := deleteUser db userId

/-- `deleteChat(chatId)`: the chat document and the messages with its
`chat_id`. -/
def deleteChat (db : Db) (chatId : JsString) : Db :=
  let chats : List Chat := db.chats.eraseP (fun c => decide (c._id = chatId))
  let messages : List Message := db.messages.filter (fun m => !decide (m.chat_id = chatId))
  { db with chats := chats, messages := messages }

/-! ## The other chat endpoints (server-mongo.js) -/

/-- The response of `GET /api/chat/:chatId` and `DELETE /api/chat/:chatId`. -/
inductive ChatResponse where
  /-- Status 404, `Chat not found`. -/
  | notFound
  /-- Status 403, the chat belongs to another user. -/
  | forbidden
  /-- Status 200 of the GET endpoint, `{ chat, messages }`. -/
  | found (chat : Chat) (messages : List Message)
  /-- Status 200 of the DELETE endpoint, `{ success: true }`. -/
  | success
  deriving DecidableEq

/-- The handler of `GET /api/chat/:chatId`; `sessionUserId` is `req.userId`. -/
def getChatEndpoint (db : Db) (sessionUserId chatId : JsString) : ChatResponse :=
  match getChat db chatId with
  | none => .notFound
  | some chat =>
    if chat.user_id ≠ sessionUserId then .forbidden
    else .found chat (getChatMessages db chatId)

/-- The handler of `DELETE /api/chat/:chatId`. -/
def deleteChatEndpoint (db : Db) (sessionUserId chatId : JsString) : ChatResponse × Db :=
  match getChat db chatId with
  | none => (.notFound, db)
  | some chat =>
    if chat.user_id ≠ sessionUserId then (.forbidden, db)
    else (.success, deleteChat db chatId)

/-! ## The fatigue quiz (`app.post('/api/fatigue-quiz/calculate')`) -/

/-- An option of a quiz question. -/
structure QuizOption where
  text : JsString
  value : ℚ
  deriving DecidableEq

/-- A document of `fatigue_quiz_questions`; `weight` is `none` when the field
is null or missing. -/
structure QuizQuestion where
  _id : JsString
  question_text : JsString
  question_order : Nat
  options : List QuizOption
  weight : Option ℚ
  deriving DecidableEq

/-- An element of `answers` in the request body; `optionValue` is a number. -/
structure QuizAnswer where
  questionId : JsString
  optionValue : ℚ
  deriving DecidableEq

/-- `Math.round`: the nearest integer, a half being rounded up. -/
def mathRound (x : ℚ) : ℤ := ⌊x + 1 / 2⌋

/-- The pair `(totalScore, totalWeight)` after the loop over `answers`. -/
def quizTotals (questions : List QuizQuestion) (answers : List QuizAnswer) : ℚ × ℚ :=
  answers.foldl (fun acc answer =>
    match questions.find? (fun q => decide (q._id = answer.questionId)) with
    | some question =>
      let weight : ℚ :=
        match question.weight with
        | some w => if w = 0 then 1 else w
        | none => 1
      (acc.1 + answer.optionValue * weight, acc.2 + weight)
    | none => acc) (0, 0)

/-- The value `averageScore`. -/
def averageScore (questions : List QuizQuestion) (answers : List QuizAnswer) : ℚ :=
  let totals := quizTotals questions answers
  if totals.2 > 0 then totals.1 / totals.2 else 5

/-- The value `fatigueLevel` of an average:
`Math.min(10, Math.max(1, Math.round(averageScore * 10) / 10))`. -/
def fatigueLevelOf (averageScore : ℚ) : ℚ :=
  min 10 (max 1 ((mathRound (averageScore * 10) : ℚ) / 10))

/-- The field `suggestedFatigueLevel` of the response, on numbers taken as
exact rationals. -/
def suggestedFatigueLevel (questions : List QuizQuestion) (answers : List QuizAnswer) : ℚ :=
  fatigueLevelOf (averageScore questions answers)

/-- The brief-message decision written as the single test of the
specification: the trimmed message has fewer than 10 characters. -/
def isBriefByLength (message : JsString) : Bool := decide ((trim message).length < 10)

/-! ## Sample data of the closed statements -/

/-- A store with no document at all. -/
def emptyDb : Db := ⟨[], [], [], [], [], none, [], []⟩

/-- The first request of user `u1` in the new chat `c1`: the message `hello`. -/
def helloRequest : ChatRequest :=
  ⟨"u1".toList, some "c1".toList, some "hello".toList, .undefined⟩

/-- A catalog video. -/
def calmVideo : VideoEntry :=
  ⟨"Calm".toList, .str "https://youtu.be/abc".toList, .str "https://x/y".toList⟩

/-- A store whose video catalog holds one video. -/
def dbWithVideo : Db := { emptyDb with videos := [calmVideo] }

/-- A profile in which only the name is set, the other fields being null. -/
def annProfile : Profile where
  user_id := "u1".toList
  name := .str "Ann".toList
  age := .null
  gender := .null
  ethnicity := .null
  cancer_type := .null
  treatment_stage := .null
  diagnosis_date := .null
  current_fatigue_level := .null
  location := .null
  support_system := .null
  last_fatigue_asked_date := .null
  dynamic_profile := .null

/-- A request body of the profile endpoint that names `dynamic_profile`. -/
def handEditBody : ProfileData :=
  { name := .str "Ann".toList, dynamic_profile := .str "Ann was told to stop her treatment".toList }

/-- Two turns of user `u1` in the new chat `c1`, without API key: the first
message is the text `New Chat`, the second is `hello`. -/
def newChatTurns : List StoreOp :=
  [.turn .undefined (fun _ => none)
      ⟨"u1".toList, some "c1".toList, some "New Chat".toList, .undefined⟩,
   .turn .undefined (fun _ => none)
      ⟨"u1".toList, some "c1".toList, some "hello".toList, .undefined⟩]

/-- A store with the chat `c1` of user `u1`, created with the fatigue level 7. -/
def anchoredDb : Db :=
  { emptyDb with chats := [⟨"c1".toList, "u1".toList, "New Chat".toList, .num 7⟩] }

/-- Operations after the creation of `c1`: a turn that carries another
`initialFatigueLevel`, a title update, a message append, a fatigue update of
the profile. -/
def anchorOps : List StoreOp :=
  [.turn .undefined (fun _ => none)
      ⟨"u1".toList, some "c1".toList, some "hello".toList, .num 3⟩,
   .updateTitle "c1".toList "Renamed".toList,
   .appendMessage "c1".toList "assistant".toList "Hi".toList none,
   .updateFatigue "u1".toList "u1".toList (.num 2)]

/-- A store in which the chat `c1` of user `u1` was created with the fatigue
level 0 and the profile of `u1` has the typical fatigue level 5. -/
def zeroAnchorDb : Db :=
  { emptyDb with
    chats := [⟨"c1".toList, "u1".toList, "New Chat".toList, .num 0⟩]
    profiles := [{ user_id := "u1".toList, current_fatigue_level := .num 5 }] }

/-- Which of the ten fields rendered by `profileInfo` of server-mongo.js are
present: truthy and, for the typical fatigue level, neither null nor undefined. -/
def presentFields (p : Profile) : List Bool :=
  [p.name.truthy, p.age.truthy, p.gender.truthy, p.ethnicity.truthy, p.cancer_type.truthy,
   p.treatment_stage.truthy, p.diagnosis_date.truthy,
   decide (p.current_fatigue_level ≠ .null ∧ p.current_fatigue_level ≠ .undefined),
   p.location.truthy, p.support_system.truthy]

/-- The questions of `seedQuiz.js`; `q1` to `q5` stand for the identifiers
the store gives them. -/
def seedQuiz : List QuizQuestion :=
  [⟨"q1".toList, "How would you rate your overall energy level right now?".toList, 1,
     [⟨"Very high energy, feeling great".toList, 1 / 10⟩,
      ⟨"Good energy, feeling normal".toList, 3 / 10⟩,
      ⟨"Moderate energy, a bit tired".toList, 5 / 10⟩,
      ⟨"Low energy, quite tired".toList, 7 / 10⟩,
      ⟨"Very low energy, extremely tired".toList, 9 / 10⟩], some (15 / 10)⟩,
   ⟨"q2".toList, "How difficult is it for you to complete daily activities?".toList, 2,
     [⟨"Not difficult at all".toList, 1 / 10⟩,
      ⟨"Slightly difficult".toList, 3 / 10⟩,
      ⟨"Moderately difficult".toList, 5 / 10⟩,
      ⟨"Very difficult".toList, 7 / 10⟩,
      ⟨"Extremely difficult, can barely function".toList, 9 / 10⟩], some (15 / 10)⟩,
   ⟨"q3".toList, "How would you describe your ability to concentrate?".toList, 3,
     [⟨"Excellent, no problems focusing".toList, 1 / 10⟩,
      ⟨"Good, minor concentration issues".toList, 3 / 10⟩,
      ⟨"Moderate, some difficulty focusing".toList, 5 / 10⟩,
      ⟨"Poor, significant concentration problems".toList, 7 / 10⟩,
      ⟨"Very poor, can't concentrate at all".toList, 9 / 10⟩], some 1⟩,
   ⟨"q4".toList, "How has your sleep been affecting your fatigue?".toList, 4,
     [⟨"Sleeping well, feel rested".toList, 1 / 10⟩,
      ⟨"Sleeping okay, mostly rested".toList, 3 / 10⟩,
      ⟨"Sleep is okay but not fully restorative".toList, 5 / 10⟩,
      ⟨"Poor sleep, feel tired".toList, 7 / 10⟩,
      ⟨"Very poor sleep, extremely tired".toList, 9 / 10⟩], some (12 / 10)⟩,
   ⟨"q5".toList, "How much does fatigue interfere with your daily life?".toList, 5,
     [⟨"Not at all".toList, 1 / 10⟩,
      ⟨"A little bit".toList, 3 / 10⟩,
      ⟨"Moderately".toList, 5 / 10⟩,
      ⟨"Quite a bit".toList, 7 / 10⟩,
      ⟨"Extremely, it's overwhelming".toList, 9 / 10⟩], some (13 / 10)⟩]

/-- Every seeded question answered with the option value 0.9, the highest. -/
def highestAnswers : List QuizAnswer := seedQuiz.map (fun q => ⟨q._id, 9 / 10⟩)

/-- Every seeded question answered with the option value 0.1, the lowest. -/
def lowestAnswers : List QuizAnswer := seedQuiz.map (fun q => ⟨q._id, 1 / 10⟩)

/-- The exercise `Box Breathing` of `seedBreathing.js`. -/
def boxBreathing : BreathingEntry :=
  ⟨"Box Breathing".toList, .str "Simple 4-count breathing pattern for relaxation".toList,
   .num 60, .str "Inhale 4, hold 4, exhale 4, hold 4".toList, .str []⟩

/-- A store in which user `u1` owns the chat `c1` with two messages, and a
second user `u2` exists. -/
def privateDb : Db :=
  { emptyDb with
    users := ["u1".toList, "u2".toList]
    chats := [⟨"c1".toList, "u1".toList, "My scan".toList, .num 7⟩]
    messages := [⟨"c1".toList, "user".toList, "My scan showed a relapse".toList, none⟩,
                 ⟨"c1".toList, "assistant".toList, "I am sorry to hear that.".toList, none⟩] }

/-- A request of user `u2` that names the chat `c1` of user `u1`. -/
def intruderRequest : ChatRequest :=
  ⟨"u2".toList, some "c1".toList, some "What did we talk about?".toList, .undefined⟩

/-- The update that sets the verbosity to `low`. -/
def lowVerbosity : AISettingsUpdate := { verbosity := some (.str "low".toList) }

/-- The update that sets the verbosity to `high`. -/
def highVerbosity : AISettingsUpdate := { verbosity := some (.str "high".toList) }

/-- The store after the global settings were created with the defaults on
first access and the verbosity was then set by the update. -/
def dbWithVerbosity (db : Db) (update : AISettingsUpdate) : Db :=
  (updateAISettings (getAISettings { db with ai_settings := none }).2 update).2

end UntireChatbot

namespace UntireChatbot

/-! ## Facts about the patterns -/

/-- A pattern that starts with literal characters matches only where the
input starts with these characters. -/
theorem matchItems_lits_none (p : List Char) (r : List RegexItem) :
    ∀ s : JsString, ¬ p <+: s → matchItems (p.map RegexItem.lit ++ r) s = none := by
  induction p with
  | nil => intro s h; exact absurd (List.nil_prefix) h
  | cons c p ih =>
    intro s h
    cases s with
    | nil => simp [matchItems]
    | cons x t =>
      simp only [List.map_cons, List.cons_append, matchItems]
      split_ifs with hx
      · subst hx
        have hp : ¬ p <+: t := fun hp => h ((List.cons_prefix_cons).2 ⟨rfl, hp⟩)
        change Option.map _ (matchItems (List.map RegexItem.lit p ++ r) t) = none
        rw [ih t hp]; rfl
      · rfl

/-- Without a match at any suffix, the search fails. -/
theorem searchFrom_none (re : List RegexItem) :
    ∀ (s : JsString) (i : Nat), (∀ t, t <:+ s → matchItems re t = none) →
      searchFrom re i s = none := by
  intro s
  induction s with
  | nil => intro i h; simp [searchFrom, h [] (List.suffix_refl _)]
  | cons x s ih =>
    intro i h
    simp only [searchFrom, h (x :: s) (List.suffix_refl _)]
    exact ih (i + 1) (fun t ht => h t (ht.trans (List.suffix_cons x s)))

/-- Without a match at any suffix, the global replace changes nothing. -/
theorem replaceAllAux_noMatch (re : List RegexItem) :
    ∀ (s : JsString), (∀ t, t <:+ s → matchItems re t = none) →
      replaceAllAux re 0 s = s := by
  intro s
  induction s with
  | nil => intro _; rfl
  | cons x s ih =>
    intro h
    simp only [replaceAllAux, h (x :: s) (List.suffix_refl _)]
    rw [ih (fun t ht => h t (ht.trans (List.suffix_cons x s)))]

/-- A text without an occurrence of the literal head of a pattern has no match
at any of its suffixes. -/
theorem noMatch_of_no_occurrence (p : List Char) (r : List RegexItem) (s : JsString)
    (h : ¬ p <:+: s) : ∀ t, t <:+ s → matchItems (p.map RegexItem.lit ++ r) t = none := by
  intro t ht
  apply matchItems_lits_none
  intro hp
  exact h (List.IsInfix.trans hp.isInfix ht.isInfix)

theorem videoRegex_head : ∃ r, videoRegex = "[VIDEO:".toList.map RegexItem.lit ++ r :=
  ⟨_, by simp only [videoRegex, lits, List.append_assoc]; rfl⟩

theorem videoStripRegex_head :
    ∃ r, videoStripRegex = "[VIDEO:".toList.map RegexItem.lit ++ r :=
  ⟨_, by simp only [videoStripRegex, lits, List.append_assoc]; rfl⟩

theorem breathingRegex_head :
    ∃ r, breathingRegex = "[BREATHING:".toList.map RegexItem.lit ++ r :=
  ⟨_, by simp only [breathingRegex, lits, List.append_assoc]; rfl⟩

/-! ## The parser always returns -/

theorem plusNotLoop_split (c : Char) (k : JsString → JsString → Option MatchResult)
    (hk : ∀ run t res, k run t = some res → res.matched ++ res.rest = run ++ t) :
    ∀ (s run : JsString) (res : MatchResult), plusNotLoop c k run s = some res →
      res.matched ++ res.rest = run ++ s := by
  intro s
  induction s with
  | nil => intro run res h; simp [plusNotLoop] at h
  | cons x s ih =>
    intro run res h
    simp only [plusNotLoop] at h
    split_ifs at h with hx
    cases hl : plusNotLoop c k (run ++ [x]) s with
    | some r =>
      rw [hl] at h
      simp only [Option.some.injEq] at h
      subst h
      simpa using ih _ _ hl
    | none =>
      rw [hl] at h
      simpa using hk _ _ _ h

/-- A match splits the input into the matched text and the rest. -/
theorem matchItems_split (re : List RegexItem) :
    ∀ (s : JsString) (m : MatchResult), matchItems re s = some m → m.matched ++ m.rest = s := by
  induction re with
  | nil => intro s m h; simp only [matchItems, Option.some.injEq] at h; subst h; rfl
  | cons item r ih =>
    intro s m h
    cases item with
    | lit c =>
      cases s with
      | nil => simp [matchItems] at h
      | cons x t =>
        simp only [matchItems] at h
        split_ifs at h with hx
        cases hr : matchItems r t with
        | none => rw [hr] at h; simp at h
        | some m' =>
          rw [hr] at h
          simp only [Option.map_some', Option.some.injEq] at h
          subst h
          simp [ih t m' hr]
    | plusNot c cap =>
      simp only [matchItems] at h
      have := plusNotLoop_split c _ (fun run t res hres => by
        cases hr : matchItems r t with
        | none => rw [hr] at hres; simp at hres
        | some m' =>
          rw [hr] at hres
          simp only [Option.map_some', Option.some.injEq] at hres
          subst hres
          simp [ih t m' hr]) s [] m h
      simpa using this

/-- A match of a pattern that starts with a literal is not empty. -/
theorem matchItems_lit_pos (c : Char) (r : List RegexItem) (s : JsString) (m : MatchResult)
    (h : matchItems (.lit c :: r) s = some m) : 0 < m.matched.length := by
  cases s with
  | nil => simp [matchItems] at h
  | cons x t =>
    simp only [matchItems] at h
    split_ifs at h with hx
    cases hr : matchItems r t with
    | none => rw [hr] at h; simp at h
    | some m' =>
      rw [hr] at h
      simp only [Option.map_some', Option.some.injEq] at h
      subst h
      simp

/-- Where a search succeeds: the match found lies at index `j` of the text. -/
theorem searchFrom_some (re : List RegexItem) :
    ∀ (s : JsString) (i j : Nat) (m : MatchResult), searchFrom re i s = some (j, m) →
      ∃ pre, s = pre ++ (m.matched ++ m.rest) ∧ j = i + pre.length ∧
        matchItems re (m.matched ++ m.rest) = some m := by
  intro s
  induction s with
  | nil =>
    intro i j m h
    simp only [searchFrom] at h
    cases hr : matchItems re [] with
    | none => rw [hr] at h; simp at h
    | some m' =>
      rw [hr] at h
      simp only [Option.map_some', Option.some.injEq, Prod.mk.injEq] at h
      obtain ⟨h1, h2⟩ := h
      subst h1 h2
      have := matchItems_split re [] m' hr
      exact ⟨[], by simp [this], by simp, by rw [this]; exact hr⟩
  | cons x s ih =>
    intro i j m h
    simp only [searchFrom] at h
    cases hr : matchItems re (x :: s) with
    | some m' =>
      rw [hr] at h
      simp only [Option.some.injEq, Prod.mk.injEq] at h
      obtain ⟨h1, h2⟩ := h
      subst h1 h2
      have := matchItems_split re _ m' hr
      exact ⟨[], by simp [this], by simp, by rw [this]; exact hr⟩
    | none =>
      rw [hr] at h
      obtain ⟨pre, h1, h2, h3⟩ := ih (i + 1) j m h
      exact ⟨x :: pre, by simp [← h1], by simp [h2]; omega, h3⟩

/-- Deleting the first occurrence of a text that occurs shortens the string
by the length of that text. -/
theorem replaceFirst_length (pat : JsString) :
    ∀ s : JsString, pat <:+: s → (replaceFirst pat s).length + pat.length = s.length := by
  intro s
  induction s with
  | nil =>
    intro h
    have : pat = [] := List.eq_nil_of_infix_nil h
    subst this; rfl
  | cons x t ih =>
    intro h
    simp only [replaceFirst]
    split_ifs with hp
    · have hp' : pat <+: x :: t := List.isPrefixOf_iff_prefix.mp hp
      have := hp'.length_le
      simp only [List.length_drop]
      omega
    · have hp' : ¬ pat <+: x :: t := fun hh => hp (List.isPrefixOf_iff_prefix.mpr hh)
      have ht : pat <:+: t := by
        rcases (List.infix_cons_iff).1 h with h1 | h1
        · exact absurd h1 hp'
        · exact h1
      have := ih ht
      simp only [List.length_cons]
      omega

/-- The video loop ends within `response.length + 1` iterations. -/
theorem videoLoop_total (response : JsString) :
    ∀ (fuel lastIndex : Nat) (videos : List VideoDirective),
      lastIndex ≤ response.length → response.length - lastIndex < fuel →
      ∃ r, videoLoop response fuel lastIndex videos = some r := by
  intro fuel
  induction fuel with
  | zero => intro lastIndex videos _ h; omega
  | succ fuel ih =>
    intro lastIndex videos hle hlt
    simp only [videoLoop, exec, not_lt.mpr hle, if_false]
    cases hs : searchFrom videoRegex lastIndex (response.drop lastIndex) with
    | none => exact ⟨_, rfl⟩
    | some jm =>
      obtain ⟨j, m⟩ := jm
      obtain ⟨pre, h1, h2, h3⟩ := searchFrom_some _ _ _ _ _ hs
      have hpos : 0 < m.matched.length := matchItems_lit_pos _ _ _ _ h3
      have hlen := congrArg List.length h1
      simp only [List.length_drop, List.length_append] at hlen
      simp only []
      apply ih
      · omega
      · omega

/-- The breathing loop ends within `response.length + 1` iterations. -/
theorem breathingLoop_total :
    ∀ (fuel : Nat) (response : JsString) (lastIndex : Nat) (acc : List BreathingDirective),
      response.length < fuel →
      ∃ r, breathingLoop fuel response lastIndex acc = some r := by
  intro fuel
  induction fuel with
  | zero => intro response lastIndex acc h; omega
  | succ fuel ih =>
    intro response lastIndex acc hlt
    simp only [breathingLoop, exec]
    split_ifs with hgt
    · exact ⟨_, rfl⟩
    · cases hs : searchFrom breathingRegex lastIndex (response.drop lastIndex) with
      | none => exact ⟨_, rfl⟩
      | some jm =>
        obtain ⟨j, m⟩ := jm
        obtain ⟨pre, h1, h2, h3⟩ := searchFrom_some _ _ _ _ _ hs
        have hpos : 0 < m.matched.length := matchItems_lit_pos _ _ _ _ h3
        have hin : m.matched <:+: response := by
          have hsuf : response.drop lastIndex <:+ response := List.drop_suffix _ _
          have : m.matched <:+: response.drop lastIndex := by
            rw [h1]; exact ⟨pre, m.rest, by simp⟩
          exact this.trans hsuf.isInfix
        have := replaceFirst_length m.matched response hin
        simp only []
        apply ih
        omega

/-- The parsing step returns a result on every reply. -/
theorem parseDirectives_total (response : JsString) :
    ∃ r, parseDirectives response = some r := by
  unfold parseDirectives
  obtain ⟨v, hv⟩ := videoLoop_total response (response.length + 1) 0 [] (by omega) (by omega)
  obtain ⟨b, hb⟩ := breathingLoop_total ((replaceAll videoStripRegex response).length + 1)
    (replaceAll videoStripRegex response) 0 [] (by omega)
  simp only [hv, hb]
  exact ⟨_, rfl⟩


/-! ## The claims about the directive parser -/

/-- C4: a reply that contains neither `[VIDEO:` nor `[BREATHING:` is returned
unchanged as display text, with an empty videos list and an empty breathing
list. -/
theorem parseDirectives_clean (response : JsString)
    (hv : ¬ "[VIDEO:".toList <:+: response)
    (hb : ¬ "[BREATHING:".toList <:+: response) :
    parseDirectives response = some ⟨response, [], []⟩ := by
  obtain ⟨r1, h1⟩ := videoRegex_head
  obtain ⟨r2, h2⟩ := videoStripRegex_head
  obtain ⟨r3, h3⟩ := breathingRegex_head
  have e1 : searchFrom videoRegex 0 response = none := by
    rw [h1]; exact searchFrom_none _ _ _ (noMatch_of_no_occurrence _ _ _ hv)
  have e2 : replaceAll videoStripRegex response = response := by
    rw [h2]; exact replaceAllAux_noMatch _ _ (noMatch_of_no_occurrence _ _ _ hv)
  have e3 : searchFrom breathingRegex 0 response = none := by
    rw [h3]; exact searchFrom_none _ _ _ (noMatch_of_no_occurrence _ _ _ hb)
  simp [parseDirectives, videoLoop, breathingLoop, exec, e1, e2, e3]

/-- C4 at the reply `Hello there, how was your night?`. -/
theorem parseDirectives_clean_witness :
    parseDirectives "Hello there, how was your night?".toList
      = some ⟨"Hello there, how was your night?".toList, [], []⟩ :=
  parseDirectives_clean _ (by decide) (by decide)

/-- C1: two breathing tags close to each other: after the first tag is cut out
of `response` the pattern resumes at its old `lastIndex`, beyond the start of
the second tag, which is neither extracted nor removed. -/
theorem parseDirectives_two_breathing :
    parseDirectives
        "Try [BREATHING:Box:60:4-4-4-4:x] or [BREATHING:Calm:30:4-7-8:y]".toList
      = some ⟨"Try  or [BREATHING:Calm:30:4-7-8:y]".toList, [],
          [⟨"Box".toList, some 60, "4-4-4-4".toList, "x".toList⟩]⟩ := by
  decide

/-- C2: on the reply of the scenario the breathing tag with an empty embed code
is not matched by the pattern (its last group needs one character at least):
it stays in the text and the breathing list is empty. -/
theorem parseDirectives_empty_embed_code :
    parseDirectives
        "Let's try this. [BREATHING:Box:60:4-4-4-4:]  [VIDEO:Calm:https://x/y]".toList
      = some ⟨"Let's try this. [BREATHING:Box:60:4-4-4-4:]  ".toList,
          [⟨"Calm".toList, "https://x/y".toList⟩], []⟩ := by
  decide

/-- C3: the malformed tag `[VIDEO:title]` (no embed locator) yields no entry
but is deleted from the display text by the looser stripping pattern. -/
theorem parseDirectives_malformed_video :
    parseDirectives "see [VIDEO:title] now".toList
      = some ⟨"see  now".toList, [], []⟩ := by
  decide


/-! ## The stages of the chat handler -/

theorem isEmpty_false_of_ne {α : Type} (l : List α) (h : l ≠ []) : l.isEmpty = false := by
  cases l with
  | nil => exact absurd rfl h
  | cons _ _ => rfl

theorem getAISettings_of_some (d : Db) (s : AISettings) (h : d.ai_settings = some s) :
    getAISettings d = (s, d) := by
  simp [getAISettings, h]

theorem getAISettings_stored (d : Db) :
    (getAISettings d).2.ai_settings = some (getAISettings d).1 := by
  unfold getAISettings
  split
  · next s h => exact h
  · rfl

theorem getAISettings_frame (d : Db) :
    (getAISettings d).2.messages = d.messages ∧ (getAISettings d).2.videos = d.videos ∧
    (getAISettings d).2.breathing_exercises = d.breathing_exercises := by
  unfold getAISettings
  split <;> exact ⟨rfl, rfl, rfl⟩

theorem getUserSettings_frame (d : Db) (u : JsString) :
    (getUserSettings d u).2.messages = d.messages ∧
    (getUserSettings d u).2.ai_settings = d.ai_settings ∧
    (getUserSettings d u).2.videos = d.videos ∧
    (getUserSettings d u).2.breathing_exercises = d.breathing_exercises ∧
    getDynamicProfile (getUserSettings d u).2 u = getDynamicProfile d u := by
  unfold getUserSettings
  split <;> exact ⟨rfl, rfl, rfl, rfl, rfl⟩

theorem getOrCreateUser_frame (d : Db) (u : JsString) :
    (getOrCreateUser d u).messages = d.messages ∧
    (getOrCreateUser d u).ai_settings = d.ai_settings ∧
    (getOrCreateUser d u).videos = d.videos ∧
    (getOrCreateUser d u).breathing_exercises = d.breathing_exercises ∧
    getProfile (getOrCreateUser d u) u = getProfile d u ∧
    getDynamicProfile (getOrCreateUser d u) u = getDynamicProfile d u ∧
    (getUserSettings (getOrCreateUser d u) u).1 = (getUserSettings d u).1 := by
  unfold getOrCreateUser
  split
  · exact ⟨rfl, rfl, rfl, rfl, rfl, rfl, rfl⟩
  · refine ⟨rfl, rfl, rfl, rfl, rfl, rfl, ?_⟩
    unfold getUserSettings
    dsimp only
    split <;> rfl

theorem availableCatalogs_congr (d d' : Db) (ai : AISettings) (s : UserSettings)
    (hv : d'.videos = d.videos) (hb : d'.breathing_exercises = d.breathing_exercises) :
    availableCatalogs d' ai s = availableCatalogs d ai s := by
  simp [availableCatalogs, getAllVideos, getAllBreathingExercises, hv, hb]

theorem getAISettings_fst_congr (d d' : Db) (h : d'.ai_settings = d.ai_settings) :
    (getAISettings d').1 = (getAISettings d).1 := by
  unfold getAISettings
  rw [h]
  split <;> rfl

theorem generateSystemPrompt_of_some (d : Db) (s : AISettings) (h : d.ai_settings = some s)
    (p : Option Profile) (f : JsValue) (us : UserSettings) (dp : JsValue) :
    generateSystemPrompt d p f us dp = (composePrompt s p f us dp, d) := by
  simp [generateSystemPrompt, getAISettings_of_some d s h]

theorem lookup_chats (d : Db) (u : JsString) :
    (getAISettings (getUserSettings (getOrCreateUser d u) u).2).2.chats = d.chats ∧
    (getAISettings (getUserSettings (getOrCreateUser d u) u).2).2.profiles = d.profiles := by
  unfold getAISettings getUserSettings getOrCreateUser
  split <;> split <;> split <;> exact ⟨rfl, rfl⟩

theorem chatAnchor_congr (d d' : Db) (h : d'.chats = d.chats) (id : JsString) :
    chatAnchor d' id = chatAnchor d id := by
  simp [chatAnchor, getChat, h]

theorem find?_map_title (chats : List Chat) (c id title : JsString) :
    ((chats.map (fun x => if x._id = c then { x with title := title } else x)).find?
        (fun x => x._id = id)).map (fun x => x.initial_fatigue_level) =
      (chats.find? (fun x => x._id = id)).map (fun x => x.initial_fatigue_level) := by
  induction chats with
  | nil => rfl
  | cons x xs ih =>
    simp only [List.map_cons, List.find?_cons]
    by_cases hx : x._id = c
    · simp only [hx, if_true]
      by_cases hid : c = id
      · simp [hid]
      · simp only [hid, decide_False]
        exact ih
    · simp only [hx, if_false]
      by_cases hid : x._id = id
      · simp [hid]
      · simp only [hid, decide_False]
        exact ih

/-- A title update leaves the anchor of every chat as it is. -/
theorem chatAnchor_updateChatTitle (d : Db) (c title id : JsString) :
    chatAnchor (updateChatTitle d c title) id = chatAnchor d id := by
  simp only [chatAnchor, getChat, updateChatTitle]
  exact find?_map_title d.chats c id title

theorem getChat_createChat (db : Db) (chatId userId title : JsString) (lvl : JsValue)
    (h : getChat db chatId = none) :
    ∃ chat, createChat db chatId userId title lvl =
        (some chat, { db with chats := db.chats ++ [chat] }) ∧ chat._id = chatId ∧
        chat.title = title := by
  unfold getChat at h
  refine ⟨⟨chatId, userId, title, if lvl = .undefined then .null else lvl⟩, ?_, rfl, rfl⟩
  simp only [createChat, getChat, List.find?_append, h]
  simp

/-- With a chat id in the request the handler always has a chat to work on:
the stored one, or the one it creates. -/
theorem resolveChat_some (db : Db) (req : ChatRequest) (chatId : JsString)
    (hc : req.chatId = some chatId) (hne : chatId ≠ []) :
    ∃ chat db', resolveChat db req = (some chat, db') ∧ chat._id = chatId ∧
      db'.messages = db.messages ∧ db'.ai_settings = db.ai_settings ∧
      db'.videos = db.videos ∧ db'.breathing_exercises = db.breathing_exercises ∧
      (getChat db chatId = some chat ∨
        (getChat db chatId = none ∧
          chat = ⟨chatId, req.userId, "New Chat".toList,
            if req.initialFatigueLevel = .undefined then .null else req.initialFatigueLevel⟩)) ∧
      getChat db' chatId = some chat := by
  unfold resolveChat
  rw [hc]
  simp only [isEmpty_false_of_ne _ hne, Bool.false_eq_true, if_false]
  cases hg : getChat db chatId with
  | some chat =>
    refine ⟨chat, db, rfl, ?_, rfl, rfl, rfl, rfl, Or.inl rfl, hg⟩
    have := List.find?_some hg
    simpa using this
  | none =>
    have hg' := hg
    unfold getChat at hg'
    refine ⟨⟨chatId, req.userId, "New Chat".toList,
      if req.initialFatigueLevel = .undefined then .null else req.initialFatigueLevel⟩,
      { db with chats := db.chats ++ [⟨chatId, req.userId, "New Chat".toList,
        if req.initialFatigueLevel = .undefined then .null else req.initialFatigueLevel⟩] },
      ?_, rfl, rfl, rfl, rfl, rfl, Or.inr ⟨rfl, rfl⟩, ?_⟩
    · simp only [createChat, getChat, List.find?_append, hg']
      simp
    · simp only [getChat, List.find?_append, hg']
      simp

theorem getChatMessages_addMessage (d : Db) (chatId role content : JsString)
    (media : Option Media) :
    getChatMessages (addMessage d chatId role content media) chatId =
      getChatMessages d chatId ++ [⟨chatId, role, content, media⟩] := by
  simp [getChatMessages, addMessage, List.filter_append]

/-- The turn on the model path: what is sent to the provider, and how the
handler goes on from the provider's answer. -/
theorem chatHandler_model_path (key : JsValue) (callModel : ModelRequest → Option JsString)
    (db : Db) (req : ChatRequest) (message chatId : JsString)
    (hm : req.message = some message) (hne : message ≠ [])
    (hinit : message ≠ "__INIT__".toList)
    (hc : req.chatId = some chatId) (hcne : chatId ≠ [])
    (hkey : key.truthy = true) :
    ∃ (chat : Chat) (db7 : Db) (request : ModelRequest) (vids : List VideoEntry)
      (breath : List BreathingEntry),
      chat._id = chatId ∧
      (getChat db chatId = some chat ∨
        (getChat db chatId = none ∧
          chat = ⟨chatId, req.userId, "New Chat".toList,
            if req.initialFatigueLevel = .undefined then .null else req.initialFatigueLevel⟩)) ∧
      chatAnchor db7 chatId = some chat.initial_fatigue_level ∧
      db7.messages = db.messages ++ [⟨chatId, "user".toList, message, none⟩] ∧
      request.system =
        finalSystemPrompt
          (composePrompt (getAISettings db).1 (getProfile db req.userId)
            (effectiveFatigueLevel chat (getProfile db req.userId))
            (getUserSettings db req.userId).1 (getDynamicProfile db req.userId))
          message ((getChatMessages db chatId).length + 1) (videoContext vids breath) ∧
      (vids, breath) =
        availableCatalogs db (getAISettings db).1 (getUserSettings db req.userId).1 ∧
      chatHandler key callModel db req =
        (match callModel request with
         | none => some ⟨db7, 500, .failure, some request, none⟩
         | some response =>
           completeTurn db7 req.userId chat (getAISettings db).1
             (getDynamicProfile db req.userId) request response) := by
  have hu := getOrCreateUser_frame db req.userId
  have hs := getUserSettings_frame (getOrCreateUser db req.userId) req.userId
  have hai := getAISettings_stored (getUserSettings (getOrCreateUser db req.userId) req.userId).2
  have haim := getAISettings_frame
    (getUserSettings (getOrCreateUser db req.userId) req.userId).2
  have hprof := hu.2.2.2.2.1
  have hset := hu.2.2.2.2.2.2
  have hdyn : getDynamicProfile (getUserSettings (getOrCreateUser db req.userId) req.userId).2
      req.userId = getDynamicProfile db req.userId := hs.2.2.2.2.trans hu.2.2.2.2.2.1
  have haieq : (getAISettings (getUserSettings (getOrCreateUser db req.userId) req.userId).2).1
      = (getAISettings db).1 :=
    getAISettings_fst_congr _ _ (hs.2.1.trans hu.2.1)
  obtain ⟨chat, db4, h1, h2, h3, h4, h5, h6, h7, h8⟩ := resolveChat_some
    (getAISettings (getUserSettings (getOrCreateUser db req.userId) req.userId).2).2 req chatId
    hc hcne
  have hmsg4 : db4.messages = db.messages := by rw [h3, haim.1, hs.1, hu.1]
  have hvid4 : db4.videos = db.videos := by rw [h5, haim.2.1, hs.2.2.1, hu.2.2.1]
  have hbr4 : db4.breathing_exercises = db.breathing_exercises := by
    rw [h6, haim.2.2, hs.2.2.2.1, hu.2.2.2.1]
  have hai4 : db4.ai_settings = some (getAISettings db).1 := by rw [h4, hai, haieq]
  -- the store after the user message and the title update
  let db6 : Db :=
    if chat.title.isEmpty ∨ chat.title = "New Chat".toList then
      updateChatTitle (addMessage db4 chat._id "user".toList message none) chat._id
        (titleOf message)
    else addMessage db4 chat._id "user".toList message none
  have hmsg6 : db6.messages = db.messages ++ [⟨chatId, "user".toList, message, none⟩] := by
    show (if _ then _ else _ : Db).messages = _
    split <;> simp [updateChatTitle, addMessage, hmsg4, h2]
  have hai6 : db6.ai_settings = some (getAISettings db).1 := by
    show (if _ then _ else _ : Db).ai_settings = _
    split <;> simp [updateChatTitle, addMessage, hai4]
  have hvid6 : db6.videos = db.videos := by
    show (if _ then _ else _ : Db).videos = _
    split <;> simp [updateChatTitle, addMessage, hvid4]
  have hbr6 : db6.breathing_exercises = db.breathing_exercises := by
    show (if _ then _ else _ : Db).breathing_exercises = _
    split <;> simp [updateChatTitle, addMessage, hbr4]
  have hchat : getChat db chatId = some chat ∨
      (getChat db chatId = none ∧
        chat = ⟨chatId, req.userId, "New Chat".toList,
          if req.initialFatigueLevel = .undefined then .null else req.initialFatigueLevel⟩) := by
    have hl := (lookup_chats db req.userId).1
    have hg : getChat (getAISettings (getUserSettings (getOrCreateUser db req.userId)
        req.userId).2).2 chatId = getChat db chatId := by
      simp only [getChat, hl]
    rw [hg] at h7
    exact h7
  have hanchor : chatAnchor db6 chatId = some chat.initial_fatigue_level := by
    have h4a : chatAnchor db4 chatId = some chat.initial_fatigue_level := by
      simp only [chatAnchor, h8, Option.map_some']
    show chatAnchor (if _ then _ else _ : Db) chatId = _
    split
    · rw [chatAnchor_updateChatTitle]
      exact h4a
    · exact h4a
  have hcount : (getChatMessages db6 chat._id).length = (getChatMessages db chatId).length + 1 := by
    simp [getChatMessages, hmsg6, List.filter_append, h2]
  have hgen := generateSystemPrompt_of_some db6 _ hai6
    (getProfile db req.userId) (effectiveFatigueLevel chat (getProfile db req.userId))
    (getUserSettings db req.userId).1 (getDynamicProfile db req.userId)
  have hcat6 := availableCatalogs_congr db db6 (getAISettings db).1
    (getUserSettings db req.userId).1 hvid6 hbr6
  cases hcat : availableCatalogs db (getAISettings db).1 (getUserSettings db req.userId).1 with
  | mk vids breath =>
    rw [hcat] at hcat6
    refine ⟨chat, db6,
      { model := if (getAISettings db).1.model.truthy then (getAISettings db).1.model
          else .str "gpt-5.2".toList
        system := finalSystemPrompt
          (composePrompt (getAISettings db).1 (getProfile db req.userId)
            (effectiveFatigueLevel chat (getProfile db req.userId))
            (getUserSettings db req.userId).1 (getDynamicProfile db req.userId))
          message (formatMessages (getChatMessages db6 chat._id)).length
          (videoContext vids breath)
        messages := lastTen (formatMessages (getChatMessages db6 chat._id))
        max_tokens := if (getAISettings db).1.max_tokens.truthy then
          (getAISettings db).1.max_tokens else .num 500
        temperature := if (getAISettings db).1.temperature.truthy then
          (getAISettings db).1.temperature else .num (8 / 10) },
      vids, breath, h2, hchat, hanchor, hmsg6, ?_, rfl, ?_⟩
    · simp only [formatMessages, List.length_map, hcount]
    · simp only [chatHandler, hm, Option.getD_some, isEmpty_false_of_ne _ hne,
        Bool.false_eq_true, if_false, h1, hinit, hkey, Bool.not_true, haieq, hprof, hset, hdyn]
      simp only [db6] at hgen hcat6
      simp only [hgen, hcat6]

/-- The turn after a reply of the model: the outcome always exists; it stores
the stripped reply as one more message of the chat and triggers the extraction
according to `shouldExtract` on the new message count. -/
theorem completeTurn_spec (db : Db) (userId : JsString) (chat : Chat) (ai : AISettings)
    (dyn : JsValue) (request : ModelRequest) (response : JsString) :
    ∃ parsed o, parseDirectives response = some parsed ∧
      completeTurn db userId chat ai dyn request response = some o ∧
      o.status = 200 ∧
      o.body = .reply (trim parsed.displayText)
        (if parsed.videos.length > 0 then some parsed.videos else none)
        (if parsed.breathing.length > 0 then some parsed.breathing else none) ∧
      o.modelRequest = some request ∧
      o.db.messages = db.messages ++
        [⟨chat._id, "assistant".toList, parsed.displayText,
          mediaContent parsed.videos parsed.breathing⟩] ∧
      (o.extraction.isSome = shouldExtract ai ((getChatMessages db chat._id).length + 1)) := by
  obtain ⟨parsed, hp⟩ := parseDirectives_total response
  simp only [completeTurn, hp]
  refine ⟨parsed, _, rfl, rfl, rfl, rfl, rfl, rfl, ?_⟩
  simp only [formatMessages, List.length_map, getChatMessages_addMessage, List.length_append,
    List.length_singleton]
  split <;> simp_all


/-! ## The claims about the chat turn -/

theorem finalSystemPrompt_succ (sys message ctx : JsString) (n : Nat) :
    finalSystemPrompt sys message (n + 1) ctx =
      sys ++ (if isBriefMessage message then proactiveNote message else []) ++ ctx := by
  unfold finalSystemPrompt
  by_cases hb : isBriefMessage message = true <;> simp [hb]

/-- The turn without credentials: the fixed reply is stored and returned, no
request goes to the provider and no extraction is triggered. -/
theorem chatHandler_fallback (key : JsValue) (callModel : ModelRequest → Option JsString)
    (db : Db) (req : ChatRequest) (message chatId : JsString)
    (hm : req.message = some message) (hne : message ≠ [])
    (hinit : message ≠ "__INIT__".toList)
    (hc : req.chatId = some chatId) (hcne : chatId ≠ [])
    (hkey : key.truthy = false) :
    ∃ o, chatHandler key callModel db req = some o ∧ o.status = 200 ∧
      o.body = .reply fallbackResponse none none ∧
      o.db.messages = db.messages ++
        [⟨chatId, "user".toList, message, none⟩,
         ⟨chatId, "assistant".toList, fallbackResponse, none⟩] ∧
      o.modelRequest = none ∧ o.extraction = none := by
  have hu := getOrCreateUser_frame db req.userId
  have hs := getUserSettings_frame (getOrCreateUser db req.userId) req.userId
  have haim := (getAISettings_frame
    (getUserSettings (getOrCreateUser db req.userId) req.userId).2).1
  obtain ⟨chat, db4, h1, h2, h3, _⟩ := resolveChat_some
    (getAISettings (getUserSettings (getOrCreateUser db req.userId) req.userId).2).2 req chatId
    hc hcne
  simp only [chatHandler, hm, Option.getD_some, isEmpty_false_of_ne _ hne, Bool.false_eq_true,
    if_false, h1, hinit, hkey, Bool.not_false, if_true]
  refine ⟨_, rfl, rfl, rfl, ?_, rfl, rfl⟩
  split <;> simp [addMessage, updateChatTitle, h2, h3, haim, hs.1, hu.1]

/-- The messages of a chat after two more messages of this chat are stored. -/
theorem getChatMessages_length_two (d d' : Db) (chatId : JsString) (a b : Message)
    (ha : a.chat_id = chatId) (hb : b.chat_id = chatId)
    (h : d'.messages = d.messages ++ [a, b]) :
    (getChatMessages d' chatId).length = (getChatMessages d chatId).length + 2 := by
  simp [getChatMessages, h, List.filter_append, List.filter_cons, ha, hb]

/-- The turn answered by the model: the outcome exists, the chat has two more
messages and the extraction is triggered according to `shouldExtract`. -/
theorem chatHandler_answered (key : JsValue) (callModel : ModelRequest → Option JsString)
    (db : Db) (req : ChatRequest) (message chatId : JsString)
    (hm : req.message = some message) (hne : message ≠ [])
    (hinit : message ≠ "__INIT__".toList)
    (hc : req.chatId = some chatId) (hcne : chatId ≠ [])
    (hkey : key.truthy = true)
    (hmodel : ∀ r, ∃ response, callModel r = some response) :
    ∃ o, chatHandler key callModel db req = some o ∧ o.status = 200 ∧
      (getChatMessages o.db chatId).length = (getChatMessages db chatId).length + 2 ∧
      o.extraction.isSome =
        shouldExtract (getAISettings db).1 (getChatMessages o.db chatId).length := by
  obtain ⟨chat, db7, request, vids, breath, h2, _, _, hmsg, _, _, heq⟩ :=
    chatHandler_model_path key callModel db req message chatId hm hne hinit hc hcne hkey
  obtain ⟨response, hr⟩ := hmodel request
  rw [hr] at heq
  obtain ⟨parsed, o, _, ho, hst, _, _, hdb, hex⟩ :=
    completeTurn_spec db7 req.userId chat (getAISettings db).1 (getDynamicProfile db req.userId)
      request response
  have hlen : (getChatMessages o.db chatId).length = (getChatMessages db chatId).length + 2 := by
    apply getChatMessages_length_two db o.db chatId ⟨chatId, "user".toList, message, none⟩
      ⟨chat._id, "assistant".toList, parsed.displayText,
        mediaContent parsed.videos parsed.breathing⟩ rfl h2
    rw [hdb, hmsg]; simp
  have hlen7 : (getChatMessages db7 chat._id).length = (getChatMessages db chatId).length + 1 := by
    simp [getChatMessages, hmsg, List.filter_append, h2]
  refine ⟨o, heq.trans ho, hst, hlen, ?_⟩
  rw [hex, hlen7, hlen]

/-- The request of a turn always carries the note when the message is brief,
whatever the chat held before. -/
theorem chatHandler_brief_note (key : JsValue) (callModel : ModelRequest → Option JsString)
    (db : Db) (req : ChatRequest) (message chatId : JsString)
    (hm : req.message = some message) (hne : message ≠ [])
    (hinit : message ≠ "__INIT__".toList)
    (hc : req.chatId = some chatId) (hcne : chatId ≠ [])
    (hkey : key.truthy = true) (hbrief : isBriefMessage message = true) :
    ∃ o r, chatHandler key callModel db req = some o ∧ o.modelRequest = some r ∧
      proactiveNote message <:+: r.system := by
  obtain ⟨chat, db7, request, vids, breath, _, _, _, _, hsys, _, heq⟩ :=
    chatHandler_model_path key callModel db req message chatId hm hne hinit hc hcne hkey
  have hin : proactiveNote message <:+: request.system := by
    rw [hsys, finalSystemPrompt_succ, hbrief]
    exact ⟨_, _, rfl⟩
  cases hr : callModel request with
  | none =>
    rw [hr] at heq
    exact ⟨_, request, heq, rfl, hin⟩
  | some response =>
    rw [hr] at heq
    obtain ⟨_, o, _, ho, _, _, hreq, _, _⟩ :=
      completeTurn_spec db7 req.userId chat (getAISettings db).1 (getDynamicProfile db req.userId)
      request response
    exact ⟨o, request, heq.trans ho, hreq, hin⟩

/-- C5: the message `hello` sent as the first message of a new chat (no
message stored before), with credentials configured: the instruction text
sent to the model contains the brief-message note. -/
theorem chatHandler_first_hello_note :
    getChatMessages emptyDb "c1".toList = [] ∧
    ∃ o r, chatHandler (.str "sk-test".toList) (fun _ => some "Hello!".toList) emptyDb
        helloRequest = some o ∧
      o.modelRequest = some r ∧ proactiveNote "hello".toList <:+: r.system :=
  ⟨rfl, chatHandler_brief_note _ _ emptyDb helloRequest "hello".toList "c1".toList rfl
    (by decide) (by decide) rfl (by decide) rfl (by decide)⟩

/-- C6, as stated, fails: after the first turn of a new chat, answered by the
model with memory enabled, the chat holds exactly 2 messages and the
extraction function is called. -/
theorem extraction_called_at_two_messages :
    ∃ o, chatHandler (.str "sk-test".toList) (fun _ => some "Hello!".toList) emptyDb
        helloRequest = some o ∧
      (getChatMessages o.db "c1".toList).length = 2 ∧ o.extraction.isSome = true := by
  obtain ⟨o, ho, _, hlen, hex⟩ := chatHandler_answered (.str "sk-test".toList)
    (fun _ => some "Hello!".toList) emptyDb helloRequest "hello".toList "c1".toList rfl
    (by decide) (by decide) rfl (by decide) rfl (fun _ => ⟨_, rfl⟩)
  have h0 : (getChatMessages emptyDb "c1".toList).length = 0 := rfl
  rw [h0] at hlen
  refine ⟨o, ho, hlen, ?_⟩
  rw [hex, hlen]
  rfl

/-- C6, amended: on every turn answered by the model with memory enabled,
the extraction function is called when the chat then holds exactly 2 messages,
and when it holds exactly 4 (in server.js, which has no memory setting, the
same test passes at 2 and at 4). -/
theorem extraction_at_two_and_four (key : JsValue)
    (callModel : ModelRequest → Option JsString)
    (db : Db) (req : ChatRequest) (message chatId : JsString)
    (hm : req.message = some message) (hne : message ≠ [])
    (hinit : message ≠ "__INIT__".toList)
    (hc : req.chatId = some chatId) (hcne : chatId ≠ [])
    (hkey : key.truthy = true)
    (hmodel : ∀ r, ∃ response, callModel r = some response)
    (hmem : (getAISettings db).1.memory_enabled.truthy = true) :
    (∃ o, chatHandler key callModel db req = some o ∧
      ((getChatMessages o.db chatId).length = 2 ∨ (getChatMessages o.db chatId).length = 4 →
        o.extraction.isSome = true)) ∧
    shouldExtractSimple 2 = true ∧ shouldExtractSimple 4 = true := by
  obtain ⟨o, ho, _, _, hex⟩ :=
    chatHandler_answered key callModel db req message chatId hm hne hinit hc hcne hkey hmodel
  refine ⟨⟨o, ho, ?_⟩, rfl, rfl⟩
  intro h
  rw [hex]
  rcases h with h | h <;> simp [shouldExtract, h, hmem]

/-- C6, amended, at the first turn of a new chat. -/
theorem extraction_at_two_and_four_witness :
    (∃ o, chatHandler (.str "sk-test".toList) (fun _ => some "Hello!".toList) emptyDb
        helloRequest = some o ∧
      ((getChatMessages o.db "c1".toList).length = 2 ∨
        (getChatMessages o.db "c1".toList).length = 4 → o.extraction.isSome = true)) ∧
    shouldExtractSimple 2 = true ∧ shouldExtractSimple 4 = true :=
  extraction_at_two_and_four (.str "sk-test".toList) (fun _ => some "Hello!".toList) emptyDb
    helloRequest "hello".toList "c1".toList rfl (by decide) (by decide) rfl (by decide) rfl
    (fun _ => ⟨_, rfl⟩) rfl

/-- C7, as stated, fails: a turn answered with the fallback text (no API key)
is completed, memory is enabled, the chat then holds 2 messages (even, at
least 2), and the extraction function is not called. -/
theorem fallback_turn_no_extraction :
    (getAISettings emptyDb).1.memory_enabled.truthy = true ∧
    ∃ o, chatHandler .undefined (fun _ => some "Hello!".toList) emptyDb helloRequest = some o ∧
      o.status = 200 ∧ (getChatMessages o.db "c1".toList).length = 2 ∧
      o.extraction = none := by
  obtain ⟨o, ho, hst, _, hdb, _, hex⟩ := chatHandler_fallback .undefined
    (fun _ => some "Hello!".toList) emptyDb helloRequest "hello".toList "c1".toList rfl
    (by decide) (by decide) rfl (by decide) rfl
  refine ⟨rfl, o, ho, hst, ?_, hex⟩
  rw [getChatMessages_length_two emptyDb o.db "c1".toList _ _ rfl rfl hdb]
  rfl

/-- C7, amended: on every turn answered by the model the extraction function
is called if and only if memory is enabled, the message count of the chat
after the assistant message is even, and it is at least 2; on a turn answered
with the fallback text (no API key) it is never called. -/
theorem extraction_trigger (key : JsValue) (callModel : ModelRequest → Option JsString)
    (db : Db) (req : ChatRequest) (message chatId : JsString)
    (hm : req.message = some message) (hne : message ≠ [])
    (hinit : message ≠ "__INIT__".toList)
    (hc : req.chatId = some chatId) (hcne : chatId ≠ []) :
    (key.truthy = true → (∀ r, ∃ response, callModel r = some response) →
      ∃ o, chatHandler key callModel db req = some o ∧ o.status = 200 ∧
        (o.extraction.isSome = true ↔
          (getAISettings db).1.memory_enabled.truthy = true ∧
          (getChatMessages o.db chatId).length % 2 = 0 ∧
          2 ≤ (getChatMessages o.db chatId).length)) ∧
    (key.truthy = false →
      ∃ o, chatHandler key callModel db req = some o ∧ o.status = 200 ∧
        o.extraction = none) := by
  constructor
  · intro hkey hmodel
    obtain ⟨o, ho, hst, _, hex⟩ :=
      chatHandler_answered key callModel db req message chatId hm hne hinit hc hcne hkey hmodel
    refine ⟨o, ho, hst, ?_⟩
    rw [hex]
    simp only [shouldExtract, Bool.and_eq_true, decide_eq_true_eq, ge_iff_le]
    tauto
  · intro hkey
    obtain ⟨o, ho, hst, _, _, _, hex⟩ :=
      chatHandler_fallback key callModel db req message chatId hm hne hinit hc hcne hkey
    exact ⟨o, ho, hst, hex⟩

/-- C7, amended, at the first turn of a new chat, with and without API key. -/
theorem extraction_trigger_witness :
    (∃ o, chatHandler (.str "sk-test".toList) (fun _ => some "Hello!".toList) emptyDb
        helloRequest = some o ∧ o.status = 200 ∧
        (o.extraction.isSome = true ↔
          (getAISettings emptyDb).1.memory_enabled.truthy = true ∧
          (getChatMessages o.db "c1".toList).length % 2 = 0 ∧
          2 ≤ (getChatMessages o.db "c1".toList).length)) ∧
    (∃ o, chatHandler .undefined (fun _ => some "Hello!".toList) emptyDb helloRequest = some o ∧
        o.status = 200 ∧ o.extraction = none) :=
  ⟨(extraction_trigger (.str "sk-test".toList) (fun _ => some "Hello!".toList) emptyDb
      helloRequest "hello".toList "c1".toList rfl (by decide) (by decide) rfl (by decide)).1
      rfl (fun _ => ⟨_, rfl⟩),
   (extraction_trigger .undefined (fun _ => some "Hello!".toList) emptyDb
      helloRequest "hello".toList "c1".toList rfl (by decide) (by decide) rfl (by decide)).2
      rfl⟩

/-- C8, as stated, fails: with credentials configured and a provider call
that throws, the handler answers with status 500 and the failure body, and
stores no assistant message (the chat holds the user message only). -/
theorem chatHandler_provider_throws :
    ∃ o, chatHandler (.str "sk-test".toList) (fun _ => none) emptyDb helloRequest = some o ∧
      o.status = 500 ∧ o.body = .failure ∧
      o.db.messages = [⟨"c1".toList, "user".toList, "hello".toList, none⟩] := by
  obtain ⟨chat, db7, request, vids, breath, _, _, _, hmsg, _, _, heq⟩ :=
    chatHandler_model_path (.str "sk-test".toList) (fun _ => none) emptyDb helloRequest
      "hello".toList "c1".toList rfl (by decide) (by decide) rfl (by decide) rfl
  exact ⟨_, heq, rfl, rfl, hmsg⟩

/-- C8, amended: when the credentials are missing the handler replies with
the fixed fallback text, stores it as an assistant message after the user
message, sends nothing to the provider and answers with status 200; when the
credentials are configured and the provider call throws, it answers with
status 500 and the failure body and stores the user message only. -/
theorem chatHandler_unavailable (key : JsValue) (callModel : ModelRequest → Option JsString)
    (db : Db) (req : ChatRequest) (message chatId : JsString)
    (hm : req.message = some message) (hne : message ≠ [])
    (hinit : message ≠ "__INIT__".toList)
    (hc : req.chatId = some chatId) (hcne : chatId ≠ []) :
    (key.truthy = false →
      ∃ o, chatHandler key callModel db req = some o ∧ o.status = 200 ∧
        o.body = .reply fallbackResponse none none ∧
        o.db.messages = db.messages ++
          [⟨chatId, "user".toList, message, none⟩,
           ⟨chatId, "assistant".toList, fallbackResponse, none⟩] ∧
        o.modelRequest = none) ∧
    (key.truthy = true → (∀ r, callModel r = none) →
      ∃ o, chatHandler key callModel db req = some o ∧ o.status = 500 ∧
        o.body = .failure ∧
        o.db.messages = db.messages ++ [⟨chatId, "user".toList, message, none⟩]) := by
  constructor
  · intro hkey
    obtain ⟨o, ho, hst, hbody, hdb, hreq, _⟩ :=
      chatHandler_fallback key callModel db req message chatId hm hne hinit hc hcne hkey
    exact ⟨o, ho, hst, hbody, hdb, hreq⟩
  · intro hkey hthrow
    obtain ⟨chat, db7, request, vids, breath, _, _, _, hmsg, _, _, heq⟩ :=
      chatHandler_model_path key callModel db req message chatId hm hne hinit hc hcne hkey
    rw [hthrow request] at heq
    exact ⟨_, heq, rfl, rfl, hmsg⟩

/-- C8, amended, at the first turn of a new chat, without and with API key. -/
theorem chatHandler_unavailable_witness :
    (∃ o, chatHandler .undefined (fun _ => none) emptyDb helloRequest = some o ∧
        o.status = 200 ∧ o.body = .reply fallbackResponse none none ∧
        o.db.messages = emptyDb.messages ++
          [⟨"c1".toList, "user".toList, "hello".toList, none⟩,
           ⟨"c1".toList, "assistant".toList, fallbackResponse, none⟩] ∧
        o.modelRequest = none) ∧
    (∃ o, chatHandler (.bool true) (fun _ => none) emptyDb helloRequest = some o ∧
        o.status = 500 ∧ o.body = .failure ∧
        o.db.messages = emptyDb.messages ++
          [⟨"c1".toList, "user".toList, "hello".toList, none⟩]) :=
  ⟨(chatHandler_unavailable .undefined (fun _ => none) emptyDb helloRequest "hello".toList
      "c1".toList rfl (by decide) (by decide) rfl (by decide)).1 rfl,
   (chatHandler_unavailable (.bool true) (fun _ => none) emptyDb helloRequest "hello".toList
      "c1".toList rfl (by decide) (by decide) rfl (by decide)).2 rfl (fun _ => rfl)⟩

theorem getLast?_eq_of_suffix {α : Type} (a b : List α) (h : a <:+ b) (ha : a ≠ []) :
    b.getLast? = a.getLast? := by
  obtain ⟨t, rfl⟩ := h
  cases a with
  | nil => exact absurd rfl ha
  | cons x xs =>
    rw [List.getLast?_append]
    cases hl : (x :: xs).getLast? with
    | none => simp at hl
    | some y => rfl

/-- The text sent to the model on every turn that reaches the provider: the
composer's text, then the note when the message is brief, then the catalogs. -/
theorem chatHandler_prompt (key : JsValue) (callModel : ModelRequest → Option JsString)
    (db : Db) (req : ChatRequest) (message chatId : JsString)
    (hm : req.message = some message) (hne : message ≠ [])
    (hinit : message ≠ "__INIT__".toList)
    (hc : req.chatId = some chatId) (hcne : chatId ≠ [])
    (hkey : key.truthy = true) :
    ∃ o r chat, chatHandler key callModel db req = some o ∧ o.modelRequest = some r ∧
      r.system =
        composePrompt (getAISettings db).1 (getProfile db req.userId)
            (effectiveFatigueLevel chat (getProfile db req.userId))
            (getUserSettings db req.userId).1 (getDynamicProfile db req.userId) ++
          (if isBriefMessage message then proactiveNote message else []) ++
          videoContext
            (availableCatalogs db (getAISettings db).1 (getUserSettings db req.userId).1).1
            (availableCatalogs db (getAISettings db).1 (getUserSettings db req.userId).1).2 := by
  obtain ⟨chat, db7, request, vids, breath, _, _, _, _, hsys, hcat, heq⟩ :=
    chatHandler_model_path key callModel db req message chatId hm hne hinit hc hcne hkey
  rw [finalSystemPrompt_succ] at hsys
  rw [← hcat]
  cases hr : callModel request with
  | none =>
    rw [hr] at heq
    exact ⟨_, request, chat, heq, rfl, hsys⟩
  | some response =>
    rw [hr] at heq
    obtain ⟨_, o, _, ho, _, _, hreq, _, _⟩ :=
      completeTurn_spec db7 req.userId chat (getAISettings db).1 (getDynamicProfile db req.userId)
        request response
    exact ⟨o, request, chat, heq.trans ho, hreq, hsys⟩


theorem videoContext_ne_nil (vids : List VideoEntry) (breath : List BreathingEntry)
    (h : vids ≠ [] ∨ breath ≠ []) : videoContext vids breath ≠ [] := by
  unfold videoContext
  rcases h with h | h
  · have : vids.length > 0 := List.length_pos.mpr h
    simp only [this, if_true, videoCatalogBlock]
    simp
  · have : breath.length > 0 := List.length_pos.mpr h
    simp only [this, if_true, breathingCatalogBlock]
    simp

/-- C9, as stated, fails: on a turn with a brief message and a video in the
catalog, the text sent to the model is the composer's text, then the
brief-message note, then the catalog block; the note is not the end of the text. -/
theorem prompt_note_before_catalog :
    ∃ o r, chatHandler (.str "sk-test".toList) (fun _ => some "Hello!".toList) dbWithVideo
        helloRequest = some o ∧ o.modelRequest = some r ∧
      (∃ pre, r.system = pre ++ proactiveNote "hello".toList ++ videoCatalogBlock [calmVideo]) ∧
      ¬ proactiveNote "hello".toList <:+ r.system := by
  obtain ⟨o, r, chat, ho, hr, hsys⟩ := chatHandler_prompt (.str "sk-test".toList)
    (fun _ => some "Hello!".toList) dbWithVideo helloRequest "hello".toList "c1".toList rfl
    (by decide) (by decide) rfl (by decide) rfl
  have hb : isBriefMessage "hello".toList = true := by decide
  have hcat : availableCatalogs dbWithVideo (getAISettings dbWithVideo).1
      (getUserSettings dbWithVideo helloRequest.userId).1 = ([calmVideo], []) := by decide
  rw [hb, hcat] at hsys
  have hctx : videoContext [calmVideo] [] = videoCatalogBlock [calmVideo] := by
    simp [videoContext]
  simp only [if_true, hctx] at hsys
  refine ⟨o, r, ho, hr, ⟨_, hsys⟩, ?_⟩
  intro hsuf
  have h1 := getLast?_eq_of_suffix _ _ hsuf (by simp [proactiveNote])
  have h2 : r.system.getLast? = (videoCatalogBlock [calmVideo]).getLast? := by
    rw [hsys]
    exact getLast?_eq_of_suffix _ _ (List.suffix_append _ _) (by simp [videoCatalogBlock])
  have h3 : (videoCatalogBlock [calmVideo]).getLast? = some '"' := by
    set_option maxRecDepth 100000 in decide
  have h4 : (proactiveNote "hello".toList).getLast? = some '!' := by
    set_option maxRecDepth 100000 in decide
  rw [h2, h3, h4] at h1
  exact absurd h1 (by decide)

/-- C9, amended: on every turn that reaches the provider with a brief message
and a non-empty catalog, the text sent to the model is the composer's text,
followed by the brief-message note, followed by the catalog blocks, which are
the last part of the text. -/
theorem prompt_order (key : JsValue) (callModel : ModelRequest → Option JsString)
    (db : Db) (req : ChatRequest) (message chatId : JsString)
    (hm : req.message = some message) (hne : message ≠ [])
    (hinit : message ≠ "__INIT__".toList)
    (hc : req.chatId = some chatId) (hcne : chatId ≠ [])
    (hkey : key.truthy = true) (hbrief : isBriefMessage message = true)
    (hcat : (availableCatalogs db (getAISettings db).1 (getUserSettings db req.userId).1).1 ≠ [] ∨
      (availableCatalogs db (getAISettings db).1 (getUserSettings db req.userId).1).2 ≠ []) :
    ∃ o r chat catalog, chatHandler key callModel db req = some o ∧
      o.modelRequest = some r ∧
      catalog = videoContext
        (availableCatalogs db (getAISettings db).1 (getUserSettings db req.userId).1).1
        (availableCatalogs db (getAISettings db).1 (getUserSettings db req.userId).1).2 ∧
      catalog ≠ [] ∧
      r.system =
        composePrompt (getAISettings db).1 (getProfile db req.userId)
            (effectiveFatigueLevel chat (getProfile db req.userId))
            (getUserSettings db req.userId).1 (getDynamicProfile db req.userId) ++
          proactiveNote message ++ catalog := by
  obtain ⟨o, r, chat, ho, hr, hsys⟩ :=
    chatHandler_prompt key callModel db req message chatId hm hne hinit hc hcne hkey
  rw [hbrief] at hsys
  exact ⟨o, r, chat, _, ho, hr, rfl, videoContext_ne_nil _ _ hcat, hsys⟩

/-- C9, amended, at the message `hello` with one video in the catalog. -/
theorem prompt_order_witness :
    ∃ o r chat catalog, chatHandler (.str "sk-test".toList) (fun _ => some "Hello!".toList)
        dbWithVideo helloRequest = some o ∧
      o.modelRequest = some r ∧
      catalog = videoContext
        (availableCatalogs dbWithVideo (getAISettings dbWithVideo).1
          (getUserSettings dbWithVideo helloRequest.userId).1).1
        (availableCatalogs dbWithVideo (getAISettings dbWithVideo).1
          (getUserSettings dbWithVideo helloRequest.userId).1).2 ∧
      catalog ≠ [] ∧
      r.system =
        composePrompt (getAISettings dbWithVideo).1 (getProfile dbWithVideo helloRequest.userId)
            (effectiveFatigueLevel chat (getProfile dbWithVideo helloRequest.userId))
            (getUserSettings dbWithVideo helloRequest.userId).1
            (getDynamicProfile dbWithVideo helloRequest.userId) ++
          proactiveNote "hello".toList ++ catalog :=
  prompt_order (.str "sk-test".toList) (fun _ => some "Hello!".toList) dbWithVideo helloRequest
    "hello".toList "c1".toList rfl (by decide) (by decide) rfl (by decide) rfl (by decide)
    (Or.inl (by decide))


/-! ## The claims about the profile block -/

theorem profileLine_isEmpty (label : String) (v : JsValue) (h : label.toList ≠ []) :
    (profileLine label v).isEmpty = !v.truthy := by
  unfold profileLine
  cases hv : v.truthy
  · simp
  · cases hl : label.toList with
    | nil => exact absurd hl h
    | cons c cs => simp

theorem fatigueProfileLine_isEmpty (v : JsValue) :
    (fatigueProfileLine v).isEmpty = !decide (v ≠ .null) := by
  unfold fatigueProfileLine
  by_cases hv : v = .null
  · simp [hv]
  · have : ("- Typical fatigue level: ".toList ++ v.toStr ++ "/10".toList).isEmpty = false := rfl
    simp [hv, this]

/-- C10, as stated, fails: for a profile in which only the name is present,
the block has the header line, the line of the name and one empty line for
each of the nine absent fields (13 lines when split at the line feeds), not
the header line plus one line. -/
theorem profileInfo_blank_placeholders :
    (presentFields annProfile).count true = 1 ∧
    profileInfo (some annProfile) =
      "\nUSER PROFILE:\n- Name: Ann\n\n\n\n\n\n\n\n\n\n".toList ∧
    ((profileInfo (some annProfile)).splitOn '\n').length = 13 := by
  decide

/-- C10, amended: for every profile (its typical fatigue level not being
`undefined`, its values holding no line feed), the USER PROFILE block of
server-mongo.js always has the same 13 lines: an empty line, the header, one
line per field in fixed order and a final empty line, where the line of a
field is its labeled line when the field is present and an empty line when it is
absent; so the number of non-empty lines is the header plus the number of
present fields, and each absent field leaves a blank line. The block of
server.js has 6 such lines (name, age, typical fatigue level). -/
theorem profileInfo_lines (p : Profile) (hf : p.current_fatigue_level ≠ .undefined)
    (h : ∀ l ∈ profileInfoLines p, '\n' ∉ l) :
    (profileInfo (some p)).splitOn '\n' = profileInfoLines p ∧
    ((profileInfo (some p)).splitOn '\n').length = 13 ∧
    ((profileInfo (some p)).splitOn '\n').countP (fun l => !l.isEmpty) =
      1 + (presentFields p).count true ∧
    ((profileInfo (some p)).splitOn '\n').countP (fun l => l.isEmpty) =
      2 + (presentFields p).count false ∧
    (profileInfoSimple (some p)).splitOn '\n' = profileInfoLinesSimple p ∧
    ((profileInfoSimple (some p)).splitOn '\n').length = 6 := by
  have h1 : (profileInfo (some p)).splitOn '\n' = profileInfoLines p :=
    List.splitOn_intercalate (profileInfoLines p) '\n' h (by simp [profileInfoLines])
  have h2 : (profileInfoSimple (some p)).splitOn '\n' = profileInfoLinesSimple p := by
    apply List.splitOn_intercalate (profileInfoLinesSimple p) '\n' _ (by simp [profileInfoLinesSimple])
    intro l hl
    apply h
    simp only [profileInfoLinesSimple, List.mem_cons, List.mem_singleton] at hl
    simp only [profileInfoLines, List.mem_cons, List.mem_singleton]
    tauto
  have hpres : decide (p.current_fatigue_level ≠ .null ∧ p.current_fatigue_level ≠ .undefined)
      = decide (p.current_fatigue_level ≠ .null) := by simp [hf]
  refine ⟨h1, by rw [h1]; rfl, ?_, ?_, h2, by rw [h2]; rfl⟩
  · rw [h1]
    simp only [profileInfoLines, presentFields, List.countP_cons, List.countP_nil,
      List.count_cons, List.count_nil,
      profileLine_isEmpty _ _ (show "- Name: ".toList ≠ [] by decide),
      profileLine_isEmpty _ _ (show "- Age: ".toList ≠ [] by decide),
      profileLine_isEmpty _ _ (show "- Gender: ".toList ≠ [] by decide),
      profileLine_isEmpty _ _ (show "- Ethnicity: ".toList ≠ [] by decide),
      profileLine_isEmpty _ _ (show "- Cancer Type: ".toList ≠ [] by decide),
      profileLine_isEmpty _ _ (show "- Treatment Stage: ".toList ≠ [] by decide),
      profileLine_isEmpty _ _ (show "- Diagnosis Date: ".toList ≠ [] by decide),
      profileLine_isEmpty _ _ (show "- Location: ".toList ≠ [] by decide),
      profileLine_isEmpty _ _ (show "- Support System: ".toList ≠ [] by decide),
      fatigueProfileLine_isEmpty, hpres]
    simp only [Bool.not_not, List.isEmpty_nil, Bool.not_true, Bool.false_eq_true, if_false,
      beq_iff_eq, show ("USER PROFILE:".toList).isEmpty = false from rfl, Bool.not_false,
      if_true]
    omega
  · rw [h1]
    simp only [profileInfoLines, presentFields, List.countP_cons, List.countP_nil,
      List.count_cons, List.count_nil,
      profileLine_isEmpty _ _ (show "- Name: ".toList ≠ [] by decide),
      profileLine_isEmpty _ _ (show "- Age: ".toList ≠ [] by decide),
      profileLine_isEmpty _ _ (show "- Gender: ".toList ≠ [] by decide),
      profileLine_isEmpty _ _ (show "- Ethnicity: ".toList ≠ [] by decide),
      profileLine_isEmpty _ _ (show "- Cancer Type: ".toList ≠ [] by decide),
      profileLine_isEmpty _ _ (show "- Treatment Stage: ".toList ≠ [] by decide),
      profileLine_isEmpty _ _ (show "- Diagnosis Date: ".toList ≠ [] by decide),
      profileLine_isEmpty _ _ (show "- Location: ".toList ≠ [] by decide),
      profileLine_isEmpty _ _ (show "- Support System: ".toList ≠ [] by decide),
      fatigueProfileLine_isEmpty, hpres]
    simp only [List.isEmpty_nil, if_true, Bool.false_eq_true, if_false,
      beq_iff_eq, show ("USER PROFILE:".toList).isEmpty = false from rfl, Bool.not_eq_true']
    cases p.name.truthy <;> cases p.age.truthy <;> cases p.gender.truthy <;>
      cases p.ethnicity.truthy <;> cases p.cancer_type.truthy <;>
      cases p.treatment_stage.truthy <;> cases p.diagnosis_date.truthy <;>
      cases p.location.truthy <;> cases p.support_system.truthy <;>
      cases decide (p.current_fatigue_level ≠ .null) <;> rfl

/-- C10, amended, at the profile in which only the name is present. -/
theorem profileInfo_lines_witness :
    (profileInfo (some annProfile)).splitOn '\n' = profileInfoLines annProfile ∧
    ((profileInfo (some annProfile)).splitOn '\n').length = 13 ∧
    ((profileInfo (some annProfile)).splitOn '\n').countP (fun l => !l.isEmpty) =
      1 + (presentFields annProfile).count true ∧
    ((profileInfo (some annProfile)).splitOn '\n').countP (fun l => l.isEmpty) =
      2 + (presentFields annProfile).count false ∧
    (profileInfoSimple (some annProfile)).splitOn '\n' = profileInfoLinesSimple annProfile ∧
    ((profileInfoSimple (some annProfile)).splitOn '\n').length = 6 :=
  profileInfo_lines annProfile (by decide) (by decide)

/-! ## The claims about the fatigue guidance -/

/-- A line of a template literal occurs in the text. -/
theorem infix_jsLines (l : JsString) (ls : List JsString) (h : l ∈ ls) : l <:+: jsLines ls := by
  unfold jsLines List.intercalate
  apply List.infix_of_mem_flatten
  induction ls with
  | nil => simp at h
  | cons a t ih =>
    cases t with
    | nil => simpa using h
    | cons b t' =>
      simp only [List.intersperse_cons₂, List.mem_cons]
      rcases List.mem_cons.1 h with h | h
      · exact Or.inl h
      · exact Or.inr (Or.inr (ih h))

theorem fatigueGuidance_num (q : ℚ) :
    fatigueGuidance (.num q) =
      if 8 ≤ q then criticalGuidance (numberToString q)
      else if 6 ≤ q then moderateSevereGuidance (numberToString q)
      else if 4 ≤ q then moderateGuidance (numberToString q)
      else mildGuidance (numberToString q) := by
  simp only [fatigueGuidance, JsValue.ge, JsValue.toNumber, JsValue.toStr, criticalGuidance,
    moderateSevereGuidance, moderateGuidance, mildGuidance, ne_eq, reduceCtorEq,
    not_false_eq_true, and_self, if_true, decide_eq_true_eq]

theorem criticalGuidance_head (v : JsString) : (criticalGuidance v).head? = some 'C' := rfl
theorem moderateSevereGuidance_head (v : JsString) :
    (moderateSevereGuidance v).head? = some 'I' := rfl
theorem moderateGuidance_head (v : JsString) : (moderateGuidance v).head? = some 'T' := rfl
theorem mildGuidance_head (v : JsString) : (mildGuidance v).head? = some 'T' := rfl

theorem moderateGuidance_lines (v : JsString) :
    (moderateGuidance v).count '\n' = v.count '\n' + 4 := by
  simp only [moderateGuidance, jsLines, List.intercalate, List.intersperse, List.flatten,
    List.count_append, List.append_nil]
  have e1 : ("The user's current fatigue level is ".toList).count '\n' = 0 := by decide
  have e2 : ("/10, indicating moderate fatigue.".toList).count '\n' = 0 := by decide
  have e3 : ("- They may have some energy but still experience significant limitations".toList).count '\n' = 0 := by decide
  have e4 : ("- Balance encouragement with realistic expectations".toList).count '\n' = 0 := by decide
  have e5 : ("- Suggest gentle activities and pacing strategies".toList).count '\n' = 0 := by decide
  have e6 : ("- Acknowledge that even moderate fatigue can be challenging".toList).count '\n' = 0 := by decide
  simp only [e1, e2, e3, e4, e5, e6, List.count_singleton_self]
  omega

theorem mildGuidance_lines (v : JsString) :
    (mildGuidance v).count '\n' = v.count '\n' + 3 := by
  simp only [mildGuidance, jsLines, List.intercalate, List.intersperse, List.flatten,
    List.count_append, List.append_nil]
  have e1 : ("The user's current fatigue level is ".toList).count '\n' = 0 := by decide
  have e2 : ("/10, indicating mild fatigue.".toList).count '\n' = 0 := by decide
  have e3 : ("- They may have more capacity for activities and strategies".toList).count '\n' = 0 := by decide
  have e4 : ("- Still be gentle and validate their experience".toList).count '\n' = 0 := by decide
  have e5 : ("- Can suggest more active coping strategies while respecting their limits".toList).count '\n' = 0 := by decide
  simp only [e1, e2, e3, e4, e5, List.count_singleton_self]
  omega

/-- The four templates are different texts, whatever value they carry. -/
theorem guidance_templates_distinct (v w : JsString) :
    criticalGuidance v ≠ moderateSevereGuidance w ∧ criticalGuidance v ≠ moderateGuidance w ∧
    criticalGuidance v ≠ mildGuidance w ∧ moderateSevereGuidance v ≠ moderateGuidance w ∧
    moderateSevereGuidance v ≠ mildGuidance w ∧ moderateGuidance v ≠ mildGuidance v := by
  refine ⟨?_, ?_, ?_, ?_, ?_, ?_⟩
  · intro h
    have := congrArg List.head? h
    rw [criticalGuidance_head, moderateSevereGuidance_head] at this
    exact absurd this (by decide)
  · intro h
    have := congrArg List.head? h
    rw [criticalGuidance_head, moderateGuidance_head] at this
    exact absurd this (by decide)
  · intro h
    have := congrArg List.head? h
    rw [criticalGuidance_head, mildGuidance_head] at this
    exact absurd this (by decide)
  · intro h
    have := congrArg List.head? h
    rw [moderateSevereGuidance_head, moderateGuidance_head] at this
    exact absurd this (by decide)
  · intro h
    have := congrArg List.head? h
    rw [moderateSevereGuidance_head, mildGuidance_head] at this
    exact absurd this (by decide)
  · intro h
    have := congrArg (List.count '\n') h
    rw [moderateGuidance_lines, mildGuidance_lines] at this
    omega

theorem tenth_infix_templates (v : JsString) :
    v ++ "/10".toList <:+: criticalGuidance v ∧
    v ++ "/10".toList <:+: moderateSevereGuidance v ∧
    v ++ "/10".toList <:+: moderateGuidance v ∧
    v ++ "/10".toList <:+: mildGuidance v := by
  refine ⟨?_, ?_, ?_, ?_⟩
  · refine List.IsInfix.trans ?_ (infix_jsLines _ _ (List.mem_cons_self _ _))
    exact ⟨"CRITICAL: The user's current fatigue level is ".toList,
      ", which indicates severe fatigue. ".toList, by simp [List.append_assoc]⟩
  · refine List.IsInfix.trans ?_ (infix_jsLines _ _ (List.mem_cons_self _ _))
    exact ⟨"IMPORTANT: The user's current fatigue level is ".toList,
      ", indicating moderate-to-severe fatigue.".toList, by simp [List.append_assoc]⟩
  · refine List.IsInfix.trans ?_ (infix_jsLines _ _ (List.mem_cons_self _ _))
    exact ⟨"The user's current fatigue level is ".toList,
      ", indicating moderate fatigue.".toList, by simp [List.append_assoc]⟩
  · refine List.IsInfix.trans ?_ (infix_jsLines _ _ (List.mem_cons_self _ _))
    exact ⟨"The user's current fatigue level is ".toList,
      ", indicating mild fatigue.".toList, by simp [List.append_assoc]⟩

/-- The guidance text is part of the text of `generateSystemPrompt`. -/
theorem fatigueGuidance_in_prompt (level : JsValue) (ai : AISettings)
    (profile : Option Profile) (settings : UserSettings) (dynamicProfile : JsValue) :
    fatigueGuidance level <:+: composePrompt ai profile level settings dynamicProfile ∧
    fatigueGuidance level <:+:
      generateSystemPromptSimple profile level settings dynamicProfile := by
  constructor
  · exact infix_jsLines _ _ (by simp)
  · exact infix_jsLines _ _ (by simp)

/-- C11: for every fatigue value `f` with `0 ≤ f ≤ 10` the guidance text that
`generateSystemPrompt` puts in its output is exactly one of the four templates -
the critical one when `f ≥ 8`, the moderate-to-severe one when `6 ≤ f < 8`,
the moderate one when `4 ≤ f < 6`, the mild one when `f < 4` - the four
templates being pairwise different texts; the selected text carries `f/10`. -/
theorem fatigueGuidance_tiers (f : ℚ) (h0 : 0 ≤ f) (h10 : f ≤ 10) :
    (8 ≤ f ∧ f ≤ 10 → fatigueGuidance (.num f) = criticalGuidance (numberToString f)) ∧
    (6 ≤ f ∧ f < 8 → fatigueGuidance (.num f) = moderateSevereGuidance (numberToString f)) ∧
    (4 ≤ f ∧ f < 6 → fatigueGuidance (.num f) = moderateGuidance (numberToString f)) ∧
    (0 ≤ f ∧ f < 4 → fatigueGuidance (.num f) = mildGuidance (numberToString f)) ∧
    ((8 ≤ f ∧ f ≤ 10) ∨ (6 ≤ f ∧ f < 8) ∨ (4 ≤ f ∧ f < 6) ∨ (0 ≤ f ∧ f < 4)) ∧
    (∀ v w : JsString,
      criticalGuidance v ≠ moderateSevereGuidance w ∧ criticalGuidance v ≠ moderateGuidance w ∧
      criticalGuidance v ≠ mildGuidance w ∧ moderateSevereGuidance v ≠ moderateGuidance w ∧
      moderateSevereGuidance v ≠ mildGuidance w ∧ moderateGuidance v ≠ mildGuidance v) ∧
    numberToString f ++ "/10".toList <:+: fatigueGuidance (.num f) ∧
    (∀ (ai : AISettings) (profile : Option Profile) (settings : UserSettings)
        (dynamicProfile : JsValue),
      fatigueGuidance (.num f) <:+:
        composePrompt ai profile (.num f) settings dynamicProfile ∧
      fatigueGuidance (.num f) <:+:
        generateSystemPromptSimple profile (.num f) settings dynamicProfile) := by
  have ht := tenth_infix_templates (numberToString f)
  refine ⟨?_, ?_, ?_, ?_, ?_, guidance_templates_distinct, ?_, fatigueGuidance_in_prompt _⟩
  all_goals try rw [fatigueGuidance_num]
  · intro h; rw [if_pos h.1]
  · intro h; rw [if_neg (not_le.2 h.2), if_pos h.1]
  · intro h
    rw [if_neg (not_le.2 (lt_trans h.2 (by norm_num))), if_neg (not_le.2 h.2), if_pos h.1]
  · intro h
    rw [if_neg (not_le.2 (lt_trans h.2 (by norm_num))),
      if_neg (not_le.2 (lt_trans h.2 (by norm_num))), if_neg (not_le.2 h.2)]
  · by_cases h8 : 8 ≤ f
    · exact Or.inl ⟨h8, h10⟩
    · by_cases h6 : 6 ≤ f
      · exact Or.inr (Or.inl ⟨h6, not_le.1 h8⟩)
      · by_cases h4 : 4 ≤ f
        · exact Or.inr (Or.inr (Or.inl ⟨h4, not_le.1 h6⟩))
        · exact Or.inr (Or.inr (Or.inr ⟨h0, not_le.1 h4⟩))
  · split_ifs
    · exact ht.1
    · exact ht.2.1
    · exact ht.2.2.1
    · exact ht.2.2.2

/-- C11 at the boundary values 8, 6 and 4, which select the higher tier. -/
theorem fatigueGuidance_tiers_witness :
    fatigueGuidance (.num 8) = criticalGuidance "8".toList ∧
    fatigueGuidance (.num 6) = moderateSevereGuidance "6".toList ∧
    fatigueGuidance (.num 4) = moderateGuidance "4".toList := by
  have h8 := (fatigueGuidance_tiers 8 (by norm_num) (by norm_num)).1 ⟨le_refl _, by norm_num⟩
  have h6 := (fatigueGuidance_tiers 6 (by norm_num) (by norm_num)).2.1 ⟨le_refl _, by norm_num⟩
  have h4 := (fatigueGuidance_tiers 4 (by norm_num) (by norm_num)).2.2.1 ⟨le_refl _, by norm_num⟩
  rw [show numberToString (8 : ℚ) = "8".toList by decide] at h8
  rw [show numberToString (6 : ℚ) = "6".toList by decide] at h6
  rw [show numberToString (4 : ℚ) = "4".toList by decide] at h4
  exact ⟨h8, h6, h4⟩

theorem rememberLine_undefined :
    "current fatigue level (undefined/10)".toList <:+: rememberLine .undefined := by
  decide

/-- C12: when the fatigue level is `undefined` (as when the welcome-message
request has no `currentFatigueLevel`), the tier guidance is empty, but the
text of `generateSystemPrompt` - of server-mongo.js and of server.js - holds
the sentence `Remember their current fatigue level (undefined/10) ...`, for
every profile, settings and dynamic profile. -/
theorem systemPrompt_undefined_level (ai : AISettings) (profile : Option Profile)
    (settings : UserSettings) (dynamicProfile : JsValue) :
    fatigueGuidance .undefined = [] ∧
    "current fatigue level (undefined/10)".toList <:+:
      composePrompt ai profile .undefined settings dynamicProfile ∧
    "current fatigue level (undefined/10)".toList <:+:
      generateSystemPromptSimple profile .undefined settings dynamicProfile := by
  refine ⟨rfl, ?_, ?_⟩
  · refine rememberLine_undefined.trans (infix_jsLines _ _ ?_)
    simp [rememberLine]
  · refine rememberLine_undefined.trans (infix_jsLines _ _ ?_)
    simp [rememberLine]

/-! ## The claim about the brief-message test -/

theorem isJsWhiteSpace_toLowerChar (c : Char) :
    isJsWhiteSpace (toLowerChar c) = isJsWhiteSpace c := by
  unfold toLowerChar
  split_ifs with h1 h2
  · have hA : 'A'.toNat = 65 := rfl
    have hZ : 'Z'.toNat = 90 := rfl
    rw [hA, hZ] at h1
    unfold isJsWhiteSpace
    generalize c.toNat = n at h1 ⊢
    obtain ⟨h1, h2⟩ := h1
    interval_cases n <;> decide
  · unfold isJsWhiteSpace
    rw [h2]
    decide
  · rfl

theorem dropWhile_map_toLowerChar (s : JsString) :
    (s.map toLowerChar).dropWhile isJsWhiteSpace =
      (s.dropWhile isJsWhiteSpace).map toLowerChar := by
  induction s with
  | nil => rfl
  | cons c s ih =>
    simp only [List.map_cons, List.dropWhile_cons, isJsWhiteSpace_toLowerChar]
    split
    · exact ih
    · rfl

/-- Trimming and lower-casing commute. -/
theorem trim_toLowerCase (m : JsString) : trim (toLowerCase m) = toLowerCase (trim m) := by
  unfold trim trimStart toLowerCase
  rw [dropWhile_map_toLowerChar, ← List.map_reverse, dropWhile_map_toLowerChar,
    List.map_reverse]

/-- C13: a message is classified brief if and only if its trimmed, lower-cased
text (in either order of the two steps) is one of the nine stopwords or its
trimmed text has fewer than 10 characters; `hi`, `OK` and `  yes ` are brief
and `I had a rough night` is not. -/
theorem isBriefMessage_iff (m : JsString) :
    (isBriefMessage m = true ↔
      (trim (toLowerCase m) ∈
          ["hi".toList, "hello".toList, "hey".toList, "ok".toList, "okay".toList,
           "yes".toList, "no".toList, "thanks".toList, "thank you".toList] ∨
        (trim m).length < 10)) ∧
    toLowerCase (trim m) = trim (toLowerCase m) ∧
    isBriefMessage "hi".toList = true ∧ isBriefMessage "OK".toList = true ∧
    isBriefMessage "  yes ".toList = true ∧
    isBriefMessage "I had a rough night".toList = false := by
  refine ⟨?_, (trim_toLowerCase m).symm, by decide, by decide, by decide, by decide⟩
  simp only [isBriefMessage, briefMessages, Bool.or_eq_true, decide_eq_true_eq]

/-! ## What a chat turn changes in the store -/

/-- Any relation between stores that is reflexive, transitive and kept by the
storage functions the handler calls is kept by a whole chat turn. -/
theorem chatHandler_frame (P : Db → Db → Prop) (hrefl : ∀ d, P d d)
    (htrans : ∀ a b c, P a b → P b c → P a c)
    (h1 : ∀ d u, P d (getOrCreateUser d u))
    (h2 : ∀ d u, P d (getUserSettings d u).2)
    (h3 : ∀ d, P d (getAISettings d).2)
    (h4 : ∀ d req, P d (resolveChat d req).2)
    (h5 : ∀ d c r t m, P d (addMessage d c r t m))
    (h6 : ∀ d c t, P d (updateChatTitle d c t))
    (key : JsValue) (callModel : ModelRequest → Option JsString) (db : Db) (req : ChatRequest)
    (o : TurnOutcome) (h : chatHandler key callModel db req = some o) : P db o.db := by
  unfold chatHandler at h
  simp only at h
  split at h
  · simp only [Option.some.injEq] at h; subst h; exact hrefl _
  · have p3 : P db (getAISettings (getUserSettings (getOrCreateUser db req.userId)
        req.userId).2).2 :=
      htrans _ _ _ (htrans _ _ _ (h1 _ _) (h2 _ _)) (h3 _)
    split at h
    · next db4 hres =>
      simp only [Option.some.injEq] at h; subst h
      have := h4 (getAISettings (getUserSettings (getOrCreateUser db req.userId)
        req.userId).2).2 req
      rw [hres] at this
      exact htrans _ _ _ p3 this
    · next chat db4 hres =>
      have p4 : P db db4 := by
        have := h4 (getAISettings (getUserSettings (getOrCreateUser db req.userId)
          req.userId).2).2 req
        rw [hres] at this
        exact htrans _ _ _ p3 this
      split at h
      · simp only [Option.some.injEq] at h; subst h; exact p4
      · have p6 : P db (if chat.title.isEmpty = true ∨ chat.title = "New Chat".toList then
            updateChatTitle (addMessage db4 chat._id "user".toList (req.message.getD []) none)
              chat._id (titleOf (req.message.getD []))
            else addMessage db4 chat._id "user".toList (req.message.getD []) none) := by
          split
          · exact htrans _ _ _ (htrans _ _ _ p4 (h5 _ _ _ _ _)) (h6 _ _ _)
          · exact htrans _ _ _ p4 (h5 _ _ _ _ _)
        split at h
        · simp only [Option.some.injEq] at h; subst h
          exact htrans _ _ _ p6 (h5 _ _ _ _ _)
        · unfold generateSystemPrompt at h
          simp only at h
          split at h
          · simp only [Option.some.injEq] at h; subst h
            exact htrans _ _ _ p6 (h3 _)
          · unfold completeTurn at h
            split at h
            · exact absurd h (by simp)
            · simp only [Option.some.injEq] at h; subst h
              exact htrans _ _ _ (htrans _ _ _ p6 (h3 _)) (h5 _ _ _ _ _)

/-! ## The claims about the stored profile -/

/-- C14: the profile endpoint of server-mongo.js passes the request body to
`$set` as it is; a body that names `dynamic_profile` sets the stored dynamic
profile of a user for whom no extraction ever ran (server.js passes four named
fields only and drops the key). -/
theorem postProfile_sets_dynamic_profile :
    getDynamicProfile emptyDb "u1".toList = .str [] ∧
    getDynamicProfile (postProfile emptyDb "u1".toList "u1".toList handEditBody).2 "u1".toList
      = .str "Ann was told to stop her treatment".toList ∧
    (postProfileData handEditBody).dynamic_profile = .undefined := by
  decide

theorem find?_updateFirst_dynamic (profiles : List Profile) (u t : JsString) (p : Profile)
    (h : profiles.find? (fun x => x.user_id = u) = some p) :
    (updateFirst (fun x => decide (x.user_id = u))
        (fun x => { x with dynamic_profile := .str t }) profiles).find?
        (fun x => x.user_id = u) = some { p with dynamic_profile := .str t } := by
  induction profiles with
  | nil => simp at h
  | cons x xs ih =>
    simp only [updateFirst]
    by_cases hx : x.user_id = u
    · subst hx
      simp only [decide_True, if_true, List.find?_cons]
      simp only [List.find?_cons, decide_True, Option.some.injEq] at h
      subst h
      rfl
    · simp only [hx, decide_False, Bool.false_eq_true, if_false, List.find?_cons]
      simp only [List.find?_cons, hx, decide_False] at h
      exact ih h

/-- For a user with a stored profile, the text written by
`updateDynamicProfile` is what `getDynamicProfile` returns. -/
theorem getDynamicProfile_updateDynamicProfile (db : Db) (u t : JsString) (p : Profile)
    (hp : getProfile db u = some p) (ht : t ≠ []) :
    getDynamicProfile (updateDynamicProfile db u t) u = .str t := by
  unfold getProfile at hp
  have := find?_updateFirst_dynamic db.profiles u t p hp
  simp only [getDynamicProfile, getProfile, updateDynamicProfile, this, JsValue.truthy]
  simp [isEmpty_false_of_ne _ ht]

/-- C15: user `u1` sends the first message of a chat without having a profile
record; the turn triggers the extraction, and writing the extracted text with
`updateDynamicProfile` matches no document: `getDynamicProfile` still returns
the empty string. -/
theorem updateDynamicProfile_without_profile :
    ∃ o, chatHandler (.str "sk-test".toList) (fun _ => some "Hello!".toList) emptyDb
        helloRequest = some o ∧ o.extraction.isSome = true ∧
      getProfile o.db "u1".toList = none ∧
      getDynamicProfile (updateDynamicProfile o.db "u1".toList "Has a cat named Milo".toList)
        "u1".toList = .str [] := by
  obtain ⟨o, ho, _, hlen, hex⟩ := chatHandler_answered (.str "sk-test".toList)
    (fun _ => some "Hello!".toList) emptyDb helloRequest "hello".toList "c1".toList rfl
    (by decide) (by decide) rfl (by decide) rfl (fun _ => ⟨_, rfl⟩)
  have hprof : o.db.profiles = emptyDb.profiles :=
    chatHandler_frame (fun d d' => d'.profiles = d.profiles) (fun _ => rfl)
      (fun _ _ _ h1 h2 => h2.trans h1)
      (fun d u => by unfold getOrCreateUser; split <;> rfl)
      (fun d u => by unfold getUserSettings; split <;> rfl)
      (fun d => by unfold getAISettings; split <;> rfl)
      (fun d req => by
        unfold resolveChat createChat
        split
        · rfl
        · split
          · rfl
          · split <;> rfl)
      (fun _ _ _ _ _ => rfl) (fun _ _ _ => rfl) _ _ _ _ o ho
  have h0 : (getChatMessages emptyDb "c1".toList).length = 0 := rfl
  refine ⟨o, ho, ?_, ?_, ?_⟩
  · rw [hex, hlen, h0]; rfl
  · simp only [getProfile, hprof]; rfl
  · simp only [getDynamicProfile, getProfile, updateDynamicProfile, hprof]; rfl

/-! ## The claims about the chat documents -/

/-- C16: in a new chat whose first user message is the text `New Chat`, the
title after the first turn is `New Chat` again, so the second message
`hello` is taken for a first one and replaces the title: the title is not the
one derived from the first user message. -/
theorem title_replaced_by_second_message :
    titleOf "New Chat".toList = "New Chat".toList ∧
    chatTitle (applyOps emptyDb (newChatTurns.take 1)) "c1".toList = some "New Chat".toList ∧
    userMessages (applyOps emptyDb newChatTurns) "c1".toList =
      ["New Chat".toList, "hello".toList] ∧
    chatTitle (applyOps emptyDb newChatTurns) "c1".toList = some "hello".toList := by
  decide

theorem chats_postProfile (db : Db) (u v : JsString) (body : ProfileData) :
    (postProfile db u v body).2.chats = db.chats := by
  unfold postProfile createOrUpdateProfile getOrCreateUser
  split
  · rfl
  · simp only
    split <;> rfl

theorem chats_postUpdateFatigue (db : Db) (u v : JsString) (level : JsValue) :
    (postUpdateFatigue db u v level).2.chats = db.chats := by
  unfold postUpdateFatigue createOrUpdateProfile getOrCreateUser
  split
  · rfl
  · simp only
    split <;> rfl

theorem chatAnchor_resolveChat (d : Db) (req : ChatRequest) (id : JsString) (a : JsValue)
    (h : chatAnchor d id = some a) : chatAnchor (resolveChat d req).2 id = some a := by
  unfold resolveChat
  split
  · exact h
  · split
    · exact h
    · split
      · exact h
      · simp only [createChat, chatAnchor, getChat, List.find?_append]
        simp only [chatAnchor, getChat] at h
        cases hf : d.chats.find? (fun c => c._id = id) with
        | none => rw [hf] at h; simp at h
        | some c => rw [hf] at h; simpa using h

/-- One operation leaves the anchor of an existing chat as it is. -/
theorem chatAnchor_applyOp (db : Db) (op : StoreOp) (id : JsString) (a : JsValue)
    (h : chatAnchor db id = some a) : chatAnchor (applyOp db op) id = some a := by
  cases op with
  | turn key callModel req =>
    simp only [applyOp]
    cases ho : chatHandler key callModel db req with
    | none => exact h
    | some o =>
      exact chatHandler_frame
        (fun d d' => ∀ id a, chatAnchor d id = some a → chatAnchor d' id = some a)
        (fun _ _ _ h => h) (fun _ _ _ h1 h2 id a h => h2 id a (h1 id a h))
        (fun d u id a h => by
          rw [chatAnchor_congr d _ (by unfold getOrCreateUser; split <;> rfl)]; exact h)
        (fun d u id a h => by
          rw [chatAnchor_congr d _ (by unfold getUserSettings; split <;> rfl)]; exact h)
        (fun d id a h => by
          rw [chatAnchor_congr d _ (by unfold getAISettings; split <;> rfl)]; exact h)
        (fun d req id a h => chatAnchor_resolveChat d req id a h)
        (fun d c r t m id a h => h)
        (fun d c t id a h => by rw [chatAnchor_updateChatTitle]; exact h)
        key callModel db req o ho id a h
  | updateTitle c t => simp only [applyOp, chatAnchor_updateChatTitle]; exact h
  | appendMessage c r t m => exact h
  | writeProfile u v body =>
    simp only [applyOp]
    rw [chatAnchor_congr db _ (chats_postProfile db u v body)]; exact h
  | updateFatigue u v level =>
    simp only [applyOp]
    rw [chatAnchor_congr db _ (chats_postUpdateFatigue db u v level)]; exact h

/-- C17: for every existing chat and every sequence of chat turns (with any
request, whatever `initialFatigueLevel` it carries), title updates, message
appends, profile writes and fatigue updates of the profile, the stored
`initial_fatigue_level` of the chat stays the value it had. -/
theorem fatigue_anchor_readonly (db : Db) (chatId : JsString) (anchor : JsValue)
    (h : chatAnchor db chatId = some anchor) (ops : List StoreOp) :
    chatAnchor (applyOps db ops) chatId = some anchor := by
  unfold applyOps
  induction ops generalizing db with
  | nil => exact h
  | cons op ops ih => exact ih (applyOp db op) (chatAnchor_applyOp db op chatId anchor h)

/-- C17 at the chat `c1` created with level 7, after a turn that carries
`initialFatigueLevel` 3, a title update, a message append and a fatigue
update of the profile to 2. -/
theorem fatigue_anchor_readonly_witness :
    chatAnchor anchoredDb "c1".toList = some (.num 7) ∧
    chatAnchor (applyOps anchoredDb anchorOps) "c1".toList = some (.num 7) :=
  ⟨rfl, fatigue_anchor_readonly anchoredDb "c1".toList (.num 7) rfl anchorOps⟩

/-! ## The claims about the turn context -/

theorem effectiveFatigueLevel_eq (chat : Chat) (profile : Option Profile) :
    effectiveFatigueLevel chat profile =
      if chat.initial_fatigue_level.isSet then chat.initial_fatigue_level
      else
        match profile with
        | some p => if p.current_fatigue_level.isSet then p.current_fatigue_level else .null
        | none => .null := by
  unfold effectiveFatigueLevel JsValue.nullish JsValue.isSet
  cases hc : chat.initial_fatigue_level <;> cases profile with
  | none => simp
  | some p => cases hp : p.current_fatigue_level <;> simp [hp]

/-- The text sent to the model, with the chat of the turn: the stored chat of
that id, or the chat created by the turn. -/
theorem chatHandler_prompt_chat (key : JsValue) (callModel : ModelRequest → Option JsString)
    (db : Db) (req : ChatRequest) (message chatId : JsString)
    (hm : req.message = some message) (hne : message ≠ [])
    (hinit : message ≠ "__INIT__".toList)
    (hc : req.chatId = some chatId) (hcne : chatId ≠ [])
    (hkey : key.truthy = true) :
    ∃ o r chat, chatHandler key callModel db req = some o ∧ o.modelRequest = some r ∧
      (getChat db chatId = some chat ∨
        (getChat db chatId = none ∧
          chat = ⟨chatId, req.userId, "New Chat".toList,
            if req.initialFatigueLevel = .undefined then .null else req.initialFatigueLevel⟩)) ∧
      r.system =
        composePrompt (getAISettings db).1 (getProfile db req.userId)
            (effectiveFatigueLevel chat (getProfile db req.userId))
            (getUserSettings db req.userId).1 (getDynamicProfile db req.userId) ++
          (if isBriefMessage message then proactiveNote message else []) ++
          videoContext
            (availableCatalogs db (getAISettings db).1 (getUserSettings db req.userId).1).1
            (availableCatalogs db (getAISettings db).1 (getUserSettings db req.userId).1).2 := by
  obtain ⟨chat, db7, request, vids, breath, _, hchat, _, _, hsys, hcat, heq⟩ :=
    chatHandler_model_path key callModel db req message chatId hm hne hinit hc hcne hkey
  rw [finalSystemPrompt_succ] at hsys
  rw [← hcat]
  cases hr : callModel request with
  | none =>
    rw [hr] at heq
    exact ⟨_, request, chat, heq, rfl, hchat, hsys⟩
  | some response =>
    rw [hr] at heq
    obtain ⟨_, o, _, ho, _, _, hreq, _, _⟩ :=
      completeTurn_spec db7 req.userId chat (getAISettings db).1 (getDynamicProfile db req.userId)
        request response
    exact ⟨o, request, chat, heq.trans ho, hreq, hchat, hsys⟩

/-- C18: on every turn that reaches the Prompt Composer, the fatigue level it
is given for the chat of the turn (the stored chat, or the one just created)
is the chat's `initial_fatigue_level` when that is set, otherwise the
`current_fatigue_level` of the user's profile when a profile exists and the
field is set, otherwise null; a value of 0 counts as set. -/
theorem effective_fatigue_level (key : JsValue) (callModel : ModelRequest → Option JsString)
    (db : Db) (req : ChatRequest) (message chatId : JsString)
    (hm : req.message = some message) (hne : message ≠ [])
    (hinit : message ≠ "__INIT__".toList)
    (hc : req.chatId = some chatId) (hcne : chatId ≠ [])
    (hkey : key.truthy = true) :
    (∃ o r chat level, chatHandler key callModel db req = some o ∧ o.modelRequest = some r ∧
      (getChat db chatId = some chat ∨
        (getChat db chatId = none ∧
          chat = ⟨chatId, req.userId, "New Chat".toList,
            if req.initialFatigueLevel = .undefined then .null else req.initialFatigueLevel⟩)) ∧
      level =
        (if chat.initial_fatigue_level.isSet then chat.initial_fatigue_level
         else
          match getProfile db req.userId with
          | some p => if p.current_fatigue_level.isSet then p.current_fatigue_level else .null
          | none => .null) ∧
      r.system =
        composePrompt (getAISettings db).1 (getProfile db req.userId) level
            (getUserSettings db req.userId).1 (getDynamicProfile db req.userId) ++
          (if isBriefMessage message then proactiveNote message else []) ++
          videoContext
            (availableCatalogs db (getAISettings db).1 (getUserSettings db req.userId).1).1
            (availableCatalogs db (getAISettings db).1 (getUserSettings db req.userId).1).2) ∧
    (JsValue.num 0).isSet = true ∧ JsValue.null.isSet = false ∧
    JsValue.undefined.isSet = false := by
  obtain ⟨o, r, chat, ho, hr, hchat, hsys⟩ :=
    chatHandler_prompt_chat key callModel db req message chatId hm hne hinit hc hcne hkey
  exact ⟨⟨o, r, chat, _, ho, hr, hchat, (effectiveFatigueLevel_eq chat _).symm ▸ rfl, hsys⟩,
    rfl, rfl, rfl⟩

/-- C18 at a chat created with level 0 whose owner has the typical level 5:
the composer is given 0. -/
theorem effective_fatigue_level_witness :
    ∃ o r, chatHandler (.str "sk-test".toList) (fun _ => some "Hello!".toList) zeroAnchorDb
        helloRequest = some o ∧ o.modelRequest = some r ∧
      r.system =
        composePrompt (getAISettings zeroAnchorDb).1 (getProfile zeroAnchorDb "u1".toList)
            (.num 0) (getUserSettings zeroAnchorDb "u1".toList).1
            (getDynamicProfile zeroAnchorDb "u1".toList) ++
          proactiveNote "hello".toList := by
  obtain ⟨⟨o, r, chat, level, ho, hr, hchat, hlevel, hsys⟩, _⟩ :=
    effective_fatigue_level (.str "sk-test".toList) (fun _ => some "Hello!".toList) zeroAnchorDb
      helloRequest "hello".toList "c1".toList rfl (by decide) (by decide) rfl (by decide) rfl
  have hg : getChat zeroAnchorDb "c1".toList =
      some ⟨"c1".toList, "u1".toList, "New Chat".toList, .num 0⟩ := by decide
  have hchat' : chat = ⟨"c1".toList, "u1".toList, "New Chat".toList, .num 0⟩ := by
    rcases hchat with h | ⟨h, _⟩
    · rw [hg] at h; exact (Option.some.inj h).symm
    · rw [hg] at h; exact absurd h (by simp)
  subst hchat'
  have hl : level = .num 0 := by rw [hlevel]; rfl
  subst hl
  have hb : isBriefMessage "hello".toList = true := by decide
  have hcat : availableCatalogs zeroAnchorDb (getAISettings zeroAnchorDb).1
      (getUserSettings zeroAnchorDb helloRequest.userId).1 = ([], []) := by decide
  rw [hb, hcat] at hsys
  refine ⟨o, r, ho, hr, ?_⟩
  rw [hsys]
  simp [videoContext, helloRequest]

/-! ## The claims about the catalogs and the media payload -/

theorem availableCatalogs_eq (db : Db) (ai : AISettings) (s : UserSettings) :
    availableCatalogs db ai s =
      (if s.agentic_features.truthy = true ∧ s.chat_only.truthy = false ∧
          "videos".toList ∈ enabledToolsOf ai then getAllVideos db else [],
       if s.agentic_features.truthy = true ∧ s.chat_only.truthy = false ∧
          "breathing".toList ∈ enabledToolsOf ai then getAllBreathingExercises db else []) := by
  unfold availableCatalogs toolsAllowed
  cases s.agentic_features.truthy <;> cases s.chat_only.truthy <;> simp

/-- C19: on every turn that reaches the provider, the catalog part of the
text sent to the model is built from the video catalog - all stored videos
(sorted by title) when `agentic_features` is truthy, `chat_only` is falsy and
`videos` is in the enabled tools of the global settings, no video otherwise -
and from the breathing catalog - all stored exercises under the same condition
with `breathing`, none otherwise. -/
theorem tool_catalogs (key : JsValue) (callModel : ModelRequest → Option JsString)
    (db : Db) (req : ChatRequest) (message chatId : JsString)
    (hm : req.message = some message) (hne : message ≠ [])
    (hinit : message ≠ "__INIT__".toList)
    (hc : req.chatId = some chatId) (hcne : chatId ≠ [])
    (hkey : key.truthy = true) :
    ∃ o r pre vids breath, chatHandler key callModel db req = some o ∧
      o.modelRequest = some r ∧ r.system = pre ++ videoContext vids breath ∧
      vids =
        (if (getUserSettings db req.userId).1.agentic_features.truthy = true ∧
            (getUserSettings db req.userId).1.chat_only.truthy = false ∧
            "videos".toList ∈ enabledToolsOf (getAISettings db).1
         then getAllVideos db else []) ∧
      breath =
        (if (getUserSettings db req.userId).1.agentic_features.truthy = true ∧
            (getUserSettings db req.userId).1.chat_only.truthy = false ∧
            "breathing".toList ∈ enabledToolsOf (getAISettings db).1
         then getAllBreathingExercises db else []) ∧
      (getAllVideos db).Perm db.videos ∧
      (getAllBreathingExercises db).Perm db.breathing_exercises ∧
      ((getUserSettings db req.userId).1.chat_only.truthy = true → vids = [] ∧ breath = []) := by
  obtain ⟨o, r, chat, ho, hr, hsys⟩ :=
    chatHandler_prompt key callModel db req message chatId hm hne hinit hc hcne hkey
  rw [availableCatalogs_eq] at hsys
  refine ⟨o, r, _, _, _, ho, hr, hsys, rfl, rfl, List.perm_insertionSort _ _,
    List.perm_insertionSort _ _, ?_⟩
  intro h
  simp [h]

/-- C19 at a turn of a user with the default settings and one stored video:
the catalog holds this video and no exercise. -/
theorem tool_catalogs_witness :
    ∃ o r pre, chatHandler (.str "sk-test".toList) (fun _ => some "Hello!".toList) dbWithVideo
        helloRequest = some o ∧ o.modelRequest = some r ∧
      r.system = pre ++ videoContext [calmVideo] [] := by
  obtain ⟨o, r, pre, vids, breath, ho, hr, hsys, hv, hb, _, _, _⟩ :=
    tool_catalogs (.str "sk-test".toList) (fun _ => some "Hello!".toList) dbWithVideo
      helloRequest "hello".toList "c1".toList rfl (by decide) (by decide) rfl (by decide) rfl
  have hv' : vids = [calmVideo] := by rw [hv]; decide
  have hb' : breath = [] := by rw [hb]; decide
  subst hv' hb'
  exact ⟨o, r, pre, ho, hr, hsys⟩

theorem mediaContent_spec (videos : List VideoDirective) (breathing : List BreathingDirective) :
    (mediaContent videos breathing = none ↔ videos = [] ∧ breathing = []) ∧
    (¬ (videos = [] ∧ breathing = []) →
      mediaContent videos breathing =
        some ⟨if videos = [] then none else some videos,
              if breathing = [] then none else some breathing⟩) := by
  unfold mediaContent
  cases videos <;> cases breathing <;> simp

/-- C20: on every turn answered by the model, the assistant message is stored
with the display text of the parsed reply and a media value that is null if
and only if the videos list and the breathing list of the parse result are
both empty, and otherwise the object whose `videos` and `breathing` are the
lists, an empty list being replaced by null. -/
theorem media_payload (key : JsValue) (callModel : ModelRequest → Option JsString)
    (db : Db) (req : ChatRequest) (message chatId : JsString)
    (hm : req.message = some message) (hne : message ≠ [])
    (hinit : message ≠ "__INIT__".toList)
    (hc : req.chatId = some chatId) (hcne : chatId ≠ [])
    (hkey : key.truthy = true)
    (hmodel : ∀ r, ∃ response, callModel r = some response) :
    ∃ o r response parsed media, chatHandler key callModel db req = some o ∧
      o.modelRequest = some r ∧ callModel r = some response ∧
      parseDirectives response = some parsed ∧
      o.db.messages = db.messages ++
        [⟨chatId, "user".toList, message, none⟩,
         ⟨chatId, "assistant".toList, parsed.displayText, media⟩] ∧
      (media = none ↔ parsed.videos = [] ∧ parsed.breathing = []) ∧
      (¬ (parsed.videos = [] ∧ parsed.breathing = []) →
        media = some ⟨if parsed.videos = [] then none else some parsed.videos,
                      if parsed.breathing = [] then none else some parsed.breathing⟩) := by
  obtain ⟨chat, db7, request, vids, breath, h2, _, _, hmsg, _, _, heq⟩ :=
    chatHandler_model_path key callModel db req message chatId hm hne hinit hc hcne hkey
  obtain ⟨response, hr⟩ := hmodel request
  rw [hr] at heq
  obtain ⟨parsed, o, hp, ho, _, _, hreq, hdb, _⟩ :=
    completeTurn_spec db7 req.userId chat (getAISettings db).1 (getDynamicProfile db req.userId)
      request response
  refine ⟨o, request, response, parsed, mediaContent parsed.videos parsed.breathing,
    heq.trans ho, hreq, hr, hp, ?_, (mediaContent_spec _ _).1, (mediaContent_spec _ _).2⟩
  rw [hdb, hmsg, h2]
  simp

/-- C20 at a reply that holds one video tag. -/
theorem media_payload_witness :
    ∃ o, chatHandler (.str "sk-test".toList)
        (fun _ => some "Try this. [VIDEO:Calm:https://x/y]".toList) emptyDb helloRequest
        = some o ∧
      o.db.messages =
        [⟨"c1".toList, "user".toList, "hello".toList, none⟩,
         ⟨"c1".toList, "assistant".toList, "Try this. ".toList,
          some ⟨some [⟨"Calm".toList, "https://x/y".toList⟩], none⟩⟩] := by
  obtain ⟨o, r, response, parsed, media, ho, _, hr, hp, hdb, _, hm⟩ :=
    media_payload (.str "sk-test".toList)
      (fun _ => some "Try this. [VIDEO:Calm:https://x/y]".toList) emptyDb helloRequest
      "hello".toList "c1".toList rfl (by decide) (by decide) rfl (by decide) rfl
      (fun _ => ⟨_, rfl⟩)
  have hresp : response = "Try this. [VIDEO:Calm:https://x/y]".toList :=
    (Option.some.inj hr).symm
  subst hresp
  have hparsed : parseDirectives "Try this. [VIDEO:Calm:https://x/y]".toList =
      some ⟨"Try this. ".toList, [⟨"Calm".toList, "https://x/y".toList⟩], []⟩ := by decide
  rw [hparsed] at hp
  have hp' := (Option.some.inj hp).symm
  subst hp'
  have hmedia := hm (by simp)
  subst hmedia
  exact ⟨o, ho, by rw [hdb]; rfl⟩

/-! ## The claims about the profile extraction -/

theorem dropWhile_eq_nil_iff_all {α : Type} (p : α → Bool) (l : List α) :
    l.dropWhile p = [] ↔ l.all p = true := by
  induction l with
  | nil => simp
  | cons a l ih =>
    by_cases h : p a = true
    · simp [List.dropWhile_cons, h, ih]
    · simp [List.dropWhile_cons, h]

theorem trim_eq_nil_iff (s : JsString) : trim s = [] ↔ s.all isJsWhiteSpace = true := by
  unfold trim trimStart
  rw [List.reverse_eq_nil_iff, dropWhile_eq_nil_iff_all, List.all_reverse]
  constructor
  · intro h
    rw [List.all_eq_true] at h ⊢
    intro x hx
    by_contra hn
    have hne : s.dropWhile isJsWhiteSpace ≠ [] := by
      intro he
      rw [dropWhile_eq_nil_iff_all, List.all_eq_true] at he
      exact hn (he x hx)
    have hhead := List.head_dropWhile_not isJsWhiteSpace s hne
    have := h _ (List.head_mem hne)
    simp [this] at hhead
  · intro h
    rw [(dropWhile_eq_nil_iff_all _ _).2 h]
    rfl

/-- C21: for an extraction result `r` and a current dynamic profile text `p`,
`updateDynamicProfile` is not called when `r` is empty, when `r` consists of
white space only, or when `r` is `p`; in every other case it is called with
`r`, and the store after the handler is the one after that call. -/
theorem profileWrite_iff (db : Db) (userId r p : JsString) :
    profileWrite (.str r) (.str p)
        = (if r = [] ∨ r.all isJsWhiteSpace = true ∨ r = p then none else some r) ∧
    afterExtraction db userId (.str r) (.str p)
        = (if r = [] ∨ r.all isJsWhiteSpace = true ∨ r = p then db
           else updateDynamicProfile db userId r) := by
  have h1 : profileWrite (.str r) (.str p)
      = (if r = [] ∨ r.all isJsWhiteSpace = true ∨ r = p then none else some r) := by
    unfold profileWrite
    simp only [List.isEmpty_iff, ← trim_eq_nil_iff]
    by_cases hr : r = []
    · simp [hr]
    · by_cases ht : trim r = []
      · simp [ht]
      · by_cases hp : r = p
        · simp [hp]
        · simp [hr, ht, hp]
  refine ⟨h1, ?_⟩
  unfold afterExtraction
  rw [h1]
  split_ifs <;> rfl

theorem orEmpty_str (p : JsString) : orEmpty (.str p) = .str p := by
  unfold orEmpty
  cases p with
  | nil => simp [JsValue.truthy]
  | cons a l => simp [JsValue.truthy]

theorem profileWrite_self (p : JsString) : profileWrite (.str p) (.str p) = none := by
  simp [profileWrite]

/-- C22: when no API key is configured or the provider call of the extraction
throws, `extractProfileInfo` returns the current dynamic profile `p` (the empty
string when `p` is empty), the `.then` handler makes no call of
`updateDynamicProfile` and the store is left as it was. -/
theorem extraction_failure_keeps_profile (OPENAI_API_KEY : JsValue)
    (callExtraction : ModelRequest → Option JsString) (db : Db) (userId : JsString)
    (conversationHistory : List ChatTurn) (p : JsString)
    (hfail : OPENAI_API_KEY.truthy = false ∨
      callExtraction (extractionRequest conversationHistory (.str p)) = none) :
    extractProfileInfo OPENAI_API_KEY callExtraction userId conversationHistory (.str p)
        = .str p ∧
    profileWrite
        (extractProfileInfo OPENAI_API_KEY callExtraction userId conversationHistory (.str p))
        (.str p) = none ∧
    afterExtraction db userId
        (extractProfileInfo OPENAI_API_KEY callExtraction userId conversationHistory (.str p))
        (.str p) = db := by
  have h1 : extractProfileInfo OPENAI_API_KEY callExtraction userId conversationHistory (.str p)
      = .str p := by
    unfold extractProfileInfo
    rcases hfail with h | h
    · simp [h, orEmpty_str]
    · rw [h]; simp [orEmpty_str]
  refine ⟨h1, ?_, ?_⟩
  · rw [h1]; exact profileWrite_self p
  · rw [h1]; unfold afterExtraction; rw [profileWrite_self]

/-- C22 at a store that holds the profile text `Has a cat`, with a provider
that throws on every call. -/
theorem extraction_failure_keeps_profile_witness :
    extractProfileInfo (.str "sk-test".toList) (fun _ => none) "u1".toList
        [⟨"user".toList, "hello".toList⟩, ⟨"assistant".toList, "Hi".toList⟩]
        (.str "Has a cat".toList) = .str "Has a cat".toList ∧
    profileWrite
        (extractProfileInfo (.str "sk-test".toList) (fun _ => none) "u1".toList
          [⟨"user".toList, "hello".toList⟩, ⟨"assistant".toList, "Hi".toList⟩]
          (.str "Has a cat".toList))
        (.str "Has a cat".toList) = none ∧
    afterExtraction
        { emptyDb with profiles := [{ user_id := "u1".toList,
                                      dynamic_profile := .str "Has a cat".toList }] }
        "u1".toList
        (extractProfileInfo (.str "sk-test".toList) (fun _ => none) "u1".toList
          [⟨"user".toList, "hello".toList⟩, ⟨"assistant".toList, "Hi".toList⟩]
          (.str "Has a cat".toList))
        (.str "Has a cat".toList)
      = { emptyDb with profiles := [{ user_id := "u1".toList,
                                      dynamic_profile := .str "Has a cat".toList }] } :=
  extraction_failure_keeps_profile _ _ _ _ _ _ (Or.inr rfl)

/-! ## The refinement of the brief-message test -/

theorem mem_briefMessages_length (s : JsString) (h : s ∈ briefMessages) : s.length < 10 := by
  simp only [briefMessages, List.mem_cons, List.mem_singleton, List.not_mem_nil, or_false] at h
  rcases h with h | h | h | h | h | h | h | h | h <;> (subst h; decide)

/-- C28: the flag `isBriefMessage` of the handler is equal to the single test
`the trimmed message has fewer than 10 characters`: every entry of the
stopword list has fewer than 10 characters. -/
theorem isBriefMessage_eq_length_test (message : JsString) :
    isBriefMessage message = isBriefByLength message := by
  unfold isBriefMessage isBriefByLength
  by_cases hl : (trim message).length < 10
  · simp [hl]
  · have hm : trim (toLowerCase message) ∉ briefMessages := by
      intro hmem
      have := mem_briefMessages_length _ hmem
      rw [trim_toLowerCase] at this
      simp [toLowerCase] at this
      exact hl this
    simp [hl, hm]

/-! ## The claims about the inputs of the Prompt Composer -/

theorem dbWithVerbosity_settings (db : Db) (v : JsValue) :
    (dbWithVerbosity db { verbosity := some v }).ai_settings
      = some { defaultAISettings with verbosity := v } := by
  simp [dbWithVerbosity, updateAISettings, getAISettings]

theorem generateSystemPrompt_verbosity (db : Db) (v : JsValue) (p : Option Profile)
    (f : JsValue) (s : UserSettings) (d : JsValue) :
    (generateSystemPrompt (dbWithVerbosity db { verbosity := some v }) p f s d).1
      = composePrompt { defaultAISettings with verbosity := v } p f s d := by
  rw [generateSystemPrompt_of_some _ _ (dbWithVerbosity_settings db v)]

theorem basePrompt_in_prompt (ai : AISettings) (p : Option Profile) (f : JsValue)
    (s : UserSettings) (d : JsValue) : basePrompt ai <:+: composePrompt ai p f s d := by
  unfold composePrompt
  exact infix_jsLines _ _ (by simp)

theorem verbosityGuidance_in_prompt (ai : AISettings) (p : Option Profile) (f : JsValue)
    (s : UserSettings) (d : JsValue) : verbosityGuidance ai <:+: composePrompt ai p f s d := by
  unfold composePrompt
  exact infix_jsLines _ _ (by simp)

theorem medium_range_in_default_prompt : "100-180 words".toList <:+: getDefaultSystemPrompt := by
  have h1 : "- Keep responses conversational (100-180 words)".toList <:+: getDefaultSystemPrompt := by
    unfold getDefaultSystemPrompt
    exact infix_jsLines _ _ (by simp)
  have h2 : "100-180 words".toList <:+: "- Keep responses conversational (100-180 words)".toList := by
    decide
  exact h2.trans h1

/-- C29: with the default global settings created on first access and the
verbosity then set to `low` (resp. `high`), the text of `generateSystemPrompt`
contains `50-100 words` (resp. `150-250 words`) and also contains the medium
range `100-180 words`, which is part of the default base prompt. -/
theorem prompt_keeps_medium_range (db : Db) (p : Option Profile) (f : JsValue)
    (s : UserSettings) (d : JsValue) :
    ("50-100 words".toList <:+: (generateSystemPrompt (dbWithVerbosity db lowVerbosity) p f s d).1 ∧
     "100-180 words".toList <:+: (generateSystemPrompt (dbWithVerbosity db lowVerbosity) p f s d).1) ∧
    ("150-250 words".toList <:+: (generateSystemPrompt (dbWithVerbosity db highVerbosity) p f s d).1 ∧
     "100-180 words".toList <:+: (generateSystemPrompt (dbWithVerbosity db highVerbosity) p f s d).1) := by
  unfold lowVerbosity highVerbosity
  rw [generateSystemPrompt_verbosity, generateSystemPrompt_verbosity]
  have hb : ∀ v : JsValue, "100-180 words".toList <:+:
      composePrompt { defaultAISettings with verbosity := v } p f s d := by
    intro v
    refine List.IsInfix.trans ?_ (basePrompt_in_prompt _ p f s d)
    have : basePrompt { defaultAISettings with verbosity := v } = getDefaultSystemPrompt := rfl
    rw [this]
    exact medium_range_in_default_prompt
  refine ⟨⟨?_, hb _⟩, ?_, hb _⟩
  · refine List.IsInfix.trans ?_ (verbosityGuidance_in_prompt _ p f s d)
    decide
  · refine List.IsInfix.trans ?_ (verbosityGuidance_in_prompt _ p f s d)
    decide

theorem jsLines_cons_cons (a b : JsString) (t : List JsString) :
    jsLines (a :: b :: t) = a ++ '\n' :: jsLines (b :: t) := by
  simp [jsLines, List.intercalate, List.intersperse]

theorem jsLines_inj_at (pre post : List JsString) (x y : JsString)
    (h : jsLines (pre ++ x :: post) = jsLines (pre ++ y :: post)) : x = y := by
  induction pre with
  | nil =>
    cases post with
    | nil => simpa [jsLines, List.intercalate] using h
    | cons b t =>
      simp only [List.nil_append, jsLines_cons_cons] at h
      exact List.append_cancel_right h
  | cons a pre ih =>
    cases pre with
    | nil =>
      simp only [List.cons_append, List.nil_append, jsLines_cons_cons] at h
      have := List.append_cancel_left h
      simp only [List.cons.injEq, true_and] at this
      exact ih this
    | cons b pre' =>
      simp only [List.cons_append, jsLines_cons_cons] at h
      have := List.append_cancel_left h
      simp only [List.cons.injEq, true_and] at this
      apply ih
      simpa only [List.cons_append, jsLines_cons_cons] using this

/-- C23, as stated, fails for server-mongo.js: with the same four inputs the
text differs between a store whose global settings have the verbosity `low`
and a store without settings document, and the call on the latter store
writes the default settings document. -/
theorem generateSystemPrompt_reads_store :
    (generateSystemPrompt (dbWithVerbosity emptyDb lowVerbosity) none .null
        ⟨"u1".toList, .str "empathetic".toList, .bool true, .bool false⟩ (.str [])).1
      ≠ (generateSystemPrompt emptyDb none .null
        ⟨"u1".toList, .str "empathetic".toList, .bool true, .bool false⟩ (.str [])).1 ∧
    (generateSystemPrompt emptyDb none .null
        ⟨"u1".toList, .str "empathetic".toList, .bool true, .bool false⟩ (.str [])).2
      ≠ emptyDb := by
  constructor
  · unfold lowVerbosity
    rw [generateSystemPrompt_verbosity]
    have e : (generateSystemPrompt emptyDb none .null
        ⟨"u1".toList, .str "empathetic".toList, .bool true, .bool false⟩ (.str [])).1
        = composePrompt defaultAISettings none .null
            ⟨"u1".toList, .str "empathetic".toList, .bool true, .bool false⟩ (.str []) := rfl
    rw [e]
    intro h
    unfold composePrompt at h
    have hb : basePrompt { defaultAISettings with verbosity := .str "low".toList }
        = basePrompt defaultAISettings := rfl
    have ha : ∀ us, agenticGuidance { defaultAISettings with verbosity := .str "low".toList } us
        = agenticGuidance defaultAISettings us := fun _ => rfl
    rw [hb, ha] at h
    have := jsLines_inj_at
      [basePrompt defaultAISettings, [], profileInfo none, [], dynamicProfileSection (.str []),
       [], fatigueGuidance .null, [], _, _, [], _, [], _, _, _, _, _, _, _, _, _, _, _, []]
      _ _ _ h
    revert this
    decide
  · decide

/-- C23 (amended): the text of `generateSystemPrompt` of server-mongo.js is the
composition of its four inputs and the global settings read from the store;
two stores with the same global settings give the same text; the store after
the call is the one after `getAISettings`; a second call with the same inputs
on that store gives the same text and leaves the store as it is. -/
theorem generateSystemPrompt_inputs (db1 db2 : Db) (p : Option Profile) (f : JsValue)
    (s : UserSettings) (d : JsValue)
    (h : (getAISettings db1).1 = (getAISettings db2).1) :
    (generateSystemPrompt db1 p f s d).1 = composePrompt (getAISettings db1).1 p f s d ∧
    (generateSystemPrompt db1 p f s d).1 = (generateSystemPrompt db2 p f s d).1 ∧
    (generateSystemPrompt db1 p f s d).2 = (getAISettings db1).2 ∧
    generateSystemPrompt (generateSystemPrompt db1 p f s d).2 p f s d
      = generateSystemPrompt db1 p f s d := by
  have e : ∀ db : Db, generateSystemPrompt db p f s d
      = (composePrompt (getAISettings db).1 p f s d, (getAISettings db).2) := fun _ => rfl
  refine ⟨by rw [e], by rw [e, e, h], by rw [e], ?_⟩
  rw [e db1]
  exact generateSystemPrompt_of_some _ _ (getAISettings_stored db1) p f s d

/-- C23 (amended) at the store without settings document and the store that
holds the default settings. -/
theorem generateSystemPrompt_inputs_witness :
    (generateSystemPrompt emptyDb none .null
        ⟨"u1".toList, .str "empathetic".toList, .bool true, .bool false⟩ (.str [])).1
      = (generateSystemPrompt { emptyDb with ai_settings := some defaultAISettings } none .null
        ⟨"u1".toList, .str "empathetic".toList, .bool true, .bool false⟩ (.str [])).1 :=
  (generateSystemPrompt_inputs emptyDb { emptyDb with ai_settings := some defaultAISettings }
    none .null ⟨"u1".toList, .str "empathetic".toList, .bool true, .bool false⟩ (.str [])
    rfl).2.1

/-! ## The claim about the fatigue quiz -/

theorem fatigueLevelOf_eq_one (a : ℚ) (h : a * 10 < 21 / 2) : fatigueLevelOf a = 1 := by
  unfold fatigueLevelOf mathRound
  have h1 : ⌊a * 10 + 1 / 2⌋ ≤ 10 := by
    have : ⌊a * 10 + 1 / 2⌋ < 11 := by
      rw [Int.floor_lt]; push_cast; linarith
    omega
  have h2 : ((⌊a * 10 + 1 / 2⌋ : ℤ) : ℚ) / 10 ≤ 1 := by
    have : ((⌊a * 10 + 1 / 2⌋ : ℤ) : ℚ) ≤ 10 := by exact_mod_cast h1
    linarith
  rw [max_eq_left h2]
  norm_num

theorem quizTotals_highest : quizTotals seedQuiz highestAnswers = (117 / 20, 13 / 2) := by
  simp [quizTotals, seedQuiz, highestAnswers]
  norm_num

theorem quizTotals_lowest : quizTotals seedQuiz lowestAnswers = (13 / 20, 13 / 2) := by
  simp [quizTotals, seedQuiz, lowestAnswers]
  norm_num

/-- C30: over the seeded questions the weighted mean is 0.9 when every
question is answered with its highest option and 0.1 when every question is
answered with its lowest option, and the suggested fatigue level is 1 in both
cases: `Math.round(averageScore * 10) / 10` is at most 0.9, below the lower
clamp. -/
theorem quiz_level_same_for_highest_and_lowest :
    averageScore seedQuiz highestAnswers = 9 / 10 ∧
    averageScore seedQuiz lowestAnswers = 1 / 10 ∧
    suggestedFatigueLevel seedQuiz highestAnswers = 1 ∧
    suggestedFatigueLevel seedQuiz lowestAnswers = 1 := by
  have h1 : averageScore seedQuiz highestAnswers = 9 / 10 := by
    unfold averageScore; rw [quizTotals_highest]; norm_num
  have h2 : averageScore seedQuiz lowestAnswers = 1 / 10 := by
    unfold averageScore; rw [quizTotals_lowest]; norm_num
  refine ⟨h1, h2, ?_, ?_⟩
  · unfold suggestedFatigueLevel; rw [h1]; exact fatigueLevelOf_eq_one _ (by norm_num)
  · unfold suggestedFatigueLevel; rw [h2]; exact fatigueLevelOf_eq_one _ (by norm_num)

/-! ## The claims about deletion and ownership -/

theorem deleteUser_messages (db : Db) (userId : JsString) :
    (deleteUser db userId).messages = db.messages := by
  simp [deleteUser, Message.user_id]

/-- C24: in a store where user `u1` owns the chat `c1` with two messages,
`deleteAllUserData` removes the user and the chat, and both messages of the
chat stay in `messages`: the filter `{ user_id: userId }` matches no message,
a message having no field `user_id`. -/
theorem deleteAllUserData_keeps_messages :
    (deleteAllUserData privateDb "u1".toList).users = ["u2".toList] ∧
    (deleteAllUserData privateDb "u1".toList).chats = [] ∧
    getChatMessages (deleteAllUserData privateDb "u1".toList) "c1".toList
      = [⟨"c1".toList, "user".toList, "My scan showed a relapse".toList, none⟩,
         ⟨"c1".toList, "assistant".toList, "I am sorry to hear that.".toList, none⟩] := by
  decide

/-- C25: user `u2` names the chat `c1` of user `u1`. The GET and DELETE
endpoints answer 403 and leave the store as it was; `POST /api/chat` answers
200, appends the message of `u2` and the reply to the chat and sends the two
earlier messages of `u1` to the model. -/
theorem post_chat_ignores_owner :
    getChatEndpoint privateDb "u2".toList "c1".toList = .forbidden ∧
    deleteChatEndpoint privateDb "u2".toList "c1".toList = (.forbidden, privateDb) ∧
    (chatHandler (.str "sk-test".toList) (fun _ => some "Your scan.".toList) privateDb
        intruderRequest).map (fun o => (o.status, getChatMessages o.db "c1".toList,
          o.modelRequest.map (fun r => r.messages)))
      = some (200,
          [⟨"c1".toList, "user".toList, "My scan showed a relapse".toList, none⟩,
           ⟨"c1".toList, "assistant".toList, "I am sorry to hear that.".toList, none⟩,
           ⟨"c1".toList, "user".toList, "What did we talk about?".toList, none⟩,
           ⟨"c1".toList, "assistant".toList, "Your scan.".toList, none⟩],
          some [⟨"user".toList, "My scan showed a relapse".toList⟩,
                ⟨"assistant".toList, "I am sorry to hear that.".toList⟩,
                ⟨"user".toList, "What did we talk about?".toList⟩]) := by
  refine ⟨by decide, by decide, ?_⟩
  set_option maxRecDepth 100000 in decide

/-! ## The claims about stripping and the catalog tags -/

/-- C26: the display text of the reply with two breathing tags still holds
the second tag; the parser run on that display text extracts the tag and
returns another text. -/
theorem parseDirectives_second_pass :
    parseDirectives
        "Try [BREATHING:Box:60:4-4-4-4:x] or [BREATHING:Calm:30:4-7-8:y]".toList
      = some ⟨"Try  or [BREATHING:Calm:30:4-7-8:y]".toList, [],
          [⟨"Box".toList, some 60, "4-4-4-4".toList, "x".toList⟩]⟩ ∧
    parseDirectives "Try  or [BREATHING:Calm:30:4-7-8:y]".toList
      = some ⟨"Try  or ".toList, [],
          [⟨"Calm".toList, some 30, "4-7-8".toList, "y".toList⟩]⟩ := by
  constructor <;> decide

/-- C27: the catalog item of the seeded exercise `Box Breathing`, whose
`embed_code` is empty, advertises the tag
`[BREATHING:Box Breathing:60:Inhale 4, hold 4, exhale 4, hold 4:]`; in a reply
the parser extracts nothing from that tag and leaves it in the display text. -/
theorem seeded_breathing_tag_not_parsed :
    "Format: [BREATHING:Box Breathing:60:Inhale 4, hold 4, exhale 4, hold 4:]".toList
      <:+ breathingItem boxBreathing ∧
    parseDirectives
        "Let's breathe. [BREATHING:Box Breathing:60:Inhale 4, hold 4, exhale 4, hold 4:]".toList
      = some ⟨"Let's breathe. [BREATHING:Box Breathing:60:Inhale 4, hold 4, exhale 4, hold 4:]".toList,
          [], []⟩ := by
  constructor
  · decide
  · decide

end UntireChatbot
